import Mathlib

/-!
# Verification of the Prop Rig Generating Tool

Shallow embedding of `final.py` (a Maya prop-rig utility).  The Maya scene
graph is modelled as a list of named nodes with parent pointers and
world-space translations; the host command surface (`maya.cmds`) is modelled
per the specification section 6 (node existence query, empty-group creation
with optional parent, listing and filtering, world-space transform query/set,
locator creation, joint creation with explicit position, reparenting,
selection query/set, skin binding).  Each operation of the tool
(`create_group`, `place_locators`, `build_rig`, `bind_geom`) is translated
statement by statement from the Python source.
-/

set_option maxHeartbeats 1000000
set_option linter.unusedVariables false

namespace PropRig

/-- Node-type tag.  A locator stands for the locator transform together with
its (never separately queried) locator shape; a `mesh` node is a mesh shape
parented under some transform. -/
inductive NType where
  | transform
  | locator
  | joint
  | mesh
deriving DecidableEq, Repr

/-- World-space translation.  The tool performs no arithmetic on positions:
they are only copied between nodes, so integer coordinates model the host
floats faithfully for every claim. -/
abbrev Pos := Int × Int × Int

/-- A scene node: unique id, (short) name, type, optional parent id, and
world-space translation.  For every node the tool creates, the world rotate
pivot coincides with the world translation (no pivot offsets are ever set),
so a single position field models both queries. -/
structure SNode where
  id : Nat
  name : String
  ntype : NType
  parent : Option Nat
  pos : Pos
deriving DecidableEq, Repr

/-- Logging levels of the `LOG` logger in `final.py`. -/
inductive Level where
  | info
  | warn
  | error
deriving DecidableEq, Repr

abbrev LogEntry := Level × String

/-- A host (maya.cmds) call that mutates the scene, recorded in a trace. -/
inductive HEvent where
  | createGroup (id : Nat) (name : String) (parent : Option Nat)
  | createLocator (id : Nat) (name : String)
  | createJoint (id : Nat) (name : String) (p : Pos)
  | setTranslation (id : Nat) (p : Pos)
  | reparent (child : Nat) (target : Nat)
  | selectClear
  | selectNodes (ids : List Nat)
  | skinBind (joints : List Nat) (geos : List Nat)
deriving DecidableEq, Repr

/-- The live scene: authoritative state of the host application, plus the
log produced by the tool and the trace of mutating host calls. -/
structure Scene where
  nodes : List SNode
  nextId : Nat
  selection : List Nat
  log : List LogEntry
  trace : List HEvent
deriving DecidableEq, Repr

def emptyScene : Scene :=
  { nodes := [], nextId := 0, selection := [], log := [], trace := [] }

/-- `cmds.objExists` on a short name: some node carries that name. -/
def objExistsName (s : Scene) (n : String) : Bool :=
  s.nodes.any (fun m => m.name == n)

/-- First node carrying a given short name (host name resolution). -/
def firstNamed (s : Scene) (n : String) : Option SNode :=
  s.nodes.find? (fun m => m.name == n)

def findIdByName (s : Scene) (n : String) : Option Nat :=
  (firstNamed s n).map (fun m => m.id)

def getNode (s : Scene) (i : Nat) : Option SNode :=
  s.nodes.find? (fun m => m.id == i)

def nameOfId (s : Scene) (i : Nat) : String :=
  ((getNode s i).map (fun m => m.name)).getD ""

def parentOf (s : Scene) (i : Nat) : Option Nat :=
  (getNode s i).bind (fun m => m.parent)

/-- `cmds.objExists` on a two-component path `a|b`: some node named `b`
whose parent is named `a` (host partial-path matching). -/
def pathExists2 (s : Scene) (a b : String) : Bool :=
  s.nodes.any (fun y => y.name == b &&
    (match y.parent with
     | some pid => ((getNode s pid).map (fun p => p.name)).getD "" == a
     | none => false))

/-- Resolve a two-component path `a|b` to the id of the matched node. -/
def findPath2 (s : Scene) (a b : String) : Option Nat :=
  (s.nodes.find? (fun y => y.name == b &&
    (match y.parent with
     | some pid => ((getNode s pid).map (fun p => p.name)).getD "" == a
     | none => false))).map (fun y => y.id)

/-- Ancestor ids of a node, walked through parent pointers with fuel. -/
def ancIds (s : Scene) : Nat → Nat → List Nat
  | 0, _ => []
  | fuel + 1, i =>
    match parentOf s i with
    | none => []
    | some p => p :: ancIds s fuel p

/-- `d` lies strictly below `a` in the hierarchy. -/
def isDescendant (s : Scene) (d a : Nat) : Bool :=
  (ancIds s s.nodes.length d).contains a

/-- Full DAG path of a node, component names joined by a pipe, following
the convention the tool itself uses when it builds paths such as
`GRP_asset|GRP_rig`. -/
def fullPath (s : Scene) (i : Nat) : String :=
  String.intercalate "|" (((ancIds s s.nodes.length i).reverse ++ [i]).map (nameOfId s))

/-- `cmds.listRelatives(x, parent=True)`: short name of the parent. -/
def parentShortName (s : Scene) (i : Nat) : Option String :=
  (parentOf s i).map (nameOfId s)

/-- `cmds.listRelatives(x, parent=True, fullPath=True)`. -/
def parentFullPath (s : Scene) (i : Nat) : Option String :=
  (parentOf s i).map (fullPath s)

/-- `cmds.xform(n, query=True, worldSpace=True, translation=True)` (and,
for the nodes this tool makes, the `rotatePivot` query as well). -/
def posOfName (s : Scene) (n : String) : Pos :=
  ((firstNamed s n).map (fun m => m.pos)).getD (0, 0, 0)

/-- `cmds.nodeType`: a locator is reported through its transform. -/
def nodeTypeStr : NType → String
  | .transform => "transform"
  | .locator => "transform"
  | .joint => "joint"
  | .mesh => "mesh"

/-- Host type filter `type="transform"` matches transforms and the node
types derived from transform (joints, locator transforms). -/
def isTransformType : NType → Bool
  | .transform => true
  | .locator => true
  | .joint => true
  | .mesh => false

def logMsg (s : Scene) (lv : Level) (m : String) : Scene :=
  { s with log := s.log ++ [(lv, m)] }

def addEvent (s : Scene) (e : HEvent) : Scene :=
  { s with trace := s.trace ++ [e] }

/-- Append a freshly numbered node (shared body of the creation commands). -/
def createNode (s : Scene) (n : String) (t : NType) (par : Option Nat)
    (p : Pos) (e : HEvent) : Scene :=
  { s with
    nodes := s.nodes ++ [{ id := s.nextId, name := n, ntype := t, parent := par, pos := p }],
    nextId := s.nextId + 1,
    trace := s.trace ++ [e] }

/-- `cmds.group(empty=True, name=n, parent=...)`: an empty transform with
zero local offset, so its world position is its parent position (the world
origin at the scene root). -/
def groupCmd (s : Scene) (n : String) (par : Option Nat) : Scene :=
  let p := (par.bind (fun i => (getNode s i).map (fun m => m.pos))).getD (0, 0, 0)
  createNode s n .transform par p (.createGroup s.nextId n par)

/-- `cmds.spaceLocator(name=n)`: a locator at the world origin. -/
def spaceLocatorCmd (s : Scene) (n : String) : Scene :=
  createNode s n .locator none (0, 0, 0) (.createLocator s.nextId n)

/-- `cmds.joint(name=n, position=p)`: a joint at world position `p`,
parented under the currently selected node when one is selected. -/
def jointCmd (s : Scene) (n : String) (p : Pos) : Scene :=
  createNode s n .joint s.selection.head? p (.createJoint s.nextId n p)

/-- `cmds.xform(n, worldSpace=True, translation=p)`: set the world
translation of the node the name resolves to (spec section 6 world-space
transform set). -/
def xformSetWT (s : Scene) (n : String) (p : Pos) : Scene :=
  match findIdByName s n with
  | some i =>
    { s with
      nodes := s.nodes.map (fun m => if m.id == i then { m with pos := p } else m),
      trace := s.trace ++ [.setTranslation i p] }
  | none => s

/-- `cmds.select(clear=True)`. -/
def selectClearCmd (s : Scene) : Scene :=
  { s with selection := [], trace := s.trace ++ [.selectClear] }

/-- `cmds.select(objs)`. -/
def selectNodesCmd (s : Scene) (ids : List Nat) : Scene :=
  { s with selection := ids, trace := s.trace ++ [.selectNodes ids] }

/-- `cmds.parent(child, target)`: the call is always recorded; it fails
(raising, in Python, an exception the tool catches) when the child is the
target, is already a child of the target, or the target sits below the
child.  On success only the parent pointer of the child changes: the host
preserves world transforms on reparent. -/
def parentCmd (s : Scene) (childId targetId : Nat) : Scene × Bool :=
  if childId == targetId then (addEvent s (.reparent childId targetId), false)
  else if parentOf s childId == some targetId then (addEvent s (.reparent childId targetId), false)
  else if isDescendant s targetId childId then (addEvent s (.reparent childId targetId), false)
  else
    ({ s with
        nodes := s.nodes.map (fun m =>
          if m.id == childId then { m with parent := some targetId } else m),
        trace := s.trace ++ [HEvent.reparent childId targetId] },
      true)

/-- `cmds.skinCluster(toSelectedBones=True)`: one binding operation
associating the selected joints with the selected geometry. -/
def skinClusterCmd (s : Scene) : Scene :=
  let isJ := fun i => ((getNode s i).map (fun m => m.ntype == NType.joint)).getD false
  addEvent s (.skinBind (s.selection.filter isJ) (s.selection.filter (fun i => !isJ i)))

/-- `_asset_name`: value of the `ASSET` environment variable, or the
fallback literal (with a warning flag) when unset or empty. -/
def _asset_name (env : Option String) : String × Bool :=
  match env with
  | none => ("defaultAsset", true)
  | some n => if n == "" then ("defaultAsset", true) else (n, false)

def _grp_names (asset : String) : String × String × String :=
  ("GRP_" ++ asset, "GRP_geom", "GRP_rig")

def _loc_names : String × String × String :=
  ("LOC_root", "LOC_base", "LOC_move")

def _jnt_names : String × String × String :=
  ("JNT_root", "JNT_base", "JNT_move")

/-- Every operation opens by reading the asset name; the fallback path also
logs a warning. -/
def assetPrelude (env : Option String) (s : Scene) : String × Scene :=
  let an := _asset_name env
  (an.1, if an.2 then logMsg s .warn "ASSET env var not set. Using fallback defaultAsset." else s)

/-- Reduce a selected node to its owning transform: a non-transform node
is replaced by its parent when it has one (`cmds.nodeType` plus
`cmds.listRelatives(parent=True)` in the source). -/
def xfOf (s : Scene) (nodeId : Nat) : Nat :=
  if ((getNode s nodeId).map (fun m => nodeTypeStr m.ntype)).getD "" == "transform" then nodeId
  else (parentOf s nodeId).getD nodeId

/-- The per-node body of the selection loop in `create_group`: after the
transform reduction, check existence and try to parent the node under
`GRP_geom`; a failed host call is logged as a warning and skipped. -/
def moveStep (geomId : Nat) (s : Scene) (nodeId : Nat) : Scene × Nat :=
  if (getNode s (xfOf s nodeId)).isSome then
    match parentCmd s (xfOf s nodeId) geomId with
    | (s1, true) => (s1, 1)
    | (s1, false) => (logMsg s1 .warn "Could not parent selected node under GRP_geom", 0)
  else (s, 0)

/-- The selection loop of `create_group`. -/
def moveSelected (geomId : Nat) : List Nat → Scene → Scene × Nat
  | [], s => (s, 0)
  | nodeId :: rest, s =>
    let step := moveStep geomId s nodeId
    let rec2 := moveSelected geomId rest step.1
    (rec2.1, step.2 + rec2.2)

/-- First step of `create_group`: create the root group when absent. -/
def ensureRootGroup (s : Scene) (root : String) : Scene :=
  if objExistsName s root then
    logMsg s .info "root group already exists (no duplicate created)"
  else
    logMsg (groupCmd s root none) .info "Created root group"

/-- Second and third steps of `create_group`: create a child group under
the root when the path `root|child` does not exist. -/
def ensureChildGroup (s : Scene) (root child : String) : Scene :=
  if pathExists2 s root child then s
  else logMsg (groupCmd s child (findIdByName s root)) .info "Created child group"

/-- Final phase of `create_group`: warn on an empty selection, else move
every selected transform under the geometry group. -/
def moveSelPhase (s : Scene) (root geom : String) : Scene :=
  if s.selection.isEmpty then
    logMsg s .warn "No selection found. Nothing was moved into GRP_geom."
  else
    match findPath2 s root geom with
    | some geomId =>
      let mv := moveSelected geomId s.selection s
      logMsg mv.1 .info "Moved item(s) under GRP_geom"
    | none => s

/-- `create_group`: ensure `GRP_<asset>` with children `GRP_geom` and
`GRP_rig`, then move the selected transforms under `GRP_geom`. -/
def create_group (env : Option String) (s0 : Scene) : Scene :=
  let pre := assetPrelude env s0
  let asset := pre.1
  let names := _grp_names asset
  let root := names.1
  let geom := names.2.1
  let rig := names.2.2
  let s := ensureRootGroup pre.2 root
  let s := ensureChildGroup s root geom
  let s := ensureChildGroup s root rig
  moveSelPhase s root geom

/-- The loop body of `place_locators`: create the locator when absent,
then set its world translation to the queried pivot. -/
def place1 (s : Scene) (loc : String) (pivot : Pos) : Scene :=
  let s :=
    if !objExistsName s loc then logMsg (spaceLocatorCmd s loc) .info "Created locator"
    else s
  xformSetWT s loc pivot

/-- `place_locators`: requires the root group; creates each missing
locator, then sets every locator to the root group pivot. -/
def place_locators (env : Option String) (s0 : Scene) : Scene :=
  let pre := assetPrelude env s0
  let asset := pre.1
  let root := (_grp_names asset).1
  let s := pre.2
  if !objExistsName s root then
    logMsg s .error "root group does not exist. Run Create Group first."
  else
    let locs := _loc_names
    let pivot := posOfName s root
    let s := place1 s locs.1 pivot
    let s := place1 s locs.2.1 pivot
    let s := place1 s locs.2.2 pivot
    logMsg s .info "Locators placed."

/-- `build_rig._ensure_joint`: move the same-named node when it exists,
otherwise clear the selection and create the joint at the position. -/
def _ensure_joint (s : Scene) (n : String) (p : Pos) : Scene :=
  if objExistsName s n then
    logMsg (xformSetWT s n p) .info "Moved joint to locator position."
  else
    logMsg (jointCmd (selectClearCmd s) n p) .info "Created joint"

/-- One guarded reparent of the joint chain: skip when the current parent
already carries the target short name (`listRelatives(child, parent=True)
!= [target]`), otherwise issue the host call.  The flag records whether the
Python line would have raised. -/
def parentIfNeededShort (s : Scene) (child target : String) : Scene × Bool :=
  match findIdByName s child, findIdByName s target with
  | some c, some t =>
    if parentShortName s c != some target then parentCmd s c t else (s, true)
  | _, _ => (s, false)

/-- The first try-block of `build_rig`: chain `JNT_root → JNT_base →
JNT_move`; an exception in the first reparent skips the second. -/
def chainTry (s : Scene) (jntRoot jntBase jntMove : String) : Scene :=
  match parentIfNeededShort s jntBase jntRoot with
  | (s1, true) =>
    match parentIfNeededShort s1 jntMove jntBase with
    | (s2, true) => s2
    | (s2, false) => logMsg s2 .warn "Parenting joints failed"
  | (s1, false) => logMsg s1 .warn "Parenting joints failed"

/-- The second try-block of `build_rig`: reparent the chain root under the
rig group unless its parent full path already equals `rigPath`. -/
def rigTry (s : Scene) (rigPath root rig jntRoot : String) : Scene :=
  match findIdByName s jntRoot with
  | some jr =>
    if parentFullPath s jr != some rigPath then
      match findPath2 s root rig with
      | some t =>
        match parentCmd s jr t with
        | (s1, true) => s1
        | (s1, false) => logMsg s1 .warn "Parenting chain root under rig group failed"
      | none => logMsg s .warn "Parenting chain root under rig group failed"
    else s
  | none => logMsg s .warn "Parenting chain root under rig group failed"

/-- `build_rig`: prerequisite checks, position sync of the three joints
against the three locators, then the two guarded parenting passes. -/
def build_rig (env : Option String) (s0 : Scene) : Scene :=
  let pre := assetPrelude env s0
  let asset := pre.1
  let names := _grp_names asset
  let root := names.1
  let rig := names.2.2
  let rigPath := root ++ "|" ++ rig
  let s := pre.2
  if !pathExists2 s root rig then
    logMsg s .error "rig path does not exist. Run Create Group first."
  else
    let locs := _loc_names
    if !objExistsName s locs.1 then
      logMsg s .error "LOC_root not found. Run Place Locators first."
    else if !objExistsName s locs.2.1 then
      logMsg s .error "LOC_base not found. Run Place Locators first."
    else if !objExistsName s locs.2.2 then
      logMsg s .error "LOC_move not found. Run Place Locators first."
    else
      let jnts := _jnt_names
      let pRoot := posOfName s locs.1
      let pBase := posOfName s locs.2.1
      let pMove := posOfName s locs.2.2
      let s := _ensure_joint s jnts.1 pRoot
      let s := _ensure_joint s jnts.2.1 pBase
      let s := _ensure_joint s jnts.2.2 pMove
      let s := chainTry s jnts.1 jnts.2.1 jnts.2.2
      let s := rigTry s rigPath root rig jnts.1
      logMsg s .info "Rig built or updated under rig path"

/-- Transforms below a group that own at least one mesh shape. -/
def meshTransformsUnder (s : Scene) (gid : Nat) : List Nat :=
  (s.nodes.filter (fun m =>
    isDescendant s m.id gid && isTransformType m.ntype &&
    s.nodes.any (fun sh => sh.parent == some m.id && sh.ntype == NType.mesh))).map
    (fun m => m.id)

/-- `bind_geom`: requires both groups and the three joints; with no mesh
transform below `GRP_geom` it warns and performs no binding call, otherwise
it selects the joints with the meshes and issues one skin bind. -/
def bind_geom (env : Option String) (s0 : Scene) : Scene :=
  let pre := assetPrelude env s0
  let asset := pre.1
  let names := _grp_names asset
  let root := names.1
  let geom := names.2.1
  let rig := names.2.2
  let s := pre.2
  if !(pathExists2 s root geom && pathExists2 s root rig) then
    logMsg s .error "Groups missing. Run Create Group first."
  else
    let jnts := _jnt_names
    if !objExistsName s jnts.1 then
      logMsg s .error "Joints missing. Run Build Rig first."
    else if !objExistsName s jnts.2.1 then
      logMsg s .error "Joints missing. Run Build Rig first."
    else if !objExistsName s jnts.2.2 then
      logMsg s .error "Joints missing. Run Build Rig first."
    else
      match findPath2 s root geom with
      | some gid =>
        let geos := meshTransformsUnder s gid
        if geos.isEmpty then
          logMsg s .warn "No mesh geometry found under GRP_geom to bind."
        else
          let s := selectClearCmd s
          let jids := [(findIdByName s jnts.1).getD 0, (findIdByName s jnts.2.1).getD 0,
            (findIdByName s jnts.2.2).getD 0]
          let s := selectNodesCmd s (jids ++ geos)
          logMsg (skinClusterCmd s) .info "Bound mesh transform(s) to joints."
      | none => logMsg s .error "Groups missing. Run Create Group first."

/-- The position-sync phase of `build_rig` (the three `_ensure_joint`
calls over the prelude), named for the parenting-guard analysis. -/
def ensureStage (env : Option String) (s : Scene) : Scene :=
  _ensure_joint
    (_ensure_joint
      (_ensure_joint (assetPrelude env s).2 "JNT_root" (posOfName s "LOC_root"))
      "JNT_base" (posOfName s "LOC_base"))
    "JNT_move" (posOfName s "LOC_move")

/-- Scene sanity: node ids are below the id counter and pairwise distinct,
and the selection refers to existing nodes (as `cmds.ls` guarantees). -/
def wf (s : Scene) : Bool :=
  (s.nodes.all (fun m => decide (m.id < s.nextId)) &&
    decide ((s.nodes.map (fun m => m.id)).Nodup)) &&
    s.selection.all (fun i => s.nodes.any (fun m => m.id == i))

/-- Parent pointers refer only to already allocated ids. -/
def ptrBounded (s : Scene) : Bool :=
  s.nodes.all (fun m =>
    match m.parent with
    | some p => decide (p < s.nextId)
    | none => true)

/-- Host name sanity: no node name contains the DAG path separator, as the
host itself guarantees for its node names. -/
def noPipeNames (s : Scene) : Prop :=
  ∀ m ∈ s.nodes, ('|' : Char) ∉ m.name.data

/-- Number of nodes carrying a name. -/
def countName (s : Scene) (n : String) : Nat :=
  (s.nodes.filter (fun m => m.name == n)).length

/-- Node type carried by the first node of a given name. -/
def ntypeOfName (s : Scene) (n : String) : Option NType :=
  (firstNamed s n).map (fun m => m.ntype)

/-- Total number of nodes carrying one of the three joint names. -/
def jointTotal (s : Scene) : Nat :=
  countName s "JNT_root" + countName s "JNT_base" + countName s "JNT_move"

/-- Host events appended by an operation that turned `s` into `t`. -/
def newTrace (s t : Scene) : List HEvent :=
  t.trace.drop s.trace.length

/-- Log entries appended by an operation that turned `s` into `t`. -/
def newLog (s t : Scene) : List LogEntry :=
  t.log.drop s.log.length

/-- The root-group name every operation derives from the environment. -/
def rootNameOf (env : Option String) : String :=
  (_grp_names (_asset_name env).1).1

/-- The standing precondition of `build_rig` together with scene sanity
and at-most-one node per joint name. -/
def rigInv (env : Option String) (s : Scene) : Prop :=
  wf s = true ∧ pathExists2 s (rootNameOf env) "GRP_rig" = true
    ∧ objExistsName s "LOC_root" = true ∧ objExistsName s "LOC_base" = true
    ∧ objExistsName s "LOC_move" = true
    ∧ countName s "JNT_root" ≤ 1 ∧ countName s "JNT_base" ≤ 1
    ∧ countName s "JNT_move" ≤ 1

def jntNameList : List String :=
  ["JNT_root", "JNT_base", "JNT_move"]

def locNameList : List String :=
  ["LOC_root", "LOC_base", "LOC_move"]

/-- An appended log contains an entry of the given level. -/
def logHas (es : List LogEntry) (lv : Level) : Bool :=
  es.any (fun e => e.1 == lv)

/-- Number of skin-binding host calls in a trace. -/
def skinBindCount (tr : List HEvent) : Nat :=
  (tr.filter (fun e => match e with | .skinBind _ _ => true | _ => false)).length

/-- Number of node-creation host calls in a trace. -/
def createCount (tr : List HEvent) : Nat :=
  (tr.filter (fun e =>
    match e with
    | .createGroup _ _ _ => true
    | .createLocator _ _ => true
    | .createJoint _ _ _ => true
    | _ => false)).length

/-- Number of group-creation host calls in a trace. -/
def createGroupCount (tr : List HEvent) : Nat :=
  (tr.filter (fun e => match e with | .createGroup _ _ _ => true | _ => false)).length

/-- A host event that touches only the three rig joints (resolved against
the final scene `t`): clearing the selection, creating a joint, moving a
joint, or reparenting a joint. -/
def jointOnlyEvent (t : Scene) : HEvent → Bool
  | .selectClear => true
  | .createJoint _ n _ => jntNameList.contains n
  | .setTranslation i _ => jntNameList.contains (nameOfId t i)
  | .reparent c _ => jntNameList.contains (nameOfId t c)
  | _ => false

/-- Demo environment and workflow scenes used as concrete witnesses. -/
def demoEnv : Option String := some "trex"

def demoS1 : Scene := create_group demoEnv emptyScene

def demoS2 : Scene := place_locators demoEnv demoS1

def demoS3 : Scene := build_rig demoEnv demoS2

/-- The artist moves the three locators by hand (host transform sets). -/
def moveLocs (s : Scene) (q1 q2 q3 : Pos) : Scene :=
  xformSetWT (xformSetWT (xformSetWT s "LOC_root" q1) "LOC_base" q2) "LOC_move" q3

def demoMoved : Scene := moveLocs demoS3 (1, 2, 3) (4, 5, 6) (7, 8, 9)

/-- Claim C2 scenario: the full sequence run a second time after the
manual locator moves. -/
def demoSecondRun : Scene :=
  build_rig demoEnv (place_locators demoEnv (create_group demoEnv demoMoved))

/-- A demo scene with one mesh under the geometry group (for bind_geom):
a transform child of `GRP_geom` owning a mesh shape. -/
def demoMesh : Scene :=
  { demoS3 with
    nodes := demoS3.nodes ++
      [{ id := demoS3.nextId, name := "propGeo", ntype := .transform,
         parent := findIdByName demoS3 "GRP_geom", pos := (0, 0, 0) },
       { id := demoS3.nextId + 1, name := "propGeoShape", ntype := .mesh,
         parent := some demoS3.nextId, pos := (0, 0, 0) }],
    nextId := demoS3.nextId + 2 }

/-! ## Generic list helpers -/

theorem find?_map_pred {α} (g : α → α) (p : α → Bool) (h : ∀ m, p (g m) = p m)
    (l : List α) : (l.map g).find? p = (l.find? p).map g := by
  rw [List.find?_map]
  have hp : p ∘ g = p := funext h
  rw [hp]

theorem filter_length_map_pred {α} (g : α → α) (p : α → Bool) (h : ∀ m, p (g m) = p m)
    (l : List α) : ((l.map g).filter p).length = (l.filter p).length := by
  rw [List.filter_map]
  have hp : p ∘ g = p := funext h
  rw [hp, List.length_map]

theorem any_map_pred {α} (g : α → α) (p : α → Bool) (h : ∀ m, p (g m) = p m)
    (l : List α) : (l.map g).any p = l.any p := by
  rw [List.any_map]
  have hp : p ∘ g = p := funext h
  rw [hp]

/-! ## Well-formedness projections -/

theorem wf_nodupIds {s : Scene} (hwf : wf s = true) :
    (s.nodes.map (fun m => m.id)).Nodup := by
  simp only [wf, Bool.and_eq_true, decide_eq_true_eq] at hwf
  exact hwf.1.2

theorem wf_idLt {s : Scene} (hwf : wf s = true) :
    ∀ m ∈ s.nodes, m.id < s.nextId := by
  simp only [wf, Bool.and_eq_true, List.all_eq_true, decide_eq_true_eq] at hwf
  exact hwf.1.1

theorem wf_selValid {s : Scene} (hwf : wf s = true) :
    ∀ i ∈ s.selection, ∃ m ∈ s.nodes, m.id = i := by
  simp only [wf, Bool.and_eq_true, List.all_eq_true, List.any_eq_true,
    beq_iff_eq] at hwf
  exact hwf.2

theorem eq_of_mem_of_id_eq {s : Scene} {a b : SNode} (hwf : wf s = true)
    (ha : a ∈ s.nodes) (hb : b ∈ s.nodes) (h : a.id = b.id) : a = b :=
  List.inj_on_of_nodup_map (wf_nodupIds hwf) ha hb h

theorem firstNamed_mem {s : Scene} {n : String} {v : SNode}
    (h : firstNamed s n = some v) : v ∈ s.nodes :=
  List.mem_of_find?_eq_some h

theorem firstNamed_name {s : Scene} {n : String} {v : SNode}
    (h : firstNamed s n = some v) : v.name = n := by
  have := List.find?_some h
  simpa using this

theorem countName_unique {s : Scene} {n : String} {a b : SNode}
    (hc : countName s n = 1) (ha : a ∈ s.nodes) (hb : b ∈ s.nodes)
    (hna : a.name = n) (hnb : b.name = n) : a = b := by
  unfold countName at hc
  obtain ⟨x, hx⟩ := List.length_eq_one.mp hc
  have hax : a ∈ s.nodes.filter (fun m => m.name == n) := by
    simp [List.mem_filter, ha, hna]
  have hbx : b ∈ s.nodes.filter (fun m => m.name == n) := by
    simp [List.mem_filter, hb, hnb]
  rw [hx] at hax hbx
  simp at hax hbx
  rw [hax, hbx]

theorem countName_pos_of_objExists {s : Scene} {n : String}
    (h : objExistsName s n = true) : 0 < countName s n := by
  unfold objExistsName at h
  unfold countName
  obtain ⟨m, hm, hname⟩ := List.any_eq_true.mp h
  have : m ∈ s.nodes.filter (fun m => m.name == n) := by
    simp [List.mem_filter, hm, hname]
  exact List.length_pos.mpr (List.ne_nil_of_mem this)

theorem objExists_iff_firstNamed {s : Scene} {n : String} :
    objExistsName s n = true ↔ (firstNamed s n).isSome := by
  unfold objExistsName firstNamed
  rw [List.find?_isSome, List.any_eq_true]

theorem firstNamed_none_of_not_objExists {s : Scene} {n : String}
    (h : objExistsName s n = false) : firstNamed s n = none := by
  cases hf : firstNamed s n with
  | none => rfl
  | some v =>
    have : objExistsName s n = true := by
      rw [objExists_iff_firstNamed, hf]
      rfl
    rw [h] at this
    cases this

/-! ## `xformSetWT` lemmas -/

theorem xformSetWT_none {s : Scene} {n : String} {p : Pos}
    (h : findIdByName s n = none) : xformSetWT s n p = s := by
  unfold xformSetWT
  rw [h]

theorem xformSetWT_some {s : Scene} {n : String} {p : Pos} {i : Nat}
    (h : findIdByName s n = some i) :
    xformSetWT s n p =
      { s with
        nodes := s.nodes.map (fun m => if m.id == i then { m with pos := p } else m),
        trace := s.trace ++ [HEvent.setTranslation i p] } := by
  unfold xformSetWT
  rw [h]

theorem any_congr_mem {α} {l : List α} {p q : α → Bool}
    (h : ∀ a ∈ l, p a = q a) : l.any p = l.any q := by
  induction l with
  | nil => rfl
  | cons x xs ih =>
    simp only [List.any_cons, h x (List.mem_cons_self x xs)]
    rw [ih (fun a ha => h a (List.mem_cons_of_mem x ha))]

theorem posUpd_id {i : Nat} {p : Pos} (m : SNode) :
    (if m.id == i then { m with pos := p } else m).id = m.id := by
  by_cases h : m.id = i
  · rw [if_pos (beq_iff_eq.mpr h)]
  · rw [if_neg (by simp [h])]

theorem posUpd_name {i : Nat} {p : Pos} (m : SNode) :
    (if m.id == i then { m with pos := p } else m).name = m.name := by
  by_cases h : m.id = i
  · rw [if_pos (beq_iff_eq.mpr h)]
  · rw [if_neg (by simp [h])]

theorem posUpd_ntype {i : Nat} {p : Pos} (m : SNode) :
    (if m.id == i then { m with pos := p } else m).ntype = m.ntype := by
  by_cases h : m.id = i
  · rw [if_pos (beq_iff_eq.mpr h)]
  · rw [if_neg (by simp [h])]

theorem posUpd_parent {i : Nat} {p : Pos} (m : SNode) :
    (if m.id == i then { m with pos := p } else m).parent = m.parent := by
  by_cases h : m.id = i
  · rw [if_pos (beq_iff_eq.mpr h)]
  · rw [if_neg (by simp [h])]

theorem countName_xformSetWT {s : Scene} {n : String} {p : Pos} {m : String} :
    countName (xformSetWT s n p) m = countName s m := by
  cases h : findIdByName s n with
  | none => rw [xformSetWT_none h]
  | some i =>
    rw [xformSetWT_some h]
    unfold countName
    exact filter_length_map_pred (α := SNode) _ (fun v => v.name == m)
      (fun v => by simp only [posUpd_name]) _

theorem objExistsName_xformSetWT {s : Scene} {n : String} {p : Pos} {m : String} :
    objExistsName (xformSetWT s n p) m = objExistsName s m := by
  cases h : findIdByName s n with
  | none => rw [xformSetWT_none h]
  | some i =>
    rw [xformSetWT_some h]
    unfold objExistsName
    exact any_map_pred (α := SNode) _ (fun v => v.name == m) (fun v => by simp only [posUpd_name]) _

theorem firstNamed_xformSetWT {s : Scene} {n : String} {p : Pos} {m : String} {i : Nat}
    (h : findIdByName s n = some i) :
    firstNamed (xformSetWT s n p) m =
      (firstNamed s m).map (fun v => if v.id == i then { v with pos := p } else v) := by
  rw [xformSetWT_some h]
  unfold firstNamed
  exact find?_map_pred (α := SNode) _ (fun v => v.name == m) (fun v => by simp only [posUpd_name]) _

theorem posOfName_xformSetWT_self {s : Scene} {n : String} {p : Pos}
    (h : objExistsName s n = true) : posOfName (xformSetWT s n p) n = p := by
  obtain ⟨v, hv⟩ := Option.isSome_iff_exists.mp (objExists_iff_firstNamed.mp h)
  have hid : findIdByName s n = some v.id := by
    unfold findIdByName
    rw [hv]
    rfl
  unfold posOfName
  rw [firstNamed_xformSetWT hid, hv]
  simp

theorem posOfName_xformSetWT_other {s : Scene} {n : String} {p : Pos} {m : String}
    (hwf : wf s = true) (hmn : m ≠ n) :
    posOfName (xformSetWT s n p) m = posOfName s m := by
  cases h : findIdByName s n with
  | none => rw [xformSetWT_none h]
  | some i =>
    unfold posOfName
    rw [firstNamed_xformSetWT h]
    cases hw : firstNamed s m with
    | none => rfl
    | some w =>
      unfold findIdByName at h
      cases hv : firstNamed s n with
      | none => rw [hv] at h; cases h
      | some v =>
        rw [hv] at h
        simp at h
        have hvw : v ≠ w := by
          intro he
          exact hmn ((firstNamed_name hw).symm.trans (he ▸ firstNamed_name hv))
        have : w.id ≠ i := by
          rw [← h]
          intro he
          exact hvw (eq_of_mem_of_id_eq hwf (firstNamed_mem hv) (firstNamed_mem hw) he.symm)
        simp [this]

theorem getNode_xformSetWT {s : Scene} {n : String} {p : Pos} {j i : Nat}
    (h : findIdByName s n = some i) :
    getNode (xformSetWT s n p) j =
      (getNode s j).map (fun v => if v.id == i then { v with pos := p } else v) := by
  rw [xformSetWT_some h]
  unfold getNode
  exact find?_map_pred (α := SNode) _ (fun v => v.id == j) (fun v => by simp only [posUpd_id]) _

theorem parentOf_xformSetWT {s : Scene} {n : String} {p : Pos} {j : Nat} :
    parentOf (xformSetWT s n p) j = parentOf s j := by
  cases h : findIdByName s n with
  | none => rw [xformSetWT_none h]
  | some i =>
    unfold parentOf
    rw [getNode_xformSetWT h]
    cases getNode s j with
    | none => rfl
    | some w => exact posUpd_parent w

theorem nameOfId_xformSetWT {s : Scene} {n : String} {p : Pos} {j : Nat} :
    nameOfId (xformSetWT s n p) j = nameOfId s j := by
  cases h : findIdByName s n with
  | none => rw [xformSetWT_none h]
  | some i =>
    unfold nameOfId
    rw [getNode_xformSetWT h]
    cases getNode s j with
    | none => rfl
    | some w => exact posUpd_name w

theorem pathExists2_xformSetWT {s : Scene} {n : String} {p : Pos} {a b : String} :
    pathExists2 (xformSetWT s n p) a b = pathExists2 s a b := by
  cases h : findIdByName s n with
  | none => rw [xformSetWT_none h]
  | some i =>
    have hng : ∀ j, ((getNode (xformSetWT s n p) j).map (fun q => q.name)).getD "" =
        ((getNode s j).map (fun q => q.name)).getD "" := by
      intro j
      rw [getNode_xformSetWT h]
      cases getNode s j with
      | none => rfl
      | some w => exact posUpd_name w
    have hnodes : (xformSetWT s n p).nodes =
        s.nodes.map (fun m => if m.id == i then { m with pos := p } else m) := by
      rw [xformSetWT_some h]
    unfold pathExists2
    rw [hnodes, List.any_map]
    apply any_congr_mem
    intro y _
    simp only [Function.comp]
    rw [posUpd_name, posUpd_parent]
    cases hp : y.parent with
    | none => rfl
    | some pid => simp only [hng]

theorem selection_xformSetWT {s : Scene} {n : String} {p : Pos} :
    (xformSetWT s n p).selection = s.selection := by
  cases h : findIdByName s n with
  | none => rw [xformSetWT_none h]
  | some i => rw [xformSetWT_some h]

theorem log_xformSetWT {s : Scene} {n : String} {p : Pos} :
    (xformSetWT s n p).log = s.log := by
  cases h : findIdByName s n with
  | none => rw [xformSetWT_none h]
  | some i => rw [xformSetWT_some h]

theorem nextId_xformSetWT {s : Scene} {n : String} {p : Pos} :
    (xformSetWT s n p).nextId = s.nextId := by
  cases h : findIdByName s n with
  | none => rw [xformSetWT_none h]
  | some i => rw [xformSetWT_some h]

theorem nodesLength_xformSetWT {s : Scene} {n : String} {p : Pos} :
    (xformSetWT s n p).nodes.length = s.nodes.length := by
  cases h : findIdByName s n with
  | none => rw [xformSetWT_none h]
  | some i => rw [xformSetWT_some h]; simp

theorem mapIds_posUpd {l : List SNode} {i : Nat} {p : Pos} :
    (l.map (fun m => if m.id == i then { m with pos := p } else m)).map (fun m => m.id) =
      l.map (fun m => m.id) := by
  rw [List.map_map]
  apply List.map_congr_left
  intro a _
  simp only [Function.comp]
  rw [posUpd_id]

theorem wf_xformSetWT {s : Scene} {n : String} {p : Pos}
    (hwf : wf s = true) : wf (xformSetWT s n p) = true := by
  cases h : findIdByName s n with
  | none => rw [xformSetWT_none h]; exact hwf
  | some i =>
    rw [xformSetWT_some h]
    simp only [wf, Bool.and_eq_true, List.all_eq_true, decide_eq_true_eq] at hwf ⊢
    obtain ⟨⟨h1, h2⟩, h3⟩ := hwf
    refine ⟨⟨?_, ?_⟩, ?_⟩
    · intro m hm
      obtain ⟨a, ha, rfl⟩ := List.mem_map.mp hm
      rw [posUpd_id]
      exact h1 a ha
    · rw [mapIds_posUpd]
      exact h2
    · intro j hj
      have hj2 := h3 j hj
      rw [List.any_eq_true] at hj2 ⊢
      obtain ⟨m, hm, hid⟩ := hj2
      refine ⟨_, List.mem_map_of_mem _ hm, ?_⟩
      rw [posUpd_id]
      exact hid

/-! ## Node-list congruence: every scene query reads only `nodes` -/

theorem countName_congr {s t : Scene} {n : String} (h : t.nodes = s.nodes) :
    countName t n = countName s n := by
  unfold countName
  rw [h]

theorem objExistsName_congr {s t : Scene} {n : String} (h : t.nodes = s.nodes) :
    objExistsName t n = objExistsName s n := by
  unfold objExistsName
  rw [h]

theorem firstNamed_congr {s t : Scene} {n : String} (h : t.nodes = s.nodes) :
    firstNamed t n = firstNamed s n := by
  unfold firstNamed
  rw [h]

theorem findIdByName_congr {s t : Scene} {n : String} (h : t.nodes = s.nodes) :
    findIdByName t n = findIdByName s n := by
  unfold findIdByName
  rw [firstNamed_congr h]

theorem getNode_congr {s t : Scene} {i : Nat} (h : t.nodes = s.nodes) :
    getNode t i = getNode s i := by
  unfold getNode
  rw [h]

theorem parentOf_congr {s t : Scene} {i : Nat} (h : t.nodes = s.nodes) :
    parentOf t i = parentOf s i := by
  unfold parentOf
  rw [getNode_congr h]

theorem nameOfId_congr {s t : Scene} {i : Nat} (h : t.nodes = s.nodes) :
    nameOfId t i = nameOfId s i := by
  unfold nameOfId
  rw [getNode_congr h]

theorem posOfName_congr {s t : Scene} {n : String} (h : t.nodes = s.nodes) :
    posOfName t n = posOfName s n := by
  unfold posOfName
  rw [firstNamed_congr h]

theorem pathExists2_congr {s t : Scene} {a b : String} (h : t.nodes = s.nodes) :
    pathExists2 t a b = pathExists2 s a b := by
  unfold pathExists2 getNode
  rw [h]

theorem findPath2_congr {s t : Scene} {a b : String} (h : t.nodes = s.nodes) :
    findPath2 t a b = findPath2 s a b := by
  unfold findPath2 getNode
  rw [h]

theorem parentShortName_congr {s t : Scene} {i : Nat} (h : t.nodes = s.nodes) :
    parentShortName t i = parentShortName s i := by
  unfold parentShortName
  rw [parentOf_congr h]
  cases parentOf s i with
  | none => rfl
  | some j => simp [nameOfId_congr h]

theorem ancIds_congr {s t : Scene} (h : t.nodes = s.nodes) :
    ∀ fuel i, ancIds t fuel i = ancIds s fuel i := by
  intro fuel
  induction fuel with
  | zero => intro i; rfl
  | succ f ih =>
    intro i
    unfold ancIds
    rw [parentOf_congr h]
    cases parentOf s i with
    | none => rfl
    | some p => simp only [ih]

theorem fullPath_congr {s t : Scene} {i : Nat} (h : t.nodes = s.nodes) :
    fullPath t i = fullPath s i := by
  unfold fullPath
  rw [ancIds_congr h, h]
  congr 1
  apply List.map_congr_left
  intro a _
  exact nameOfId_congr h

theorem parentFullPath_congr {s t : Scene} {i : Nat} (h : t.nodes = s.nodes) :
    parentFullPath t i = parentFullPath s i := by
  unfold parentFullPath
  rw [parentOf_congr h]
  cases parentOf s i with
  | none => rfl
  | some j => simp [fullPath_congr h]

/-! ## Neutral primitives: `logMsg`, `selectClearCmd`, `selectNodesCmd` -/

theorem countName_logMsg {s : Scene} {lv : Level} {m : String} {n : String} :
    countName (logMsg s lv m) n = countName s n := countName_congr rfl

theorem objExistsName_logMsg {s : Scene} {lv : Level} {m : String} {n : String} :
    objExistsName (logMsg s lv m) n = objExistsName s n := objExistsName_congr rfl

theorem firstNamed_logMsg {s : Scene} {lv : Level} {m : String} {n : String} :
    firstNamed (logMsg s lv m) n = firstNamed s n := firstNamed_congr rfl

theorem findIdByName_logMsg {s : Scene} {lv : Level} {m : String} {n : String} :
    findIdByName (logMsg s lv m) n = findIdByName s n := findIdByName_congr rfl

theorem posOfName_logMsg {s : Scene} {lv : Level} {m : String} {n : String} :
    posOfName (logMsg s lv m) n = posOfName s n := posOfName_congr rfl

theorem pathExists2_logMsg {s : Scene} {lv : Level} {m : String} {a b : String} :
    pathExists2 (logMsg s lv m) a b = pathExists2 s a b := pathExists2_congr rfl

theorem findPath2_logMsg {s : Scene} {lv : Level} {m : String} {a b : String} :
    findPath2 (logMsg s lv m) a b = findPath2 s a b := findPath2_congr rfl

theorem parentOf_logMsg {s : Scene} {lv : Level} {m : String} {i : Nat} :
    parentOf (logMsg s lv m) i = parentOf s i := parentOf_congr rfl

theorem nameOfId_logMsg {s : Scene} {lv : Level} {m : String} {i : Nat} :
    nameOfId (logMsg s lv m) i = nameOfId s i := nameOfId_congr rfl

theorem parentShortName_logMsg {s : Scene} {lv : Level} {m : String} {i : Nat} :
    parentShortName (logMsg s lv m) i = parentShortName s i := parentShortName_congr rfl

theorem parentFullPath_logMsg {s : Scene} {lv : Level} {m : String} {i : Nat} :
    parentFullPath (logMsg s lv m) i = parentFullPath s i := parentFullPath_congr rfl

theorem nodesLength_logMsg {s : Scene} {lv : Level} {m : String} :
    (logMsg s lv m).nodes.length = s.nodes.length := rfl

theorem getNode_logMsg {s : Scene} {lv : Level} {m : String} {i : Nat} :
    getNode (logMsg s lv m) i = getNode s i := getNode_congr rfl

theorem selection_logMsg {s : Scene} {lv : Level} {m : String} :
    (logMsg s lv m).selection = s.selection := rfl

theorem trace_logMsg {s : Scene} {lv : Level} {m : String} :
    (logMsg s lv m).trace = s.trace := rfl

theorem countName_selectClearCmd {s : Scene} {n : String} :
    countName (selectClearCmd s) n = countName s n := countName_congr rfl

theorem objExistsName_selectClearCmd {s : Scene} {n : String} :
    objExistsName (selectClearCmd s) n = objExistsName s n := objExistsName_congr rfl

theorem firstNamed_selectClearCmd {s : Scene} {n : String} :
    firstNamed (selectClearCmd s) n = firstNamed s n := firstNamed_congr rfl

theorem findIdByName_selectClearCmd {s : Scene} {n : String} :
    findIdByName (selectClearCmd s) n = findIdByName s n := findIdByName_congr rfl

/-! ## Counting and existence -/

theorem countName_zero_of_not_objExists {s : Scene} {n : String}
    (h : objExistsName s n = false) : countName s n = 0 := by
  unfold objExistsName at h
  unfold countName
  rw [List.length_eq_zero]
  rw [List.filter_eq_nil_iff]
  intro a ha
  have := List.any_eq_false.mp h a ha
  simpa using this

theorem objExists_false_of_countName_zero {s : Scene} {n : String}
    (h : countName s n = 0) : objExistsName s n = false := by
  cases he : objExistsName s n with
  | false => rfl
  | true =>
    have := countName_pos_of_objExists he
    omega

theorem pathExists2_false_of_countZero {s : Scene} {a b : String}
    (h : countName s b = 0) : pathExists2 s a b = false := by
  cases hp : pathExists2 s a b with
  | false => rfl
  | true =>
    exfalso
    unfold pathExists2 at hp
    obtain ⟨y, hy, hpred⟩ := List.any_eq_true.mp hp
    have hyb : y.name = b := by
      have := Bool.and_elim_left hpred
      simpa using this
    have : 0 < countName s b := by
      unfold countName
      refine List.length_pos.mpr (List.ne_nil_of_mem (a := y) ?_)
      simp [List.mem_filter, hy, hyb]
    omega

/-! ## `createNode` lemmas -/

theorem createNode_nodes {s : Scene} {n : String} {t : NType} {par : Option Nat}
    {p : Pos} {e : HEvent} :
    (createNode s n t par p e).nodes =
      s.nodes ++ [{ id := s.nextId, name := n, ntype := t, parent := par, pos := p }] := rfl

theorem countName_createNode {s : Scene} {n : String} {t : NType} {par : Option Nat}
    {p : Pos} {e : HEvent} {m : String} :
    countName (createNode s n t par p e) m =
      countName s m + (if n == m then 1 else 0) := by
  unfold countName
  rw [createNode_nodes, List.filter_append, List.length_append]
  congr 1
  by_cases h : n = m
  · simp [h]
  · simp [h]

theorem objExistsName_createNode {s : Scene} {n : String} {t : NType} {par : Option Nat}
    {p : Pos} {e : HEvent} {m : String} :
    objExistsName (createNode s n t par p e) m = (objExistsName s m || (n == m)) := by
  unfold objExistsName
  rw [createNode_nodes, List.any_append]
  simp

theorem firstNamed_createNode_found {s : Scene} {n : String} {t : NType} {par : Option Nat}
    {p : Pos} {e : HEvent} {m : String} {w : SNode} (h : firstNamed s m = some w) :
    firstNamed (createNode s n t par p e) m = some w := by
  unfold firstNamed at h ⊢
  rw [createNode_nodes, List.find?_append, h]
  rfl

theorem firstNamed_createNode_new {s : Scene} {n : String} {t : NType} {par : Option Nat}
    {p : Pos} {e : HEvent} {m : String} (h : firstNamed s m = none) :
    firstNamed (createNode s n t par p e) m =
      if n == m then some { id := s.nextId, name := n, ntype := t, parent := par, pos := p }
      else none := by
  unfold firstNamed at h ⊢
  rw [createNode_nodes, List.find?_append, h]
  by_cases hm : n = m
  · simp [hm]
  · simp [hm]

theorem getNode_createNode_found {s : Scene} {n : String} {t : NType} {par : Option Nat}
    {p : Pos} {e : HEvent} {j : Nat} {w : SNode} (h : getNode s j = some w) :
    getNode (createNode s n t par p e) j = some w := by
  unfold getNode at h ⊢
  rw [createNode_nodes, List.find?_append, h]
  rfl

theorem getNode_createNode_new {s : Scene} {n : String} {t : NType} {par : Option Nat}
    {p : Pos} {e : HEvent} {j : Nat} (h : getNode s j = none) :
    getNode (createNode s n t par p e) j =
      if s.nextId == j then some { id := s.nextId, name := n, ntype := t, parent := par, pos := p }
      else none := by
  unfold getNode at h ⊢
  rw [createNode_nodes, List.find?_append, h]
  by_cases hj : s.nextId = j
  · simp [hj]
  · simp [hj]

theorem pathExists2_createNode_true {s : Scene} {n : String} {t : NType} {par : Option Nat}
    {p : Pos} {e : HEvent} {a b : String} (ha : a ≠ "")
    (h : pathExists2 s a b = true) : pathExists2 (createNode s n t par p e) a b = true := by
  unfold pathExists2 at h
  obtain ⟨y, hy, hpred⟩ := List.any_eq_true.mp h
  have hyb : (y.name == b) = true := Bool.and_elim_left hpred
  have hmatch := Bool.and_elim_right hpred
  cases hp : y.parent with
  | none => rw [hp] at hmatch; cases hmatch
  | some pid =>
    rw [hp] at hmatch
    have hinner : ((getNode s pid).map (fun q => q.name)).getD "" = a := by
      simpa using hmatch
    cases hg : getNode s pid with
    | none =>
      rw [hg] at hinner
      simp at hinner
      exact absurd hinner.symm ha
    | some P =>
      unfold pathExists2
      refine List.any_eq_true.mpr ⟨y, ?_, ?_⟩
      · rw [createNode_nodes]
        exact List.mem_append_left _ hy
      · rw [hp]
        have hge := @getNode_createNode_found _ n t par p e _ _ hg
        rw [hg] at hinner
        simp at hinner
        simp [hge, hyb, hinner]

theorem wf_createNode {s : Scene} {n : String} {t : NType} {par : Option Nat}
    {p : Pos} {e : HEvent} (hwf : wf s = true) : wf (createNode s n t par p e) = true := by
  simp only [wf, Bool.and_eq_true, List.all_eq_true, decide_eq_true_eq] at hwf ⊢
  obtain ⟨⟨h1, h2⟩, h3⟩ := hwf
  refine ⟨⟨?_, ?_⟩, ?_⟩
  · intro m hm
    rw [createNode_nodes] at hm
    rcases List.mem_append.mp hm with hold | hnew
    · have := h1 m hold
      show m.id < s.nextId + 1
      omega
    · simp at hnew
      rw [hnew]
      show s.nextId < s.nextId + 1
      omega
  · rw [createNode_nodes, List.map_append, List.nodup_append]
    refine ⟨h2, List.nodup_singleton _, ?_⟩
    intro x hx hy
    simp at hy
    have := h1 _ (List.mem_map.mp hx).choose_spec.1
    obtain ⟨w, hw, hwx⟩ := List.mem_map.mp hx
    have := h1 w hw
    omega
  · intro j hj
    have hj2 := h3 j hj
    rw [List.any_eq_true] at hj2 ⊢
    obtain ⟨m, hm, hid⟩ := hj2
    refine ⟨m, ?_, hid⟩
    rw [createNode_nodes]
    exact List.mem_append_left _ hm

/-! ## `parentCmd` lemmas -/

theorem parUpd_id {c t : Nat} (m : SNode) :
    (if m.id == c then { m with parent := some t } else m).id = m.id := by
  by_cases h : m.id = c
  · rw [if_pos (beq_iff_eq.mpr h)]
  · rw [if_neg (by simp [h])]

theorem parUpd_name {c t : Nat} (m : SNode) :
    (if m.id == c then { m with parent := some t } else m).name = m.name := by
  by_cases h : m.id = c
  · rw [if_pos (beq_iff_eq.mpr h)]
  · rw [if_neg (by simp [h])]

theorem parUpd_ntype {c t : Nat} (m : SNode) :
    (if m.id == c then { m with parent := some t } else m).ntype = m.ntype := by
  by_cases h : m.id = c
  · rw [if_pos (beq_iff_eq.mpr h)]
  · rw [if_neg (by simp [h])]

theorem parUpd_pos {c t : Nat} (m : SNode) :
    (if m.id == c then { m with parent := some t } else m).pos = m.pos := by
  by_cases h : m.id = c
  · rw [if_pos (beq_iff_eq.mpr h)]
  · rw [if_neg (by simp [h])]

theorem parentCmd_eq {s : Scene} {c t : Nat} :
    parentCmd s c t =
      (if c == t || parentOf s c == some t || isDescendant s t c then
        (addEvent s (HEvent.reparent c t), false)
      else
        ({ s with
            nodes := s.nodes.map (fun m =>
              if m.id == c then { m with parent := some t } else m),
            trace := s.trace ++ [HEvent.reparent c t] },
          true)) := by
  unfold parentCmd
  cases h1 : (c == t) <;> cases h2 : (parentOf s c == some t) <;>
    cases h3 : isDescendant s t c <;> simp

theorem parentCmd_trace {s : Scene} {c t : Nat} :
    ((parentCmd s c t).1).trace = s.trace ++ [HEvent.reparent c t] := by
  rw [parentCmd_eq]
  split <;> rfl

theorem parentCmd_log {s : Scene} {c t : Nat} :
    ((parentCmd s c t).1).log = s.log := by
  rw [parentCmd_eq]
  split <;> rfl

theorem parentCmd_selection {s : Scene} {c t : Nat} :
    ((parentCmd s c t).1).selection = s.selection := by
  rw [parentCmd_eq]
  split <;> rfl

theorem parentCmd_nextId {s : Scene} {c t : Nat} :
    ((parentCmd s c t).1).nextId = s.nextId := by
  rw [parentCmd_eq]
  split <;> rfl

theorem parentCmd_nodes_cases {s : Scene} {c t : Nat} :
    ((parentCmd s c t).1).nodes = s.nodes ∨
      ((parentCmd s c t).1).nodes =
        s.nodes.map (fun m => if m.id == c then { m with parent := some t } else m) := by
  rw [parentCmd_eq]
  split
  · left; rfl
  · right; rfl

theorem parentCmd_fail_nodes {s : Scene} {c t : Nat}
    (h : (parentCmd s c t).2 = false) : ((parentCmd s c t).1).nodes = s.nodes := by
  cases hc : (c == t || parentOf s c == some t || isDescendant s t c) with
  | true => rw [parentCmd_eq, if_pos hc]; rfl
  | false =>
    rw [parentCmd_eq, if_neg (by simp [hc])] at h
    exact Bool.noConfusion h

theorem parentCmd_success_nodes {s : Scene} {c t : Nat}
    (h : (parentCmd s c t).2 = true) :
    ((parentCmd s c t).1).nodes =
      s.nodes.map (fun m => if m.id == c then { m with parent := some t } else m) := by
  cases hc : (c == t || parentOf s c == some t || isDescendant s t c) with
  | true =>
    rw [parentCmd_eq, if_pos hc] at h
    exact Bool.noConfusion h
  | false => rw [parentCmd_eq, if_neg (by simp [hc])]

theorem countName_parentCmd {s : Scene} {c t : Nat} {m : String} :
    countName ((parentCmd s c t).1) m = countName s m := by
  rcases parentCmd_nodes_cases (s := s) (c := c) (t := t) with h | h
  · exact countName_congr h
  · unfold countName
    rw [h]
    exact filter_length_map_pred (α := SNode) _ (fun v => v.name == m)
      (fun v => by simp only [parUpd_name]) _

theorem objExistsName_parentCmd {s : Scene} {c t : Nat} {m : String} :
    objExistsName ((parentCmd s c t).1) m = objExistsName s m := by
  rcases parentCmd_nodes_cases (s := s) (c := c) (t := t) with h | h
  · exact objExistsName_congr h
  · unfold objExistsName
    rw [h]
    exact any_map_pred (α := SNode) _ (fun v => v.name == m)
      (fun v => by simp only [parUpd_name]) _

theorem posOfName_parentCmd {s : Scene} {c t : Nat} {m : String} :
    posOfName ((parentCmd s c t).1) m = posOfName s m := by
  rcases parentCmd_nodes_cases (s := s) (c := c) (t := t) with h | h
  · exact posOfName_congr h
  · unfold posOfName firstNamed
    rw [h]
    rw [find?_map_pred (α := SNode) _ (fun v => v.name == m)
      (fun v => by simp only [parUpd_name]) _]
    cases s.nodes.find? (fun v => v.name == m) with
    | none => rfl
    | some w => exact parUpd_pos w

theorem nameOfId_parentCmd {s : Scene} {c t : Nat} {j : Nat} :
    nameOfId ((parentCmd s c t).1) j = nameOfId s j := by
  rcases parentCmd_nodes_cases (s := s) (c := c) (t := t) with h | h
  · exact nameOfId_congr h
  · unfold nameOfId getNode
    rw [h]
    rw [find?_map_pred (α := SNode) _ (fun v => v.id == j)
      (fun v => by simp only [parUpd_id]) _]
    cases s.nodes.find? (fun v => v.id == j) with
    | none => rfl
    | some w => exact parUpd_name w

theorem getNode_parentCmd_success {s : Scene} {c t : Nat} {j : Nat}
    (h : (parentCmd s c t).2 = true) :
    getNode ((parentCmd s c t).1) j =
      (getNode s j).map (fun m => if m.id == c then { m with parent := some t } else m) := by
  unfold getNode
  rw [parentCmd_success_nodes h]
  exact find?_map_pred (α := SNode) _ (fun v => v.id == j)
    (fun v => by simp only [parUpd_id]) _

theorem parentOf_parentCmd_other {s : Scene} {c t : Nat} {j : Nat} (hj : j ≠ c) :
    parentOf ((parentCmd s c t).1) j = parentOf s j := by
  rcases hb : (parentCmd s c t).2 with hf | ht
  · exact parentOf_congr (parentCmd_fail_nodes hb)
  · unfold parentOf
    rw [getNode_parentCmd_success hb]
    cases hg : getNode s j with
    | none => rfl
    | some w =>
      have hwj : w.id = j := by
        have := List.find?_some hg
        simpa using this
      have hne : (w.id == c) = false := by simp [hwj, hj]
      show (if w.id == c then { w with parent := some t } else w).parent = w.parent
      rw [hne]
      simp

theorem parentOf_parentCmd_success_self {s : Scene} {c t : Nat} {w : SNode}
    (h : (parentCmd s c t).2 = true) (hw : getNode s c = some w) :
    parentOf ((parentCmd s c t).1) c = some t := by
  unfold parentOf
  rw [getNode_parentCmd_success h, hw]
  have hwc : w.id = c := by
    have := List.find?_some hw
    simpa using this
  simp [hwc]

theorem wf_parentCmd {s : Scene} {c t : Nat} (hwf : wf s = true) :
    wf ((parentCmd s c t).1) = true := by
  rcases parentCmd_nodes_cases (s := s) (c := c) (t := t) with h | h <;>
  · simp only [wf, Bool.and_eq_true, List.all_eq_true, decide_eq_true_eq] at hwf ⊢
    obtain ⟨⟨h1, h2⟩, h3⟩ := hwf
    rw [h, parentCmd_nextId, parentCmd_selection]
    first
    | exact ⟨⟨h1, h2⟩, h3⟩
    | refine ⟨⟨?_, ?_⟩, ?_⟩
      · intro m hm
        obtain ⟨a, ha, rfl⟩ := List.mem_map.mp hm
        rw [parUpd_id]
        exact h1 a ha
      · rw [List.map_map]
        have : ((fun m => m.id) ∘ fun m =>
            if m.id == c then { m with parent := some t } else m) = fun m : SNode => m.id := by
          funext a
          simp only [Function.comp]
          rw [parUpd_id]
        rw [this]
        exact h2
      · intro j hj
        have hj2 := h3 j hj
        rw [List.any_eq_true] at hj2 ⊢
        obtain ⟨m, hm, hid⟩ := hj2
        refine ⟨_, List.mem_map_of_mem _ hm, ?_⟩
        rw [parUpd_id]
        exact hid

theorem pathExists2_parentCmd {s : Scene} {c t : Nat} {a b : String}
    (hcn : ∀ m ∈ s.nodes, m.id = c → m.name ≠ b) :
    pathExists2 ((parentCmd s c t).1) a b = pathExists2 s a b := by
  rcases hb : (parentCmd s c t).2 with hf | ht
  · exact pathExists2_congr (parentCmd_fail_nodes hb)
  · have hnodes := parentCmd_success_nodes hb
    have hng : ∀ j, ((getNode ((parentCmd s c t).1) j).map (fun q => q.name)).getD "" =
        ((getNode s j).map (fun q => q.name)).getD "" := by
      intro j
      rw [getNode_parentCmd_success hb]
      cases getNode s j with
      | none => rfl
      | some w => exact parUpd_name w
    unfold pathExists2
    rw [hnodes, List.any_map]
    apply any_congr_mem
    intro y hy
    simp only [Function.comp]
    rw [parUpd_name]
    by_cases hyb : y.name = b
    · have hyc : ¬(y.id = c) := fun he => hcn y hy he hyb
      have : (y.id == c) = false := by simp [hyc]
      rw [this]
      simp only [if_neg (by simp : ¬((false : Bool) = true))]
      cases hp : y.parent with
      | none => rfl
      | some pid => simp only [hng]
    · have : (y.name == b) = false := by simp [hyb]
      rw [this]
      simp

/-! ## `assetPrelude`, `logMsg`, selection primitives: node neutrality -/

theorem assetPrelude_fst {env : Option String} {s : Scene} :
    (assetPrelude env s).1 = (_asset_name env).1 := rfl

theorem assetPrelude_snd {env : Option String} {s : Scene} :
    (assetPrelude env s).2 =
      if (_asset_name env).2 then
        logMsg s Level.warn "ASSET env var not set. Using fallback defaultAsset."
      else s := rfl

theorem assetPrelude_nodes {env : Option String} {s : Scene} :
    (assetPrelude env s).2.nodes = s.nodes := by
  rw [assetPrelude_snd]
  split <;> rfl

theorem assetPrelude_selection {env : Option String} {s : Scene} :
    (assetPrelude env s).2.selection = s.selection := by
  rw [assetPrelude_snd]
  split <;> rfl

theorem assetPrelude_trace {env : Option String} {s : Scene} :
    (assetPrelude env s).2.trace = s.trace := by
  rw [assetPrelude_snd]
  split <;> rfl

theorem assetPrelude_nextId {env : Option String} {s : Scene} :
    (assetPrelude env s).2.nextId = s.nextId := by
  rw [assetPrelude_snd]
  split <;> rfl

theorem assetPrelude_log {env : Option String} {s : Scene} :
    ∃ E, (assetPrelude env s).2.log = s.log ++ E ∧ logHas E Level.error = false := by
  rw [assetPrelude_snd]
  split
  · exact ⟨[(Level.warn, "ASSET env var not set. Using fallback defaultAsset.")], rfl, rfl⟩
  · exact ⟨[], by simp, rfl⟩

theorem wf_assetPrelude {env : Option String} {s : Scene} (hwf : wf s = true) :
    wf (assetPrelude env s).2 = true := by
  rw [assetPrelude_snd]
  split
  · exact hwf
  · exact hwf

theorem wf_logMsg {s : Scene} {lv : Level} {m : String} : wf (logMsg s lv m) = wf s := rfl

theorem wf_selectClearCmd {s : Scene} (hwf : wf s = true) :
    wf (selectClearCmd s) = true := by
  simp only [wf, Bool.and_eq_true, List.all_eq_true, decide_eq_true_eq] at hwf ⊢
  obtain ⟨⟨h1, h2⟩, _⟩ := hwf
  exact ⟨⟨h1, h2⟩, by intro i hi; cases hi⟩

theorem rootNameOf_eq {env : Option String} :
    rootNameOf env = "GRP_" ++ (_asset_name env).1 := rfl

/-! ## `place1` and `_ensure_joint` stage lemmas -/

theorem parentOf_createNode_parNone {s : Scene} {n : String} {t : NType}
    {p : Pos} {e : HEvent} {i : Nat} :
    parentOf (createNode s n t none p e) i = parentOf s i := by
  unfold parentOf
  cases hg : getNode s i with
  | some w => rw [getNode_createNode_found hg]
  | none =>
    rw [getNode_createNode_new hg]
    by_cases hi : s.nextId = i
    · simp [hi]
    · simp [hi]

theorem nameOfId_createNode_found {s : Scene} {n : String} {t : NType} {par : Option Nat}
    {p : Pos} {e : HEvent} {i : Nat} {w : SNode} (h : getNode s i = some w) :
    nameOfId (createNode s n t par p e) i = nameOfId s i := by
  unfold nameOfId
  rw [getNode_createNode_found h, h]

theorem place1_exists {s : Scene} {loc : String} {pv : Pos}
    (hex : objExistsName s loc = true) : place1 s loc pv = xformSetWT s loc pv := by
  unfold place1
  rw [hex]
  rfl

theorem place1_absent {s : Scene} {loc : String} {pv : Pos}
    (hex : objExistsName s loc = false) :
    place1 s loc pv =
      xformSetWT (logMsg (spaceLocatorCmd s loc) Level.info "Created locator") loc pv := by
  unfold place1
  rw [hex]
  rfl

theorem _ensure_joint_exists {s : Scene} {n : String} {p : Pos}
    (hex : objExistsName s n = true) :
    _ensure_joint s n p = logMsg (xformSetWT s n p) Level.info
      "Moved joint to locator position." := by
  unfold _ensure_joint
  rw [hex]
  rfl

theorem _ensure_joint_absent {s : Scene} {n : String} {p : Pos}
    (hex : objExistsName s n = false) :
    _ensure_joint s n p = logMsg (jointCmd (selectClearCmd s) n p) Level.info
      "Created joint" := by
  unfold _ensure_joint
  rw [hex]
  rfl

theorem countName_place1 {s : Scene} {loc : String} {pv : Pos} {m : String} :
    countName (place1 s loc pv) m =
      countName s m + (if objExistsName s loc = false ∧ loc == m then 1 else 0) := by
  cases hex : objExistsName s loc with
  | true =>
    rw [place1_exists hex, countName_xformSetWT]
    simp
  | false =>
    rw [place1_absent hex, countName_xformSetWT]
    have h1 : countName (logMsg (spaceLocatorCmd s loc) Level.info "Created locator") m =
        countName (spaceLocatorCmd s loc) m := countName_congr rfl
    rw [h1]
    unfold spaceLocatorCmd
    rw [countName_createNode]
    by_cases hm : loc = m
    · simp [hm]
    · simp [hm]

theorem objExistsName_place1_self {s : Scene} {loc : String} {pv : Pos} :
    objExistsName (place1 s loc pv) loc = true := by
  cases hex : objExistsName s loc with
  | true =>
    rw [place1_exists hex, objExistsName_xformSetWT]
    exact hex
  | false =>
    rw [place1_absent hex, objExistsName_xformSetWT]
    have h1 : objExistsName (logMsg (spaceLocatorCmd s loc) Level.info "Created locator") loc =
        objExistsName (spaceLocatorCmd s loc) loc := objExistsName_congr rfl
    rw [h1]
    unfold spaceLocatorCmd
    rw [objExistsName_createNode]
    simp

theorem objExistsName_place1_other {s : Scene} {loc : String} {pv : Pos} {m : String}
    (hm : m ≠ loc) : objExistsName (place1 s loc pv) m = objExistsName s m := by
  cases hex : objExistsName s loc with
  | true => rw [place1_exists hex, objExistsName_xformSetWT]
  | false =>
    rw [place1_absent hex, objExistsName_xformSetWT]
    have h1 : objExistsName (logMsg (spaceLocatorCmd s loc) Level.info "Created locator") m =
        objExistsName (spaceLocatorCmd s loc) m := objExistsName_congr rfl
    rw [h1]
    unfold spaceLocatorCmd
    rw [objExistsName_createNode]
    have hlm : (loc == m) = false := beq_eq_false_iff_ne.mpr (fun h => hm h.symm)
    rw [hlm]
    simp

theorem posOfName_place1_self {s : Scene} {loc : String} {pv : Pos} :
    posOfName (place1 s loc pv) loc = pv := by
  cases hex : objExistsName s loc with
  | true =>
    rw [place1_exists hex]
    exact posOfName_xformSetWT_self hex
  | false =>
    rw [place1_absent hex]
    apply posOfName_xformSetWT_self
    have h1 : objExistsName (logMsg (spaceLocatorCmd s loc) Level.info "Created locator") loc =
        objExistsName (spaceLocatorCmd s loc) loc := objExistsName_congr rfl
    rw [h1]
    unfold spaceLocatorCmd
    rw [objExistsName_createNode]
    simp

theorem posOfName_place1_other {s : Scene} {loc : String} {pv : Pos} {m : String}
    (hwf : wf s = true) (hm : m ≠ loc) :
    posOfName (place1 s loc pv) m = posOfName s m := by
  cases hex : objExistsName s loc with
  | true =>
    rw [place1_exists hex]
    exact posOfName_xformSetWT_other hwf hm
  | false =>
    rw [place1_absent hex]
    rw [posOfName_xformSetWT_other (by rw [wf_logMsg]; exact wf_createNode hwf) hm]
    have h1 : posOfName (logMsg (spaceLocatorCmd s loc) Level.info "Created locator") m =
        posOfName (spaceLocatorCmd s loc) m := posOfName_congr rfl
    rw [h1]
    unfold posOfName spaceLocatorCmd
    cases hw : firstNamed s m with
    | none =>
      rw [firstNamed_createNode_new hw]
      have hlm : (loc == m) = false := beq_eq_false_iff_ne.mpr (fun h => hm h.symm)
      rw [hlm]
      rfl
    | some w => rw [firstNamed_createNode_found hw]

theorem wf_place1 {s : Scene} {loc : String} {pv : Pos} (hwf : wf s = true) :
    wf (place1 s loc pv) = true := by
  cases hex : objExistsName s loc with
  | true =>
    rw [place1_exists hex]
    exact wf_xformSetWT hwf
  | false =>
    rw [place1_absent hex]
    apply wf_xformSetWT
    rw [wf_logMsg]
    exact wf_createNode hwf

theorem pathExists2_place1_true {s : Scene} {loc : String} {pv : Pos} {a b : String}
    (ha : a ≠ "") (h : pathExists2 s a b = true) :
    pathExists2 (place1 s loc pv) a b = true := by
  cases hex : objExistsName s loc with
  | true =>
    rw [place1_exists hex, pathExists2_xformSetWT]
    exact h
  | false =>
    rw [place1_absent hex, pathExists2_xformSetWT]
    have h1 : pathExists2 (logMsg (spaceLocatorCmd s loc) Level.info "Created locator") a b =
        pathExists2 (spaceLocatorCmd s loc) a b := pathExists2_congr rfl
    rw [h1]
    unfold spaceLocatorCmd
    exact pathExists2_createNode_true ha h

theorem parentOf_place1 {s : Scene} {loc : String} {pv : Pos} {i : Nat} :
    parentOf (place1 s loc pv) i = parentOf s i := by
  cases hex : objExistsName s loc with
  | true =>
    rw [place1_exists hex]
    exact parentOf_xformSetWT
  | false =>
    rw [place1_absent hex, parentOf_xformSetWT]
    have h1 : parentOf (logMsg (spaceLocatorCmd s loc) Level.info "Created locator") i =
        parentOf (spaceLocatorCmd s loc) i := parentOf_congr rfl
    rw [h1]
    unfold spaceLocatorCmd
    exact parentOf_createNode_parNone

theorem countName__ensure_joint_self {s : Scene} {n : String} {p : Pos} :
    countName (_ensure_joint s n p) n = max (countName s n) 1 := by
  cases hex : objExistsName s n with
  | true =>
    rw [_ensure_joint_exists hex]
    have h1 : countName (logMsg (xformSetWT s n p) Level.info
        "Moved joint to locator position.") n = countName (xformSetWT s n p) n :=
      countName_congr rfl
    rw [h1, countName_xformSetWT]
    have := countName_pos_of_objExists hex
    omega
  | false =>
    rw [_ensure_joint_absent hex]
    have h1 : countName (logMsg (jointCmd (selectClearCmd s) n p) Level.info
        "Created joint") n = countName (jointCmd (selectClearCmd s) n p) n :=
      countName_congr rfl
    rw [h1]
    unfold jointCmd
    rw [countName_createNode]
    have h2 : countName (selectClearCmd s) n = countName s n := countName_congr rfl
    rw [h2, countName_zero_of_not_objExists hex]
    simp

theorem countName__ensure_joint_other {s : Scene} {n : String} {p : Pos} {m : String}
    (hm : m ≠ n) : countName (_ensure_joint s n p) m = countName s m := by
  cases hex : objExistsName s n with
  | true =>
    rw [_ensure_joint_exists hex]
    have h1 : countName (logMsg (xformSetWT s n p) Level.info
        "Moved joint to locator position.") m = countName (xformSetWT s n p) m :=
      countName_congr rfl
    rw [h1, countName_xformSetWT]
  | false =>
    rw [_ensure_joint_absent hex]
    have h1 : countName (logMsg (jointCmd (selectClearCmd s) n p) Level.info
        "Created joint") m = countName (jointCmd (selectClearCmd s) n p) m :=
      countName_congr rfl
    rw [h1]
    unfold jointCmd
    rw [countName_createNode]
    have h2 : countName (selectClearCmd s) m = countName s m := countName_congr rfl
    rw [h2]
    have hlm : (n == m) = false := beq_eq_false_iff_ne.mpr (fun h => hm h.symm)
    rw [hlm]
    simp

theorem objExistsName__ensure_joint_self {s : Scene} {n : String} {p : Pos} :
    objExistsName (_ensure_joint s n p) n = true := by
  cases he : objExistsName (_ensure_joint s n p) n with
  | true => rfl
  | false =>
    have := countName_zero_of_not_objExists he
    rw [countName__ensure_joint_self] at this
    omega

theorem objExistsName__ensure_joint_other {s : Scene} {n : String} {p : Pos} {m : String}
    (hm : m ≠ n) : objExistsName (_ensure_joint s n p) m = objExistsName s m := by
  cases he : objExistsName s m with
  | true =>
    cases he2 : objExistsName (_ensure_joint s n p) m with
    | true => rfl
    | false =>
      have h0 := countName_zero_of_not_objExists he2
      rw [countName__ensure_joint_other hm] at h0
      have := countName_pos_of_objExists he
      omega
  | false =>
    apply objExists_false_of_countName_zero
    rw [countName__ensure_joint_other hm]
    exact countName_zero_of_not_objExists he

theorem posOfName__ensure_joint_self {s : Scene} {n : String} {p : Pos} :
    posOfName (_ensure_joint s n p) n = p := by
  cases hex : objExistsName s n with
  | true =>
    rw [_ensure_joint_exists hex]
    have h1 : posOfName (logMsg (xformSetWT s n p) Level.info
        "Moved joint to locator position.") n = posOfName (xformSetWT s n p) n :=
      posOfName_congr rfl
    rw [h1]
    exact posOfName_xformSetWT_self hex
  | false =>
    rw [_ensure_joint_absent hex]
    have h1 : posOfName (logMsg (jointCmd (selectClearCmd s) n p) Level.info
        "Created joint") n = posOfName (jointCmd (selectClearCmd s) n p) n :=
      posOfName_congr rfl
    rw [h1]
    unfold posOfName jointCmd
    have hnone : firstNamed (selectClearCmd s) n = none := by
      apply firstNamed_none_of_not_objExists
      have h2 : objExistsName (selectClearCmd s) n = objExistsName s n :=
        objExistsName_congr rfl
      rw [h2]
      exact hex
    rw [firstNamed_createNode_new hnone]
    simp

theorem posOfName__ensure_joint_other {s : Scene} {n : String} {p : Pos} {m : String}
    (hwf : wf s = true) (hm : m ≠ n) :
    posOfName (_ensure_joint s n p) m = posOfName s m := by
  cases hex : objExistsName s n with
  | true =>
    rw [_ensure_joint_exists hex]
    have h1 : posOfName (logMsg (xformSetWT s n p) Level.info
        "Moved joint to locator position.") m = posOfName (xformSetWT s n p) m :=
      posOfName_congr rfl
    rw [h1]
    exact posOfName_xformSetWT_other hwf hm
  | false =>
    rw [_ensure_joint_absent hex]
    have h1 : posOfName (logMsg (jointCmd (selectClearCmd s) n p) Level.info
        "Created joint") m = posOfName (jointCmd (selectClearCmd s) n p) m :=
      posOfName_congr rfl
    rw [h1]
    unfold posOfName jointCmd
    have he : firstNamed (selectClearCmd s) m = firstNamed s m := firstNamed_congr rfl
    cases hw : firstNamed s m with
    | none =>
      rw [firstNamed_createNode_new (he.trans hw)]
      have hnm : (n == m) = false := beq_eq_false_iff_ne.mpr (fun h => hm h.symm)
      rw [hnm]
      rfl
    | some w =>
      rw [firstNamed_createNode_found (he.trans hw)]

theorem parentOf__ensure_joint {s : Scene} {n : String} {p : Pos} {i : Nat} :
    parentOf (_ensure_joint s n p) i = parentOf s i := by
  cases hex : objExistsName s n with
  | true =>
    rw [_ensure_joint_exists hex]
    have h1 : parentOf (logMsg (xformSetWT s n p) Level.info
        "Moved joint to locator position.") i = parentOf (xformSetWT s n p) i :=
      parentOf_congr rfl
    rw [h1]
    exact parentOf_xformSetWT
  | false =>
    rw [_ensure_joint_absent hex]
    have h1 : parentOf (logMsg (jointCmd (selectClearCmd s) n p) Level.info
        "Created joint") i = parentOf (jointCmd (selectClearCmd s) n p) i :=
      parentOf_congr rfl
    rw [h1]
    unfold jointCmd
    have h2 : parentOf (selectClearCmd s) i = parentOf s i := parentOf_congr rfl
    rw [← h2]
    exact parentOf_createNode_parNone

theorem wf__ensure_joint {s : Scene} {n : String} {p : Pos} (hwf : wf s = true) :
    wf (_ensure_joint s n p) = true := by
  cases hex : objExistsName s n with
  | true =>
    rw [_ensure_joint_exists hex, wf_logMsg]
    exact wf_xformSetWT hwf
  | false =>
    rw [_ensure_joint_absent hex, wf_logMsg]
    unfold jointCmd
    exact wf_createNode (wf_selectClearCmd hwf)

theorem pathExists2__ensure_joint_true {s : Scene} {n : String} {p : Pos} {a b : String}
    (ha : a ≠ "") (h : pathExists2 s a b = true) :
    pathExists2 (_ensure_joint s n p) a b = true := by
  cases hex : objExistsName s n with
  | true =>
    rw [_ensure_joint_exists hex]
    have h1 : pathExists2 (logMsg (xformSetWT s n p) Level.info
        "Moved joint to locator position.") a b = pathExists2 (xformSetWT s n p) a b :=
      pathExists2_congr rfl
    rw [h1, pathExists2_xformSetWT]
    exact h
  | false =>
    rw [_ensure_joint_absent hex]
    have h1 : pathExists2 (logMsg (jointCmd (selectClearCmd s) n p) Level.info
        "Created joint") a b = pathExists2 (jointCmd (selectClearCmd s) n p) a b :=
      pathExists2_congr rfl
    rw [h1]
    unfold jointCmd
    apply pathExists2_createNode_true ha
    have h2 : pathExists2 (selectClearCmd s) a b = pathExists2 s a b :=
      pathExists2_congr rfl
    rw [h2]
    exact h

/-! ## `parentIfNeededShort`, `chainTry`, `rigTry` anatomy -/

theorem parentIfNeededShort_eq_noneL {s : Scene} {child target : String}
    (h : findIdByName s child = none) : parentIfNeededShort s child target = (s, false) := by
  unfold parentIfNeededShort
  rw [h]

theorem parentIfNeededShort_eq_noneR {s : Scene} {child target : String} {c : Nat}
    (hc : findIdByName s child = some c) (h : findIdByName s target = none) :
    parentIfNeededShort s child target = (s, false) := by
  unfold parentIfNeededShort
  rw [hc, h]

theorem parentIfNeededShort_eq_skip {s : Scene} {child target : String} {c t : Nat}
    (hc : findIdByName s child = some c) (ht : findIdByName s target = some t)
    (hg : (parentShortName s c != some target) = false) :
    parentIfNeededShort s child target = (s, true) := by
  unfold parentIfNeededShort
  rw [hc, ht]
  simp only [hg]
  rfl

theorem parentIfNeededShort_eq_call {s : Scene} {child target : String} {c t : Nat}
    (hc : findIdByName s child = some c) (ht : findIdByName s target = some t)
    (hg : (parentShortName s c != some target) = true) :
    parentIfNeededShort s child target = parentCmd s c t := by
  unfold parentIfNeededShort
  rw [hc, ht]
  simp only [hg]
  rfl

theorem countName_parentIfNeededShort {s : Scene} {child target : String} {m : String} :
    countName ((parentIfNeededShort s child target).1) m = countName s m := by
  cases hc : findIdByName s child with
  | none => rw [parentIfNeededShort_eq_noneL hc]
  | some c =>
    cases ht : findIdByName s target with
    | none => rw [parentIfNeededShort_eq_noneR hc ht]
    | some t =>
      cases hg : (parentShortName s c != some target) with
      | false => rw [parentIfNeededShort_eq_skip hc ht hg]
      | true =>
        rw [parentIfNeededShort_eq_call hc ht hg]
        exact countName_parentCmd

theorem objExistsName_parentIfNeededShort {s : Scene} {child target : String} {m : String} :
    objExistsName ((parentIfNeededShort s child target).1) m = objExistsName s m := by
  cases hc : findIdByName s child with
  | none => rw [parentIfNeededShort_eq_noneL hc]
  | some c =>
    cases ht : findIdByName s target with
    | none => rw [parentIfNeededShort_eq_noneR hc ht]
    | some t =>
      cases hg : (parentShortName s c != some target) with
      | false => rw [parentIfNeededShort_eq_skip hc ht hg]
      | true =>
        rw [parentIfNeededShort_eq_call hc ht hg]
        exact objExistsName_parentCmd

theorem posOfName_parentIfNeededShort {s : Scene} {child target : String} {m : String} :
    posOfName ((parentIfNeededShort s child target).1) m = posOfName s m := by
  cases hc : findIdByName s child with
  | none => rw [parentIfNeededShort_eq_noneL hc]
  | some c =>
    cases ht : findIdByName s target with
    | none => rw [parentIfNeededShort_eq_noneR hc ht]
    | some t =>
      cases hg : (parentShortName s c != some target) with
      | false => rw [parentIfNeededShort_eq_skip hc ht hg]
      | true =>
        rw [parentIfNeededShort_eq_call hc ht hg]
        exact posOfName_parentCmd

theorem wf_parentIfNeededShort {s : Scene} {child target : String}
    (hwf : wf s = true) : wf ((parentIfNeededShort s child target).1) = true := by
  cases hc : findIdByName s child with
  | none => rw [parentIfNeededShort_eq_noneL hc]; exact hwf
  | some c =>
    cases ht : findIdByName s target with
    | none => rw [parentIfNeededShort_eq_noneR hc ht]; exact hwf
    | some t =>
      cases hg : (parentShortName s c != some target) with
      | false => rw [parentIfNeededShort_eq_skip hc ht hg]; exact hwf
      | true =>
        rw [parentIfNeededShort_eq_call hc ht hg]
        exact wf_parentCmd hwf

theorem findIdByName_firstNamed {s : Scene} {n : String} {c : Nat}
    (h : findIdByName s n = some c) : ∃ v, firstNamed s n = some v ∧ v.id = c := by
  unfold findIdByName at h
  cases hv : firstNamed s n with
  | none => rw [hv] at h; cases h
  | some v =>
    rw [hv] at h
    simp at h
    exact ⟨v, rfl, h⟩

theorem pathExists2_parentIfNeededShort {s : Scene} {child target : String} {a b : String}
    (hwf : wf s = true) (hb : child ≠ b) :
    pathExists2 ((parentIfNeededShort s child target).1) a b = pathExists2 s a b := by
  cases hc : findIdByName s child with
  | none => rw [parentIfNeededShort_eq_noneL hc]
  | some c =>
    cases ht : findIdByName s target with
    | none => rw [parentIfNeededShort_eq_noneR hc ht]
    | some t =>
      cases hg : (parentShortName s c != some target) with
      | false => rw [parentIfNeededShort_eq_skip hc ht hg]
      | true =>
        rw [parentIfNeededShort_eq_call hc ht hg]
        apply pathExists2_parentCmd
        intro m hm hid
        obtain ⟨v, hv, hvc⟩ := findIdByName_firstNamed hc
        have : m = v := eq_of_mem_of_id_eq hwf hm (firstNamed_mem hv) (by rw [hid, hvc])
        rw [this, firstNamed_name hv]
        exact hb

theorem chainTry_eq {s : Scene} {a b c : String} :
    chainTry s a b c =
      (if (parentIfNeededShort s b a).2 = true then
        (if (parentIfNeededShort (parentIfNeededShort s b a).1 c b).2 = true then
          (parentIfNeededShort (parentIfNeededShort s b a).1 c b).1
        else
          logMsg (parentIfNeededShort (parentIfNeededShort s b a).1 c b).1 Level.warn
            "Parenting joints failed")
      else logMsg (parentIfNeededShort s b a).1 Level.warn "Parenting joints failed") := by
  unfold chainTry
  rcases h1 : parentIfNeededShort s b a with ⟨s1, ok1⟩
  cases ok1 with
  | false => simp
  | true =>
    rcases h2 : parentIfNeededShort s1 c b with ⟨s2, ok2⟩
    cases ok2 with
    | false => simp [h2]
    | true => simp [h2]

theorem countName_chainTry {s : Scene} {a b c : String} {m : String} :
    countName (chainTry s a b c) m = countName s m := by
  rw [chainTry_eq]
  split
  · split
    · rw [countName_parentIfNeededShort, countName_parentIfNeededShort]
    · have h1 : countName (logMsg (parentIfNeededShort (parentIfNeededShort s b a).1 c b).1
          Level.warn "Parenting joints failed") m =
          countName ((parentIfNeededShort (parentIfNeededShort s b a).1 c b).1) m :=
        countName_congr rfl
      rw [h1, countName_parentIfNeededShort, countName_parentIfNeededShort]
  · have h1 : countName (logMsg ((parentIfNeededShort s b a).1) Level.warn
        "Parenting joints failed") m = countName ((parentIfNeededShort s b a).1) m :=
      countName_congr rfl
    rw [h1, countName_parentIfNeededShort]

theorem objExistsName_chainTry {s : Scene} {a b c : String} {m : String} :
    objExistsName (chainTry s a b c) m = objExistsName s m := by
  rw [chainTry_eq]
  split
  · split
    · rw [objExistsName_parentIfNeededShort, objExistsName_parentIfNeededShort]
    · have h1 : objExistsName (logMsg (parentIfNeededShort (parentIfNeededShort s b a).1 c b).1
          Level.warn "Parenting joints failed") m =
          objExistsName ((parentIfNeededShort (parentIfNeededShort s b a).1 c b).1) m :=
        objExistsName_congr rfl
      rw [h1, objExistsName_parentIfNeededShort, objExistsName_parentIfNeededShort]
  · have h1 : objExistsName (logMsg ((parentIfNeededShort s b a).1) Level.warn
        "Parenting joints failed") m = objExistsName ((parentIfNeededShort s b a).1) m :=
      objExistsName_congr rfl
    rw [h1, objExistsName_parentIfNeededShort]

theorem posOfName_chainTry {s : Scene} {a b c : String} {m : String} :
    posOfName (chainTry s a b c) m = posOfName s m := by
  rw [chainTry_eq]
  split
  · split
    · rw [posOfName_parentIfNeededShort, posOfName_parentIfNeededShort]
    · have h1 : posOfName (logMsg (parentIfNeededShort (parentIfNeededShort s b a).1 c b).1
          Level.warn "Parenting joints failed") m =
          posOfName ((parentIfNeededShort (parentIfNeededShort s b a).1 c b).1) m :=
        posOfName_congr rfl
      rw [h1, posOfName_parentIfNeededShort, posOfName_parentIfNeededShort]
  · have h1 : posOfName (logMsg ((parentIfNeededShort s b a).1) Level.warn
        "Parenting joints failed") m = posOfName ((parentIfNeededShort s b a).1) m :=
      posOfName_congr rfl
    rw [h1, posOfName_parentIfNeededShort]

theorem wf_chainTry {s : Scene} {a b c : String} (hwf : wf s = true) :
    wf (chainTry s a b c) = true := by
  rw [chainTry_eq]
  split
  · split
    · exact wf_parentIfNeededShort (wf_parentIfNeededShort hwf)
    · rw [wf_logMsg]
      exact wf_parentIfNeededShort (wf_parentIfNeededShort hwf)
  · rw [wf_logMsg]
    exact wf_parentIfNeededShort hwf

theorem pathExists2_chainTry {s : Scene} {a b c : String} {x y : String}
    (hwf : wf s = true) (hb : b ≠ y) (hc : c ≠ y) :
    pathExists2 (chainTry s a b c) x y = pathExists2 s x y := by
  rw [chainTry_eq]
  split
  · split
    · rw [pathExists2_parentIfNeededShort (wf_parentIfNeededShort hwf) hc,
        pathExists2_parentIfNeededShort hwf hb]
    · have h1 : pathExists2 (logMsg (parentIfNeededShort (parentIfNeededShort s b a).1 c b).1
          Level.warn "Parenting joints failed") x y =
          pathExists2 ((parentIfNeededShort (parentIfNeededShort s b a).1 c b).1) x y :=
        pathExists2_congr rfl
      rw [h1, pathExists2_parentIfNeededShort (wf_parentIfNeededShort hwf) hc,
        pathExists2_parentIfNeededShort hwf hb]
  · have h1 : pathExists2 (logMsg ((parentIfNeededShort s b a).1) Level.warn
        "Parenting joints failed") x y = pathExists2 ((parentIfNeededShort s b a).1) x y :=
      pathExists2_congr rfl
    rw [h1, pathExists2_parentIfNeededShort hwf hb]

theorem rigTry_eq_noneJ {s : Scene} {rigPath root rig jntRoot : String}
    (h : findIdByName s jntRoot = none) :
    rigTry s rigPath root rig jntRoot =
      logMsg s Level.warn "Parenting chain root under rig group failed" := by
  unfold rigTry
  rw [h]

theorem rigTry_eq_skip {s : Scene} {rigPath root rig jntRoot : String} {jr : Nat}
    (h : findIdByName s jntRoot = some jr)
    (hg : (parentFullPath s jr != some rigPath) = false) :
    rigTry s rigPath root rig jntRoot = s := by
  unfold rigTry
  rw [h]
  simp only [hg]
  rfl

theorem rigTry_eq_noPath {s : Scene} {rigPath root rig jntRoot : String} {jr : Nat}
    (h : findIdByName s jntRoot = some jr)
    (hg : (parentFullPath s jr != some rigPath) = true)
    (hp : findPath2 s root rig = none) :
    rigTry s rigPath root rig jntRoot =
      logMsg s Level.warn "Parenting chain root under rig group failed" := by
  unfold rigTry
  rw [h]
  simp only [hg]
  rw [hp]
  simp

theorem rigTry_eq_call {s : Scene} {rigPath root rig jntRoot : String} {jr t : Nat}
    (h : findIdByName s jntRoot = some jr)
    (hg : (parentFullPath s jr != some rigPath) = true)
    (hp : findPath2 s root rig = some t) :
    rigTry s rigPath root rig jntRoot =
      (if (parentCmd s jr t).2 = true then (parentCmd s jr t).1
      else logMsg (parentCmd s jr t).1 Level.warn
        "Parenting chain root under rig group failed") := by
  unfold rigTry
  rw [h]
  simp only [hg]
  rw [hp]
  rcases hpc : parentCmd s jr t with ⟨s1, ok⟩
  cases ok with
  | false => simp [hpc]
  | true => simp [hpc]

theorem countName_rigTry {s : Scene} {rigPath root rig jntRoot : String} {m : String} :
    countName (rigTry s rigPath root rig jntRoot) m = countName s m := by
  cases h : findIdByName s jntRoot with
  | none => rw [rigTry_eq_noneJ h]; exact countName_congr rfl
  | some jr =>
    cases hg : (parentFullPath s jr != some rigPath) with
    | false => rw [rigTry_eq_skip h hg]
    | true =>
      cases hp : findPath2 s root rig with
      | none => rw [rigTry_eq_noPath h hg hp]; exact countName_congr rfl
      | some t =>
        rw [rigTry_eq_call h hg hp]
        split
        · exact countName_parentCmd
        · have h1 : countName (logMsg ((parentCmd s jr t).1) Level.warn
              "Parenting chain root under rig group failed") m =
              countName ((parentCmd s jr t).1) m := countName_congr rfl
          rw [h1]
          exact countName_parentCmd

theorem objExistsName_rigTry {s : Scene} {rigPath root rig jntRoot : String} {m : String} :
    objExistsName (rigTry s rigPath root rig jntRoot) m = objExistsName s m := by
  cases h : findIdByName s jntRoot with
  | none => rw [rigTry_eq_noneJ h]; exact objExistsName_congr rfl
  | some jr =>
    cases hg : (parentFullPath s jr != some rigPath) with
    | false => rw [rigTry_eq_skip h hg]
    | true =>
      cases hp : findPath2 s root rig with
      | none => rw [rigTry_eq_noPath h hg hp]; exact objExistsName_congr rfl
      | some t =>
        rw [rigTry_eq_call h hg hp]
        split
        · exact objExistsName_parentCmd
        · have h1 : objExistsName (logMsg ((parentCmd s jr t).1) Level.warn
              "Parenting chain root under rig group failed") m =
              objExistsName ((parentCmd s jr t).1) m := objExistsName_congr rfl
          rw [h1]
          exact objExistsName_parentCmd

theorem posOfName_rigTry {s : Scene} {rigPath root rig jntRoot : String} {m : String} :
    posOfName (rigTry s rigPath root rig jntRoot) m = posOfName s m := by
  cases h : findIdByName s jntRoot with
  | none => rw [rigTry_eq_noneJ h]; exact posOfName_congr rfl
  | some jr =>
    cases hg : (parentFullPath s jr != some rigPath) with
    | false => rw [rigTry_eq_skip h hg]
    | true =>
      cases hp : findPath2 s root rig with
      | none => rw [rigTry_eq_noPath h hg hp]; exact posOfName_congr rfl
      | some t =>
        rw [rigTry_eq_call h hg hp]
        split
        · exact posOfName_parentCmd
        · have h1 : posOfName (logMsg ((parentCmd s jr t).1) Level.warn
              "Parenting chain root under rig group failed") m =
              posOfName ((parentCmd s jr t).1) m := posOfName_congr rfl
          rw [h1]
          exact posOfName_parentCmd

theorem wf_rigTry {s : Scene} {rigPath root rig jntRoot : String} (hwf : wf s = true) :
    wf (rigTry s rigPath root rig jntRoot) = true := by
  cases h : findIdByName s jntRoot with
  | none => rw [rigTry_eq_noneJ h, wf_logMsg]; exact hwf
  | some jr =>
    cases hg : (parentFullPath s jr != some rigPath) with
    | false => rw [rigTry_eq_skip h hg]; exact hwf
    | true =>
      cases hp : findPath2 s root rig with
      | none => rw [rigTry_eq_noPath h hg hp, wf_logMsg]; exact hwf
      | some t =>
        rw [rigTry_eq_call h hg hp]
        split
        · exact wf_parentCmd hwf
        · rw [wf_logMsg]
          exact wf_parentCmd hwf

theorem pathExists2_rigTry {s : Scene} {rigPath root rig jntRoot : String} {x y : String}
    (hwf : wf s = true) (hj : jntRoot ≠ y) :
    pathExists2 (rigTry s rigPath root rig jntRoot) x y = pathExists2 s x y := by
  cases h : findIdByName s jntRoot with
  | none => rw [rigTry_eq_noneJ h]; exact pathExists2_congr rfl
  | some jr =>
    cases hg : (parentFullPath s jr != some rigPath) with
    | false => rw [rigTry_eq_skip h hg]
    | true =>
      cases hp : findPath2 s root rig with
      | none => rw [rigTry_eq_noPath h hg hp]; exact pathExists2_congr rfl
      | some t =>
        rw [rigTry_eq_call h hg hp]
        have hcn : ∀ m ∈ s.nodes, m.id = jr → m.name ≠ y := by
          intro m hm hid
          obtain ⟨v, hv, hvc⟩ := findIdByName_firstNamed h
          have : m = v := eq_of_mem_of_id_eq hwf hm (firstNamed_mem hv) (by rw [hid, hvc])
          rw [this, firstNamed_name hv]
          exact hj
        split
        · exact pathExists2_parentCmd hcn
        · have h1 : pathExists2 (logMsg ((parentCmd s jr t).1) Level.warn
              "Parenting chain root under rig group failed") x y =
              pathExists2 ((parentCmd s jr t).1) x y := pathExists2_congr rfl
          rw [h1]
          exact pathExists2_parentCmd hcn

/-! ## Operation anatomy: `place_locators` and `build_rig` -/

theorem place_locators_fail {env : Option String} {s : Scene}
    (h : objExistsName s (rootNameOf env) = false) :
    place_locators env s =
      logMsg (assetPrelude env s).2 Level.error
        "root group does not exist. Run Create Group first." := by
  have hn : (assetPrelude env s).2.nodes = s.nodes := assetPrelude_nodes
  have h0 : objExistsName (assetPrelude env s).2 ("GRP_" ++ (_asset_name env).1) = false := by
    rw [objExistsName_congr hn]
    exact h
  simp [place_locators, assetPrelude_fst, _grp_names, h0]

theorem place_locators_run {env : Option String} {s : Scene}
    (h : objExistsName s (rootNameOf env) = true) :
    place_locators env s =
      logMsg
        (place1
          (place1
            (place1 (assetPrelude env s).2 "LOC_root" (posOfName s (rootNameOf env)))
            "LOC_base" (posOfName s (rootNameOf env)))
          "LOC_move" (posOfName s (rootNameOf env)))
        Level.info "Locators placed." := by
  have hn : (assetPrelude env s).2.nodes = s.nodes := assetPrelude_nodes
  have h0 : objExistsName (assetPrelude env s).2 ("GRP_" ++ (_asset_name env).1) = true := by
    rw [objExistsName_congr hn]
    exact h
  have hpv : posOfName (assetPrelude env s).2 ("GRP_" ++ (_asset_name env).1) =
      posOfName s (rootNameOf env) := posOfName_congr hn
  simp [place_locators, assetPrelude_fst, _grp_names, _loc_names, h0, hpv]

theorem build_rig_fail_rig {env : Option String} {s : Scene}
    (hrig : pathExists2 s (rootNameOf env) "GRP_rig" = false) :
    build_rig env s =
      logMsg (assetPrelude env s).2 Level.error
        "rig path does not exist. Run Create Group first." := by
  have hn : (assetPrelude env s).2.nodes = s.nodes := assetPrelude_nodes
  have h0 : pathExists2 (assetPrelude env s).2 ("GRP_" ++ (_asset_name env).1) "GRP_rig" =
      false := by
    rw [pathExists2_congr hn]
    exact hrig
  simp [build_rig, assetPrelude_fst, _grp_names, h0]

theorem build_rig_fail_loc {env : Option String} {s : Scene}
    (hrig : pathExists2 s (rootNameOf env) "GRP_rig" = true) :
    (objExistsName s "LOC_root" = false →
      build_rig env s = logMsg (assetPrelude env s).2 Level.error
        "LOC_root not found. Run Place Locators first.")
    ∧ (objExistsName s "LOC_root" = true → objExistsName s "LOC_base" = false →
      build_rig env s = logMsg (assetPrelude env s).2 Level.error
        "LOC_base not found. Run Place Locators first.")
    ∧ (objExistsName s "LOC_root" = true → objExistsName s "LOC_base" = true →
      objExistsName s "LOC_move" = false →
      build_rig env s = logMsg (assetPrelude env s).2 Level.error
        "LOC_move not found. Run Place Locators first.") := by
  have hn : (assetPrelude env s).2.nodes = s.nodes := assetPrelude_nodes
  have h0 : pathExists2 (assetPrelude env s).2 ("GRP_" ++ (_asset_name env).1) "GRP_rig" =
      true := by
    rw [pathExists2_congr hn]
    exact hrig
  refine ⟨?_, ?_, ?_⟩
  · intro hl1
    have h1 : objExistsName (assetPrelude env s).2 "LOC_root" = false := by
      rw [objExistsName_congr hn]; exact hl1
    simp [build_rig, assetPrelude_fst, _grp_names, _loc_names, h0, h1]
  · intro hl1 hl2
    have h1 : objExistsName (assetPrelude env s).2 "LOC_root" = true := by
      rw [objExistsName_congr hn]; exact hl1
    have h2 : objExistsName (assetPrelude env s).2 "LOC_base" = false := by
      rw [objExistsName_congr hn]; exact hl2
    simp [build_rig, assetPrelude_fst, _grp_names, _loc_names, h0, h1, h2]
  · intro hl1 hl2 hl3
    have h1 : objExistsName (assetPrelude env s).2 "LOC_root" = true := by
      rw [objExistsName_congr hn]; exact hl1
    have h2 : objExistsName (assetPrelude env s).2 "LOC_base" = true := by
      rw [objExistsName_congr hn]; exact hl2
    have h3 : objExistsName (assetPrelude env s).2 "LOC_move" = false := by
      rw [objExistsName_congr hn]; exact hl3
    simp [build_rig, assetPrelude_fst, _grp_names, _loc_names, h0, h1, h2, h3]

theorem build_rig_run {env : Option String} {s : Scene}
    (hrig : pathExists2 s (rootNameOf env) "GRP_rig" = true)
    (hl1 : objExistsName s "LOC_root" = true)
    (hl2 : objExistsName s "LOC_base" = true)
    (hl3 : objExistsName s "LOC_move" = true) :
    build_rig env s =
      logMsg
        (rigTry
          (chainTry
            (_ensure_joint
              (_ensure_joint
                (_ensure_joint (assetPrelude env s).2 "JNT_root" (posOfName s "LOC_root"))
                "JNT_base" (posOfName s "LOC_base"))
              "JNT_move" (posOfName s "LOC_move"))
            "JNT_root" "JNT_base" "JNT_move")
          (rootNameOf env ++ "|" ++ "GRP_rig") (rootNameOf env) "GRP_rig" "JNT_root")
        Level.info "Rig built or updated under rig path" := by
  have hn : (assetPrelude env s).2.nodes = s.nodes := assetPrelude_nodes
  have h0 : pathExists2 (assetPrelude env s).2 ("GRP_" ++ (_asset_name env).1) "GRP_rig" =
      true := by
    rw [pathExists2_congr hn]
    exact hrig
  have h1 : objExistsName (assetPrelude env s).2 "LOC_root" = true := by
    rw [objExistsName_congr hn]; exact hl1
  have h2 : objExistsName (assetPrelude env s).2 "LOC_base" = true := by
    rw [objExistsName_congr hn]; exact hl2
  have h3 : objExistsName (assetPrelude env s).2 "LOC_move" = true := by
    rw [objExistsName_congr hn]; exact hl3
  have hp1 : posOfName (assetPrelude env s).2 "LOC_root" = posOfName s "LOC_root" :=
    posOfName_congr hn
  have hp2 : posOfName (assetPrelude env s).2 "LOC_base" = posOfName s "LOC_base" :=
    posOfName_congr hn
  have hp3 : posOfName (assetPrelude env s).2 "LOC_move" = posOfName s "LOC_move" :=
    posOfName_congr hn
  simp [build_rig, assetPrelude_fst, _grp_names, _loc_names, _jnt_names,
    h0, h1, h2, h3, hp1, hp2, hp3, rootNameOf_eq]

/-! ## `ntypeOfName` and node-count length lemmas -/

theorem ntypeOfName_congr {s t : Scene} {n : String} (h : t.nodes = s.nodes) :
    ntypeOfName t n = ntypeOfName s n := by
  unfold ntypeOfName
  rw [firstNamed_congr h]

theorem ntypeOfName_logMsg {s : Scene} {lv : Level} {m : String} {n : String} :
    ntypeOfName (logMsg s lv m) n = ntypeOfName s n := ntypeOfName_congr rfl

theorem ntypeOfName_xformSetWT {s : Scene} {n : String} {p : Pos} {m : String} :
    ntypeOfName (xformSetWT s n p) m = ntypeOfName s m := by
  cases h : findIdByName s n with
  | none => rw [xformSetWT_none h]
  | some i =>
    unfold ntypeOfName
    rw [firstNamed_xformSetWT h]
    cases firstNamed s m with
    | none => rfl
    | some w => exact congrArg some (posUpd_ntype w)

theorem ntypeOfName_parentCmd {s : Scene} {c t : Nat} {m : String} :
    ntypeOfName ((parentCmd s c t).1) m = ntypeOfName s m := by
  rcases hb : (parentCmd s c t).2 with hf | ht
  · exact ntypeOfName_congr (parentCmd_fail_nodes hb)
  · unfold ntypeOfName firstNamed
    rw [parentCmd_success_nodes hb]
    rw [find?_map_pred (α := SNode) _ (fun v => v.name == m)
      (fun v => by simp only [parUpd_name]) _]
    cases s.nodes.find? (fun v => v.name == m) with
    | none => rfl
    | some w => exact congrArg some (parUpd_ntype w)

theorem ntypeOfName_parentIfNeededShort {s : Scene} {child target : String} {m : String} :
    ntypeOfName ((parentIfNeededShort s child target).1) m = ntypeOfName s m := by
  cases hc : findIdByName s child with
  | none => rw [parentIfNeededShort_eq_noneL hc]
  | some c =>
    cases ht : findIdByName s target with
    | none => rw [parentIfNeededShort_eq_noneR hc ht]
    | some t =>
      cases hg : (parentShortName s c != some target) with
      | false => rw [parentIfNeededShort_eq_skip hc ht hg]
      | true =>
        rw [parentIfNeededShort_eq_call hc ht hg]
        exact ntypeOfName_parentCmd

theorem ntypeOfName_chainTry {s : Scene} {a b c : String} {m : String} :
    ntypeOfName (chainTry s a b c) m = ntypeOfName s m := by
  rw [chainTry_eq]
  split
  · split
    · rw [ntypeOfName_parentIfNeededShort, ntypeOfName_parentIfNeededShort]
    · have h1 : ntypeOfName (logMsg (parentIfNeededShort (parentIfNeededShort s b a).1 c b).1
          Level.warn "Parenting joints failed") m =
          ntypeOfName ((parentIfNeededShort (parentIfNeededShort s b a).1 c b).1) m :=
        ntypeOfName_congr rfl
      rw [h1, ntypeOfName_parentIfNeededShort, ntypeOfName_parentIfNeededShort]
  · have h1 : ntypeOfName (logMsg ((parentIfNeededShort s b a).1) Level.warn
        "Parenting joints failed") m = ntypeOfName ((parentIfNeededShort s b a).1) m :=
      ntypeOfName_congr rfl
    rw [h1, ntypeOfName_parentIfNeededShort]

theorem ntypeOfName_rigTry {s : Scene} {rigPath root rig jntRoot : String} {m : String} :
    ntypeOfName (rigTry s rigPath root rig jntRoot) m = ntypeOfName s m := by
  cases h : findIdByName s jntRoot with
  | none => rw [rigTry_eq_noneJ h]; exact ntypeOfName_congr rfl
  | some jr =>
    cases hg : (parentFullPath s jr != some rigPath) with
    | false => rw [rigTry_eq_skip h hg]
    | true =>
      cases hp : findPath2 s root rig with
      | none => rw [rigTry_eq_noPath h hg hp]; exact ntypeOfName_congr rfl
      | some t =>
        rw [rigTry_eq_call h hg hp]
        split
        · exact ntypeOfName_parentCmd
        · have h1 : ntypeOfName (logMsg ((parentCmd s jr t).1) Level.warn
              "Parenting chain root under rig group failed") m =
              ntypeOfName ((parentCmd s jr t).1) m := ntypeOfName_congr rfl
          rw [h1]
          exact ntypeOfName_parentCmd

theorem ntypeOfName__ensure_joint_self_absent {s : Scene} {n : String} {p : Pos}
    (hex : objExistsName s n = false) :
    ntypeOfName (_ensure_joint s n p) n = some NType.joint := by
  rw [_ensure_joint_absent hex]
  have h1 : ntypeOfName (logMsg (jointCmd (selectClearCmd s) n p) Level.info
      "Created joint") n = ntypeOfName (jointCmd (selectClearCmd s) n p) n :=
    ntypeOfName_congr rfl
  rw [h1]
  unfold ntypeOfName jointCmd
  have hnone : firstNamed (selectClearCmd s) n = none := by
    apply firstNamed_none_of_not_objExists
    have h2 : objExistsName (selectClearCmd s) n = objExistsName s n :=
      objExistsName_congr rfl
    rw [h2]
    exact hex
  rw [firstNamed_createNode_new hnone]
  simp

theorem ntypeOfName__ensure_joint_other {s : Scene} {n : String} {p : Pos} {m : String}
    (hm : m ≠ n) :
    ntypeOfName (_ensure_joint s n p) m = ntypeOfName s m := by
  cases hex : objExistsName s n with
  | true =>
    rw [_ensure_joint_exists hex]
    have h1 : ntypeOfName (logMsg (xformSetWT s n p) Level.info
        "Moved joint to locator position.") m = ntypeOfName (xformSetWT s n p) m :=
      ntypeOfName_congr rfl
    rw [h1]
    exact ntypeOfName_xformSetWT
  | false =>
    rw [_ensure_joint_absent hex]
    have h1 : ntypeOfName (logMsg (jointCmd (selectClearCmd s) n p) Level.info
        "Created joint") m = ntypeOfName (jointCmd (selectClearCmd s) n p) m :=
      ntypeOfName_congr rfl
    rw [h1]
    unfold ntypeOfName jointCmd
    have he : firstNamed (selectClearCmd s) m = firstNamed s m := firstNamed_congr rfl
    cases hw : firstNamed s m with
    | none =>
      rw [firstNamed_createNode_new (he.trans hw)]
      have hnm : (n == m) = false := beq_eq_false_iff_ne.mpr (fun h => hm h.symm)
      rw [hnm]
      rfl
    | some w =>
      rw [firstNamed_createNode_found (he.trans hw)]

theorem nodesLength_congr {s t : Scene} (h : t.nodes = s.nodes) :
    t.nodes.length = s.nodes.length := by rw [h]

theorem nodesLength_parentCmd {s : Scene} {c t : Nat} :
    ((parentCmd s c t).1).nodes.length = s.nodes.length := by
  rcases parentCmd_nodes_cases (s := s) (c := c) (t := t) with h | h
  · rw [h]
  · rw [h, List.length_map]

theorem nodesLength_parentIfNeededShort {s : Scene} {child target : String} :
    ((parentIfNeededShort s child target).1).nodes.length = s.nodes.length := by
  cases hc : findIdByName s child with
  | none => rw [parentIfNeededShort_eq_noneL hc]
  | some c =>
    cases ht : findIdByName s target with
    | none => rw [parentIfNeededShort_eq_noneR hc ht]
    | some t =>
      cases hg : (parentShortName s c != some target) with
      | false => rw [parentIfNeededShort_eq_skip hc ht hg]
      | true =>
        rw [parentIfNeededShort_eq_call hc ht hg]
        exact nodesLength_parentCmd

theorem nodesLength_chainTry {s : Scene} {a b c : String} :
    (chainTry s a b c).nodes.length = s.nodes.length := by
  rw [chainTry_eq]
  split
  · split
    · rw [nodesLength_parentIfNeededShort, nodesLength_parentIfNeededShort]
    · have h1 : (logMsg (parentIfNeededShort (parentIfNeededShort s b a).1 c b).1
          Level.warn "Parenting joints failed").nodes.length =
          ((parentIfNeededShort (parentIfNeededShort s b a).1 c b).1).nodes.length :=
        nodesLength_congr rfl
      rw [h1, nodesLength_parentIfNeededShort, nodesLength_parentIfNeededShort]
  · have h1 : (logMsg ((parentIfNeededShort s b a).1) Level.warn
        "Parenting joints failed").nodes.length =
        ((parentIfNeededShort s b a).1).nodes.length := nodesLength_congr rfl
    rw [h1, nodesLength_parentIfNeededShort]

theorem nodesLength_rigTry {s : Scene} {rigPath root rig jntRoot : String} :
    (rigTry s rigPath root rig jntRoot).nodes.length = s.nodes.length := by
  cases h : findIdByName s jntRoot with
  | none => rw [rigTry_eq_noneJ h]; exact nodesLength_congr rfl
  | some jr =>
    cases hg : (parentFullPath s jr != some rigPath) with
    | false => rw [rigTry_eq_skip h hg]
    | true =>
      cases hp : findPath2 s root rig with
      | none => rw [rigTry_eq_noPath h hg hp]; exact nodesLength_congr rfl
      | some t =>
        rw [rigTry_eq_call h hg hp]
        split
        · exact nodesLength_parentCmd
        · have h1 : (logMsg ((parentCmd s jr t).1) Level.warn
              "Parenting chain root under rig group failed").nodes.length =
              ((parentCmd s jr t).1).nodes.length := nodesLength_congr rfl
          rw [h1]
          exact nodesLength_parentCmd

theorem nodesLength__ensure_joint {s : Scene} {n : String} {p : Pos} :
    (_ensure_joint s n p).nodes.length =
      s.nodes.length + (if objExistsName s n = false then 1 else 0) := by
  cases hex : objExistsName s n with
  | true =>
    rw [_ensure_joint_exists hex]
    have h1 : (logMsg (xformSetWT s n p) Level.info
        "Moved joint to locator position.").nodes.length =
        (xformSetWT s n p).nodes.length := nodesLength_congr rfl
    rw [h1, nodesLength_xformSetWT]
    simp
  | false =>
    rw [_ensure_joint_absent hex]
    have h1 : (logMsg (jointCmd (selectClearCmd s) n p) Level.info
        "Created joint").nodes.length =
        (jointCmd (selectClearCmd s) n p).nodes.length := nodesLength_congr rfl
    rw [h1]
    unfold jointCmd
    rw [createNode_nodes, List.length_append]
    rfl

theorem rootNameOf_ne_empty {env : Option String} : rootNameOf env ≠ "" := by
  rw [rootNameOf_eq]
  intro h
  have hd := congrArg String.data h
  rw [String.data_append] at hd
  have hg : ("GRP_").data = ['G', 'R', 'P', '_'] := rfl
  rw [hg] at hd
  simp at hd

/-! ## Composite facts about one `build_rig` run -/

theorem build_rig_counts {env : Option String} {s : Scene}
    (hwf : wf s = true)
    (hrig : pathExists2 s (rootNameOf env) "GRP_rig" = true)
    (hl1 : objExistsName s "LOC_root" = true)
    (hl2 : objExistsName s "LOC_base" = true)
    (hl3 : objExistsName s "LOC_move" = true) :
    countName (build_rig env s) "JNT_root" = max (countName s "JNT_root") 1
    ∧ countName (build_rig env s) "JNT_base" = max (countName s "JNT_base") 1
    ∧ countName (build_rig env s) "JNT_move" = max (countName s "JNT_move") 1
    ∧ (∀ m, m ≠ "JNT_root" → m ≠ "JNT_base" → m ≠ "JNT_move" →
        countName (build_rig env s) m = countName s m) := by
  rw [build_rig_run hrig hl1 hl2 hl3]
  have hA : (assetPrelude env s).2.nodes = s.nodes := assetPrelude_nodes
  have base : ∀ m, countName (logMsg
      (rigTry
        (chainTry
          (_ensure_joint
            (_ensure_joint
              (_ensure_joint (assetPrelude env s).2 "JNT_root" (posOfName s "LOC_root"))
              "JNT_base" (posOfName s "LOC_base"))
            "JNT_move" (posOfName s "LOC_move"))
          "JNT_root" "JNT_base" "JNT_move")
        (rootNameOf env ++ "|" ++ "GRP_rig") (rootNameOf env) "GRP_rig" "JNT_root")
      Level.info "Rig built or updated under rig path") m =
      countName (_ensure_joint
        (_ensure_joint
          (_ensure_joint (assetPrelude env s).2 "JNT_root" (posOfName s "LOC_root"))
          "JNT_base" (posOfName s "LOC_base"))
        "JNT_move" (posOfName s "LOC_move")) m := by
    intro m
    rw [countName_logMsg, countName_rigTry, countName_chainTry]
  refine ⟨?_, ?_, ?_, ?_⟩
  · rw [base]
    rw [countName__ensure_joint_other (by decide),
      countName__ensure_joint_other (by decide),
      countName__ensure_joint_self, countName_congr hA]
  · rw [base]
    rw [countName__ensure_joint_other (by decide),
      countName__ensure_joint_self, countName__ensure_joint_other (by decide),
      countName_congr hA]
  · rw [base]
    rw [countName__ensure_joint_self, countName__ensure_joint_other (by decide),
      countName__ensure_joint_other (by decide), countName_congr hA]
  · intro m hm1 hm2 hm3
    rw [base]
    rw [countName__ensure_joint_other hm3, countName__ensure_joint_other hm2,
      countName__ensure_joint_other hm1, countName_congr hA]

theorem build_rig_positions {env : Option String} {s : Scene}
    (hwf : wf s = true)
    (hrig : pathExists2 s (rootNameOf env) "GRP_rig" = true)
    (hl1 : objExistsName s "LOC_root" = true)
    (hl2 : objExistsName s "LOC_base" = true)
    (hl3 : objExistsName s "LOC_move" = true) :
    posOfName (build_rig env s) "JNT_root" = posOfName s "LOC_root"
    ∧ posOfName (build_rig env s) "JNT_base" = posOfName s "LOC_base"
    ∧ posOfName (build_rig env s) "JNT_move" = posOfName s "LOC_move" := by
  rw [build_rig_run hrig hl1 hl2 hl3]
  have hwfA : wf (assetPrelude env s).2 = true := wf_assetPrelude hwf
  have hwfE1 : wf (_ensure_joint (assetPrelude env s).2 "JNT_root"
      (posOfName s "LOC_root")) = true := wf__ensure_joint hwfA
  have hwfE2 : wf (_ensure_joint (_ensure_joint (assetPrelude env s).2 "JNT_root"
      (posOfName s "LOC_root")) "JNT_base" (posOfName s "LOC_base")) = true :=
    wf__ensure_joint hwfE1
  have base : ∀ m, posOfName (logMsg
      (rigTry
        (chainTry
          (_ensure_joint
            (_ensure_joint
              (_ensure_joint (assetPrelude env s).2 "JNT_root" (posOfName s "LOC_root"))
              "JNT_base" (posOfName s "LOC_base"))
            "JNT_move" (posOfName s "LOC_move"))
          "JNT_root" "JNT_base" "JNT_move")
        (rootNameOf env ++ "|" ++ "GRP_rig") (rootNameOf env) "GRP_rig" "JNT_root")
      Level.info "Rig built or updated under rig path") m =
      posOfName (_ensure_joint
        (_ensure_joint
          (_ensure_joint (assetPrelude env s).2 "JNT_root" (posOfName s "LOC_root"))
          "JNT_base" (posOfName s "LOC_base"))
        "JNT_move" (posOfName s "LOC_move")) m := by
    intro m
    rw [posOfName_logMsg, posOfName_rigTry, posOfName_chainTry]
  refine ⟨?_, ?_, ?_⟩
  · rw [base, posOfName__ensure_joint_other hwfE2 (by decide),
      posOfName__ensure_joint_other hwfE1 (by decide), posOfName__ensure_joint_self]
  · rw [base, posOfName__ensure_joint_other hwfE2 (by decide),
      posOfName__ensure_joint_self]
  · rw [base, posOfName__ensure_joint_self]

theorem build_rig_ntypes {env : Option String} {s : Scene}
    (hwf : wf s = true)
    (hrig : pathExists2 s (rootNameOf env) "GRP_rig" = true)
    (hl1 : objExistsName s "LOC_root" = true)
    (hl2 : objExistsName s "LOC_base" = true)
    (hl3 : objExistsName s "LOC_move" = true) :
    (countName s "JNT_root" = 0 →
      ntypeOfName (build_rig env s) "JNT_root" = some NType.joint)
    ∧ (countName s "JNT_base" = 0 →
      ntypeOfName (build_rig env s) "JNT_base" = some NType.joint)
    ∧ (countName s "JNT_move" = 0 →
      ntypeOfName (build_rig env s) "JNT_move" = some NType.joint) := by
  rw [build_rig_run hrig hl1 hl2 hl3]
  have hA : (assetPrelude env s).2.nodes = s.nodes := assetPrelude_nodes
  have base : ∀ m, ntypeOfName (logMsg
      (rigTry
        (chainTry
          (_ensure_joint
            (_ensure_joint
              (_ensure_joint (assetPrelude env s).2 "JNT_root" (posOfName s "LOC_root"))
              "JNT_base" (posOfName s "LOC_base"))
            "JNT_move" (posOfName s "LOC_move"))
          "JNT_root" "JNT_base" "JNT_move")
        (rootNameOf env ++ "|" ++ "GRP_rig") (rootNameOf env) "GRP_rig" "JNT_root")
      Level.info "Rig built or updated under rig path") m =
      ntypeOfName (_ensure_joint
        (_ensure_joint
          (_ensure_joint (assetPrelude env s).2 "JNT_root" (posOfName s "LOC_root"))
          "JNT_base" (posOfName s "LOC_base"))
        "JNT_move" (posOfName s "LOC_move")) m := by
    intro m
    rw [ntypeOfName_logMsg, ntypeOfName_rigTry, ntypeOfName_chainTry]
  refine ⟨?_, ?_, ?_⟩
  · intro hz
    have hex : objExistsName (assetPrelude env s).2 "JNT_root" = false := by
      apply objExists_false_of_countName_zero
      rw [countName_congr hA]
      exact hz
    rw [base, ntypeOfName__ensure_joint_other (by decide),
      ntypeOfName__ensure_joint_other (by decide),
      ntypeOfName__ensure_joint_self_absent hex]
  · intro hz
    have hex : objExistsName (_ensure_joint (assetPrelude env s).2 "JNT_root"
        (posOfName s "LOC_root")) "JNT_base" = false := by
      rw [objExistsName__ensure_joint_other (by decide)]
      apply objExists_false_of_countName_zero
      rw [countName_congr hA]
      exact hz
    rw [base, ntypeOfName__ensure_joint_other (by decide),
      ntypeOfName__ensure_joint_self_absent hex]
  · intro hz
    have hex : objExistsName (_ensure_joint (_ensure_joint (assetPrelude env s).2
        "JNT_root" (posOfName s "LOC_root")) "JNT_base" (posOfName s "LOC_base"))
        "JNT_move" = false := by
      rw [objExistsName__ensure_joint_other (by decide),
        objExistsName__ensure_joint_other (by decide)]
      apply objExists_false_of_countName_zero
      rw [countName_congr hA]
      exact hz
    rw [base, ntypeOfName__ensure_joint_self_absent hex]

theorem build_rig_length {env : Option String} {s : Scene}
    (hrig : pathExists2 s (rootNameOf env) "GRP_rig" = true)
    (hl1 : objExistsName s "LOC_root" = true)
    (hl2 : objExistsName s "LOC_base" = true)
    (hl3 : objExistsName s "LOC_move" = true) :
    (build_rig env s).nodes.length = s.nodes.length
      + (if objExistsName s "JNT_root" = false then 1 else 0)
      + (if objExistsName s "JNT_base" = false then 1 else 0)
      + (if objExistsName s "JNT_move" = false then 1 else 0) := by
  rw [build_rig_run hrig hl1 hl2 hl3]
  have hA : (assetPrelude env s).2.nodes = s.nodes := assetPrelude_nodes
  rw [nodesLength_logMsg, nodesLength_rigTry, nodesLength_chainTry, nodesLength__ensure_joint,
    nodesLength__ensure_joint, nodesLength__ensure_joint, nodesLength_congr hA]
  have e2 : objExistsName (_ensure_joint (assetPrelude env s).2 "JNT_root"
      (posOfName s "LOC_root")) "JNT_base" = objExistsName s "JNT_base" := by
    rw [objExistsName__ensure_joint_other (by decide), objExistsName_congr hA]
  have e3 : objExistsName (_ensure_joint (_ensure_joint (assetPrelude env s).2
      "JNT_root" (posOfName s "LOC_root")) "JNT_base" (posOfName s "LOC_base"))
      "JNT_move" = objExistsName s "JNT_move" := by
    rw [objExistsName__ensure_joint_other (by decide),
      objExistsName__ensure_joint_other (by decide), objExistsName_congr hA]
  have e1 : objExistsName (assetPrelude env s).2 "JNT_root" =
      objExistsName s "JNT_root" := objExistsName_congr hA
  rw [e1, e2, e3]

theorem build_rig_preserves_rigInv {env : Option String} {s : Scene}
    (h : rigInv env s) : rigInv env (build_rig env s) := by
  obtain ⟨hwf, hrig, hl1, hl2, hl3, hc1, hc2, hc3⟩ := h
  rw [rigInv]
  rw [build_rig_run hrig hl1 hl2 hl3]
  have hA : (assetPrelude env s).2.nodes = s.nodes := assetPrelude_nodes
  have hwfA : wf (assetPrelude env s).2 = true := wf_assetPrelude hwf
  have hwfE1 : wf (_ensure_joint (assetPrelude env s).2 "JNT_root"
      (posOfName s "LOC_root")) = true := wf__ensure_joint hwfA
  have hwfE2 : wf (_ensure_joint (_ensure_joint (assetPrelude env s).2 "JNT_root"
      (posOfName s "LOC_root")) "JNT_base" (posOfName s "LOC_base")) = true :=
    wf__ensure_joint hwfE1
  have hwfE3 : wf (_ensure_joint (_ensure_joint (_ensure_joint (assetPrelude env s).2
      "JNT_root" (posOfName s "LOC_root")) "JNT_base" (posOfName s "LOC_base"))
      "JNT_move" (posOfName s "LOC_move")) = true := wf__ensure_joint hwfE2
  have hwfC : wf (chainTry (_ensure_joint (_ensure_joint (_ensure_joint
      (assetPrelude env s).2 "JNT_root" (posOfName s "LOC_root")) "JNT_base"
      (posOfName s "LOC_base")) "JNT_move" (posOfName s "LOC_move"))
      "JNT_root" "JNT_base" "JNT_move") = true := wf_chainTry hwfE3
  have hne : rootNameOf env ≠ "" := rootNameOf_ne_empty
  refine ⟨?_, ?_, ?_, ?_, ?_, ?_, ?_, ?_⟩
  · rw [wf_logMsg]
    exact wf_rigTry hwfC
  · rw [pathExists2_logMsg, pathExists2_rigTry hwfC (by decide),
      pathExists2_chainTry hwfE3 (by decide) (by decide)]
    apply pathExists2__ensure_joint_true hne
    apply pathExists2__ensure_joint_true hne
    apply pathExists2__ensure_joint_true hne
    rw [pathExists2_congr hA]
    exact hrig
  · rw [objExistsName_logMsg, objExistsName_rigTry, objExistsName_chainTry,
      objExistsName__ensure_joint_other (by decide),
      objExistsName__ensure_joint_other (by decide),
      objExistsName__ensure_joint_other (by decide), objExistsName_congr hA]
    exact hl1
  · rw [objExistsName_logMsg, objExistsName_rigTry, objExistsName_chainTry,
      objExistsName__ensure_joint_other (by decide),
      objExistsName__ensure_joint_other (by decide),
      objExistsName__ensure_joint_other (by decide), objExistsName_congr hA]
    exact hl2
  · rw [objExistsName_logMsg, objExistsName_rigTry, objExistsName_chainTry,
      objExistsName__ensure_joint_other (by decide),
      objExistsName__ensure_joint_other (by decide),
      objExistsName__ensure_joint_other (by decide), objExistsName_congr hA]
    exact hl3
  · have := (build_rig_counts hwf hrig hl1 hl2 hl3).1
    rw [build_rig_run hrig hl1 hl2 hl3] at this
    rw [this]
    omega
  · have := (build_rig_counts hwf hrig hl1 hl2 hl3).2.1
    rw [build_rig_run hrig hl1 hl2 hl3] at this
    rw [this]
    omega
  · have := (build_rig_counts hwf hrig hl1 hl2 hl3).2.2.1
    rw [build_rig_run hrig hl1 hl2 hl3] at this
    rw [this]
    omega

theorem rigInv_iterate {env : Option String} {s : Scene} (h : rigInv env s) :
    ∀ k, rigInv env (Nat.iterate (build_rig env) k s) := by
  intro k
  induction k with
  | zero => exact h
  | succ n ih =>
    rw [Function.iterate_succ_apply']
    exact build_rig_preserves_rigInv ih

/-- C1: for every locator position and every scene state with the rig group
and all three locators present (and scene sanity: unique ids, at most one
node per joint name), `build_rig` leaves exactly one node per joint name,
at the corresponding locator position, creating a joint only when the name
was absent and no node at all when it was present; iterating `build_rig`
never pushes the number of rig joints above three. -/
theorem c1_build_rig_ensure_joints (env : Option String) (s : Scene)
    (hwf : wf s = true)
    (hrig : pathExists2 s (rootNameOf env) "GRP_rig" = true)
    (hl1 : objExistsName s "LOC_root" = true)
    (hl2 : objExistsName s "LOC_base" = true)
    (hl3 : objExistsName s "LOC_move" = true)
    (hc1 : countName s "JNT_root" ≤ 1) (hc2 : countName s "JNT_base" ≤ 1)
    (hc3 : countName s "JNT_move" ≤ 1) :
    (countName (build_rig env s) "JNT_root" = 1
      ∧ posOfName (build_rig env s) "JNT_root" = posOfName s "LOC_root"
      ∧ (countName s "JNT_root" = 0 →
          ntypeOfName (build_rig env s) "JNT_root" = some NType.joint))
    ∧ (countName (build_rig env s) "JNT_base" = 1
      ∧ posOfName (build_rig env s) "JNT_base" = posOfName s "LOC_base"
      ∧ (countName s "JNT_base" = 0 →
          ntypeOfName (build_rig env s) "JNT_base" = some NType.joint))
    ∧ (countName (build_rig env s) "JNT_move" = 1
      ∧ posOfName (build_rig env s) "JNT_move" = posOfName s "LOC_move"
      ∧ (countName s "JNT_move" = 0 →
          ntypeOfName (build_rig env s) "JNT_move" = some NType.joint))
    ∧ (build_rig env s).nodes.length = s.nodes.length
        + ((1 - countName s "JNT_root") + (1 - countName s "JNT_base")
          + (1 - countName s "JNT_move"))
    ∧ (∀ k, jointTotal (Nat.iterate (build_rig env) k s) ≤ 3) := by
  obtain ⟨hcnt1, hcnt2, hcnt3, _⟩ := build_rig_counts hwf hrig hl1 hl2 hl3
  obtain ⟨hpos1, hpos2, hpos3⟩ := build_rig_positions hwf hrig hl1 hl2 hl3
  obtain ⟨hty1, hty2, hty3⟩ := build_rig_ntypes hwf hrig hl1 hl2 hl3
  have hlen := build_rig_length hrig hl1 hl2 hl3
  refine ⟨⟨by rw [hcnt1]; omega, hpos1, hty1⟩, ⟨by rw [hcnt2]; omega, hpos2, hty2⟩,
    ⟨by rw [hcnt3]; omega, hpos3, hty3⟩, ?_, ?_⟩
  · have oneMinus : ∀ n, countName s n ≤ 1 →
        (if objExistsName s n = false then 1 else 0) = 1 - countName s n := by
      intro n hle
      cases he : objExistsName s n with
      | false =>
        rw [countName_zero_of_not_objExists he]
        simp
      | true =>
        have hpos := countName_pos_of_objExists he
        have h1 : countName s n = 1 := by omega
        rw [h1]
        simp
    rw [hlen, oneMinus _ hc1, oneMinus _ hc2, oneMinus _ hc3]
    omega
  · intro k
    have hinv : rigInv env (Nat.iterate (build_rig env) k s) :=
      rigInv_iterate ⟨hwf, hrig, hl1, hl2, hl3, hc1, hc2, hc3⟩ k
    obtain ⟨_, _, _, _, _, k1, k2, k3⟩ := hinv
    unfold jointTotal
    omega

/-- Witness for C1: the workflow scene after `create_group` and
`place_locators` satisfies every hypothesis, and the theorem applies. -/
theorem c1_build_rig_ensure_joints_witness :
    countName (build_rig demoEnv demoS2) "JNT_root" = 1
    ∧ posOfName (build_rig demoEnv demoS2) "JNT_root" = posOfName demoS2 "LOC_root" := by
  have h := c1_build_rig_ensure_joints demoEnv demoS2 (by decide) (by decide)
    (by decide) (by decide) (by decide) (by decide) (by decide) (by decide)
  exact ⟨h.1.1, h.1.2.1⟩

/-! ## Composite facts about one `place_locators` run -/

theorem countName_place1_other {s : Scene} {loc : String} {pv : Pos} {m : String}
    (hm : loc ≠ m) : countName (place1 s loc pv) m = countName s m := by
  rw [countName_place1]
  have : (loc == m) = false := beq_eq_false_iff_ne.mpr hm
  rw [this]
  simp

theorem countName_place1_self {s : Scene} {loc : String} {pv : Pos}
    (hle : countName s loc ≤ 1) : countName (place1 s loc pv) loc = 1 := by
  rw [countName_place1]
  cases hex : objExistsName s loc with
  | true =>
    have := countName_pos_of_objExists hex
    simp only [beq_self_eq_true]
    simp
    omega
  | false =>
    rw [countName_zero_of_not_objExists hex]
    simp

theorem nodesLength_place1 {s : Scene} {loc : String} {pv : Pos} :
    (place1 s loc pv).nodes.length =
      s.nodes.length + (if objExistsName s loc = false then 1 else 0) := by
  cases hex : objExistsName s loc with
  | true =>
    rw [place1_exists hex, nodesLength_xformSetWT]
    simp
  | false =>
    rw [place1_absent hex, nodesLength_xformSetWT, nodesLength_logMsg]
    unfold spaceLocatorCmd
    rw [createNode_nodes, List.length_append]
    rfl

theorem ifAbsent_eq_oneMinus {s : Scene} {n : String} (h : countName s n ≤ 1) :
    (if objExistsName s n = false then 1 else 0) = 1 - countName s n := by
  cases he : objExistsName s n with
  | false =>
    rw [countName_zero_of_not_objExists he]
    simp
  | true =>
    have hpos := countName_pos_of_objExists he
    have h1 : countName s n = 1 := by omega
    rw [h1]
    simp

theorem place_locators_state {env : Option String} {s : Scene}
    (hwf : wf s = true)
    (hroot : objExistsName s (rootNameOf env) = true)
    (hc1 : countName s "LOC_root" ≤ 1) (hc2 : countName s "LOC_base" ≤ 1)
    (hc3 : countName s "LOC_move" ≤ 1) :
    wf (place_locators env s) = true
    ∧ countName (place_locators env s) "LOC_root" = 1
    ∧ countName (place_locators env s) "LOC_base" = 1
    ∧ countName (place_locators env s) "LOC_move" = 1
    ∧ posOfName (place_locators env s) "LOC_root" = posOfName s (rootNameOf env)
    ∧ posOfName (place_locators env s) "LOC_base" = posOfName s (rootNameOf env)
    ∧ posOfName (place_locators env s) "LOC_move" = posOfName s (rootNameOf env)
    ∧ (∀ m, m ≠ "LOC_root" → m ≠ "LOC_base" → m ≠ "LOC_move" →
        countName (place_locators env s) m = countName s m)
    ∧ (∀ a b, a ≠ "" → pathExists2 s a b = true →
        pathExists2 (place_locators env s) a b = true)
    ∧ (place_locators env s).nodes.length = s.nodes.length
        + ((1 - countName s "LOC_root") + (1 - countName s "LOC_base")
          + (1 - countName s "LOC_move")) := by
  rw [place_locators_run hroot]
  have hA : (assetPrelude env s).2.nodes = s.nodes := assetPrelude_nodes
  have hwfA : wf (assetPrelude env s).2 = true := wf_assetPrelude hwf
  have hwfP1 : wf (place1 (assetPrelude env s).2 "LOC_root"
      (posOfName s (rootNameOf env))) = true := wf_place1 hwfA
  have hwfP2 : wf (place1 (place1 (assetPrelude env s).2 "LOC_root"
      (posOfName s (rootNameOf env))) "LOC_base" (posOfName s (rootNameOf env))) = true :=
    wf_place1 hwfP1
  have hwfP3 : wf (place1 (place1 (place1 (assetPrelude env s).2 "LOC_root"
      (posOfName s (rootNameOf env))) "LOC_base" (posOfName s (rootNameOf env)))
      "LOC_move" (posOfName s (rootNameOf env))) = true := wf_place1 hwfP2
  refine ⟨?_, ?_, ?_, ?_, ?_, ?_, ?_, ?_, ?_, ?_⟩
  · rw [wf_logMsg]
    exact hwfP3
  · rw [countName_logMsg, countName_place1_other (by decide),
      countName_place1_other (by decide)]
    apply countName_place1_self
    rw [countName_congr hA]
    exact hc1
  · rw [countName_logMsg, countName_place1_other (by decide)]
    apply countName_place1_self
    rw [countName_place1_other (by decide), countName_congr hA]
    exact hc2
  · rw [countName_logMsg]
    apply countName_place1_self
    rw [countName_place1_other (by decide), countName_place1_other (by decide),
      countName_congr hA]
    exact hc3
  · rw [posOfName_logMsg, posOfName_place1_other hwfP2 (by decide),
      posOfName_place1_other hwfP1 (by decide), posOfName_place1_self]
  · rw [posOfName_logMsg, posOfName_place1_other hwfP2 (by decide),
      posOfName_place1_self]
  · rw [posOfName_logMsg, posOfName_place1_self]
  · intro m hm1 hm2 hm3
    rw [countName_logMsg, countName_place1_other (fun h => hm3 h.symm),
      countName_place1_other (fun h => hm2 h.symm),
      countName_place1_other (fun h => hm1 h.symm), countName_congr hA]
  · intro a b ha hp
    rw [pathExists2_logMsg]
    apply pathExists2_place1_true ha
    apply pathExists2_place1_true ha
    apply pathExists2_place1_true ha
    rw [pathExists2_congr hA]
    exact hp
  · rw [nodesLength_logMsg, nodesLength_place1, nodesLength_place1, nodesLength_place1,
      nodesLength_congr hA]
    have e1 : objExistsName (assetPrelude env s).2 "LOC_root" =
        objExistsName s "LOC_root" := objExistsName_congr hA
    have e2 : objExistsName (place1 (assetPrelude env s).2 "LOC_root"
        (posOfName s (rootNameOf env))) "LOC_base" = objExistsName s "LOC_base" := by
      rw [objExistsName_place1_other (by decide), objExistsName_congr hA]
    have e3 : objExistsName (place1 (place1 (assetPrelude env s).2 "LOC_root"
        (posOfName s (rootNameOf env))) "LOC_base" (posOfName s (rootNameOf env)))
        "LOC_move" = objExistsName s "LOC_move" := by
      rw [objExistsName_place1_other (by decide), objExistsName_place1_other (by decide),
        objExistsName_congr hA]
    rw [e1, e2, e3]
    have hcc1 : countName s "LOC_root" ≤ 1 := hc1
    rw [ifAbsent_eq_oneMinus hc1, ifAbsent_eq_oneMinus hc2, ifAbsent_eq_oneMinus hc3]
    omega

/-- C5: with the root group present, `place_locators` leaves exactly one
node per locator name — creating each missing locator, never duplicating an
existing one — and unconditionally overwrites every locator's world
translation with the root group pivot. -/
theorem c5_place_locators_overwrite (env : Option String) (s : Scene)
    (hwf : wf s = true)
    (hroot : objExistsName s (rootNameOf env) = true)
    (hc1 : countName s "LOC_root" ≤ 1) (hc2 : countName s "LOC_base" ≤ 1)
    (hc3 : countName s "LOC_move" ≤ 1) :
    (countName (place_locators env s) "LOC_root" = 1
      ∧ posOfName (place_locators env s) "LOC_root" = posOfName s (rootNameOf env))
    ∧ (countName (place_locators env s) "LOC_base" = 1
      ∧ posOfName (place_locators env s) "LOC_base" = posOfName s (rootNameOf env))
    ∧ (countName (place_locators env s) "LOC_move" = 1
      ∧ posOfName (place_locators env s) "LOC_move" = posOfName s (rootNameOf env))
    ∧ (place_locators env s).nodes.length = s.nodes.length
        + ((1 - countName s "LOC_root") + (1 - countName s "LOC_base")
          + (1 - countName s "LOC_move")) := by
  obtain ⟨_, hn1, hn2, hn3, hp1, hp2, hp3, _, _, hlen⟩ :=
    place_locators_state hwf hroot hc1 hc2 hc3
  exact ⟨⟨hn1, hp1⟩, ⟨hn2, hp2⟩, ⟨hn3, hp3⟩, hlen⟩

/-- Witness for C5: after `create_group` on the empty scene, the theorem
applies; the second conjunct shows positions are overwritten to the pivot. -/
theorem c5_place_locators_overwrite_witness :
    countName (place_locators demoEnv demoS1) "LOC_root" = 1
    ∧ posOfName (place_locators demoEnv demoS1) "LOC_root"
        = posOfName demoS1 (rootNameOf demoEnv) := by
  have h := c5_place_locators_overwrite demoEnv demoS1 (by decide) (by decide)
    (by decide) (by decide) (by decide)
  exact ⟨h.1.1, h.1.2⟩

/-- C9 (implicit): right after a successful `place_locators`, the three
locators carry one identical world translation — the root group pivot — so
a `build_rig` with no intervening edits puts all three joints at that same
single point. -/
theorem c9_locators_coincide (env : Option String) (s : Scene)
    (hwf : wf s = true)
    (hroot : objExistsName s (rootNameOf env) = true)
    (hrig : pathExists2 s (rootNameOf env) "GRP_rig" = true)
    (hc1 : countName s "LOC_root" ≤ 1) (hc2 : countName s "LOC_base" ≤ 1)
    (hc3 : countName s "LOC_move" ≤ 1) :
    (posOfName (place_locators env s) "LOC_root" = posOfName s (rootNameOf env)
      ∧ posOfName (place_locators env s) "LOC_base" = posOfName s (rootNameOf env)
      ∧ posOfName (place_locators env s) "LOC_move" = posOfName s (rootNameOf env))
    ∧ (posOfName (build_rig env (place_locators env s)) "JNT_root"
          = posOfName s (rootNameOf env)
      ∧ posOfName (build_rig env (place_locators env s)) "JNT_base"
          = posOfName s (rootNameOf env)
      ∧ posOfName (build_rig env (place_locators env s)) "JNT_move"
          = posOfName s (rootNameOf env)) := by
  obtain ⟨hwfP, hn1, hn2, hn3, hp1, hp2, hp3, _, hpath, _⟩ :=
    place_locators_state hwf hroot hc1 hc2 hc3
  have hrigP : pathExists2 (place_locators env s) (rootNameOf env) "GRP_rig" = true :=
    hpath _ _ rootNameOf_ne_empty hrig
  have hl1 : objExistsName (place_locators env s) "LOC_root" = true := by
    cases he : objExistsName (place_locators env s) "LOC_root" with
    | true => rfl
    | false =>
      have := countName_zero_of_not_objExists he
      omega
  have hl2 : objExistsName (place_locators env s) "LOC_base" = true := by
    cases he : objExistsName (place_locators env s) "LOC_base" with
    | true => rfl
    | false =>
      have := countName_zero_of_not_objExists he
      omega
  have hl3 : objExistsName (place_locators env s) "LOC_move" = true := by
    cases he : objExistsName (place_locators env s) "LOC_move" with
    | true => rfl
    | false =>
      have := countName_zero_of_not_objExists he
      omega
  obtain ⟨hj1, hj2, hj3⟩ := build_rig_positions hwfP hrigP hl1 hl2 hl3
  exact ⟨⟨hp1, hp2, hp3⟩, ⟨hj1.trans hp1, hj2.trans hp2, hj3.trans hp3⟩⟩

/-- Witness for C9 on the workflow scene after `create_group`. -/
theorem c9_locators_coincide_witness :
    posOfName (build_rig demoEnv (place_locators demoEnv demoS1)) "JNT_root"
      = posOfName demoS1 (rootNameOf demoEnv) := by
  have h := c9_locators_coincide demoEnv demoS1 (by decide) (by decide)
    (by decide) (by decide) (by decide) (by decide)
  exact h.2.1

/-! ## Missing-prerequisite behaviour -/

theorem errorReturn_facts {env : Option String} {s : Scene} {msg : String} :
    (logMsg (assetPrelude env s).2 Level.error msg).nodes = s.nodes
    ∧ (logMsg (assetPrelude env s).2 Level.error msg).trace = s.trace
    ∧ (logMsg (assetPrelude env s).2 Level.error msg).selection = s.selection
    ∧ logHas (newLog s (logMsg (assetPrelude env s).2 Level.error msg))
        Level.error = true := by
  refine ⟨assetPrelude_nodes, assetPrelude_trace, assetPrelude_selection, ?_⟩
  obtain ⟨E, hE, _⟩ := @assetPrelude_log env s
  unfold newLog logMsg
  simp only [hE]
  rw [List.append_assoc, List.drop_left]
  unfold logHas
  rw [List.any_append]
  simp

/-- C6: a missing prerequisite — the root group for `place_locators`, the
rig group or any locator for `build_rig` — makes the operation log an error
and return with no scene mutation: nodes, host-call trace and selection are
untouched, and in particular no joint is created. -/
theorem c6_missing_prereq_no_mutation (env : Option String) (s : Scene) :
    (objExistsName s (rootNameOf env) = false →
      (place_locators env s).nodes = s.nodes
      ∧ (place_locators env s).trace = s.trace
      ∧ (place_locators env s).selection = s.selection
      ∧ logHas (newLog s (place_locators env s)) Level.error = true)
    ∧ ((pathExists2 s (rootNameOf env) "GRP_rig" = false
        ∨ objExistsName s "LOC_root" = false ∨ objExistsName s "LOC_base" = false
        ∨ objExistsName s "LOC_move" = false) →
      (build_rig env s).nodes = s.nodes
      ∧ (build_rig env s).trace = s.trace
      ∧ (build_rig env s).selection = s.selection
      ∧ logHas (newLog s (build_rig env s)) Level.error = true
      ∧ jointTotal (build_rig env s) = jointTotal s) := by
  constructor
  · intro h
    rw [place_locators_fail h]
    exact errorReturn_facts
  · intro hfail
    have main : build_rig env s = logMsg (assetPrelude env s).2 Level.error
        "rig path does not exist. Run Create Group first."
      ∨ build_rig env s = logMsg (assetPrelude env s).2 Level.error
        "LOC_root not found. Run Place Locators first."
      ∨ build_rig env s = logMsg (assetPrelude env s).2 Level.error
        "LOC_base not found. Run Place Locators first."
      ∨ build_rig env s = logMsg (assetPrelude env s).2 Level.error
        "LOC_move not found. Run Place Locators first." := by
      cases hp : pathExists2 s (rootNameOf env) "GRP_rig" with
      | false => exact Or.inl (build_rig_fail_rig hp)
      | true =>
        cases h1 : objExistsName s "LOC_root" with
        | false => exact Or.inr (Or.inl ((build_rig_fail_loc hp).1 h1))
        | true =>
          cases h2 : objExistsName s "LOC_base" with
          | false => exact Or.inr (Or.inr (Or.inl ((build_rig_fail_loc hp).2.1 h1 h2)))
          | true =>
            cases h3 : objExistsName s "LOC_move" with
            | false =>
              exact Or.inr (Or.inr (Or.inr ((build_rig_fail_loc hp).2.2 h1 h2 h3)))
            | true =>
              exfalso
              rcases hfail with hf | hf | hf | hf
              · rw [hp] at hf; cases hf
              · rw [h1] at hf; cases hf
              · rw [h2] at hf; cases hf
              · rw [h3] at hf; cases hf
    have conclude : ∀ msg, build_rig env s = logMsg (assetPrelude env s).2 Level.error msg →
        (build_rig env s).nodes = s.nodes
        ∧ (build_rig env s).trace = s.trace
        ∧ (build_rig env s).selection = s.selection
        ∧ logHas (newLog s (build_rig env s)) Level.error = true
        ∧ jointTotal (build_rig env s) = jointTotal s := by
      intro msg heq
      rw [heq]
      obtain ⟨f1, f2, f3, f4⟩ := @errorReturn_facts env s msg
      refine ⟨f1, f2, f3, f4, ?_⟩
      unfold jointTotal
      rw [countName_congr f1, countName_congr f1, countName_congr f1]
    rcases main with h | h | h | h
    · exact conclude _ h
    · exact conclude _ h
    · exact conclude _ h
    · exact conclude _ h

/-- Witness for C6: on the empty scene every prerequisite is missing, so
both operations log an error and mutate nothing. -/
theorem c6_missing_prereq_no_mutation_witness :
    (place_locators demoEnv emptyScene).nodes = emptyScene.nodes
    ∧ jointTotal (build_rig demoEnv emptyScene) = jointTotal emptyScene := by
  have h := c6_missing_prereq_no_mutation demoEnv emptyScene
  exact ⟨(h.1 (by decide)).1, (h.2 (Or.inl (by decide))).2.2.2.2⟩

/-! ## Selection-move machinery for `create_group` -/

theorem getNode_parentCmd_other {s : Scene} {c t j : Nat} (hj : j ≠ c) :
    getNode ((parentCmd s c t).1) j = getNode s j := by
  rcases hb : (parentCmd s c t).2 with hf | ht
  · exact getNode_congr (parentCmd_fail_nodes hb)
  · rw [getNode_parentCmd_success hb]
    cases hg : getNode s j with
    | none => rfl
    | some w =>
      have hwj : w.id = j := by
        have := List.find?_some hg
        simpa using this
      have hne : (w.id == c) = false := by simp [hwj, hj]
      show some (if w.id == c then { w with parent := some t } else w) = some w
      rw [hne]
      rfl

theorem parentOf_parentCmd_cases {s : Scene} {c t x : Nat} :
    parentOf ((parentCmd s c t).1) x = parentOf s x
    ∨ parentOf ((parentCmd s c t).1) x = some t := by
  rcases hb : (parentCmd s c t).2 with hf | ht
  · exact Or.inl (parentOf_congr (parentCmd_fail_nodes hb))
  · by_cases hxc : x = c
    · subst hxc
      cases hg : getNode s x with
      | none =>
        left
        unfold parentOf
        rw [getNode_parentCmd_success hb, hg]
        rfl
      | some w => exact Or.inr (parentOf_parentCmd_success_self hb hg)
    · exact Or.inl (parentOf_parentCmd_other hxc)

theorem xfOf_cases {s : Scene} {i : Nat} :
    xfOf s i = i ∨ parentOf s i = some (xfOf s i) := by
  unfold xfOf
  split
  · exact Or.inl rfl
  · cases hp : parentOf s i with
    | none => exact Or.inl rfl
    | some p => exact Or.inr rfl

theorem moveStep_cases {gid : Nat} {s : Scene} {i : Nat} :
    (moveStep gid s i).1 = s
    ∨ (moveStep gid s i).1 = (parentCmd s (xfOf s i) gid).1
    ∨ (moveStep gid s i).1 =
        logMsg (parentCmd s (xfOf s i) gid).1 Level.warn
          "Could not parent selected node under GRP_geom" := by
  unfold moveStep
  cases h : (getNode s (xfOf s i)).isSome with
  | false => simp [h]
  | true =>
    simp only [h, if_pos rfl]
    rcases hpc : parentCmd s (xfOf s i) gid with ⟨s1, ok⟩
    cases ok with
    | true =>
      right; left
      simp [hpc]
    | false =>
      right; right
      simp [hpc]

theorem countName_moveStep {gid : Nat} {s : Scene} {i : Nat} {m : String} :
    countName (moveStep gid s i).1 m = countName s m := by
  rcases @moveStep_cases gid s i with h | h | h <;> rw [h]
  · exact countName_parentCmd
  · rw [countName_logMsg]
    exact countName_parentCmd

theorem nameOfId_moveStep {gid : Nat} {s : Scene} {i : Nat} {j : Nat} :
    nameOfId (moveStep gid s i).1 j = nameOfId s j := by
  rcases @moveStep_cases gid s i with h | h | h <;> rw [h]
  · exact nameOfId_parentCmd
  · rw [nameOfId_logMsg]
    exact nameOfId_parentCmd

theorem wf_moveStep {gid : Nat} {s : Scene} {i : Nat} (hwf : wf s = true) :
    wf (moveStep gid s i).1 = true := by
  rcases @moveStep_cases gid s i with h | h | h <;> rw [h]
  · exact hwf
  · exact wf_parentCmd hwf
  · rw [wf_logMsg]
    exact wf_parentCmd hwf

theorem selection_moveStep {gid : Nat} {s : Scene} {i : Nat} :
    (moveStep gid s i).1.selection = s.selection := by
  rcases @moveStep_cases gid s i with h | h | h <;> rw [h]
  · exact parentCmd_selection
  · rw [selection_logMsg]
    exact parentCmd_selection

theorem parentOf_moveStep_cases {gid : Nat} {s : Scene} {i : Nat} {x : Nat} :
    parentOf (moveStep gid s i).1 x = parentOf s x
    ∨ parentOf (moveStep gid s i).1 x = some gid := by
  rcases @moveStep_cases gid s i with h | h | h <;> rw [h]
  · exact Or.inl rfl
  · exact parentOf_parentCmd_cases
  · rw [parentOf_logMsg]
    exact parentOf_parentCmd_cases

theorem getNode_moveStep_other {gid : Nat} {s : Scene} {i : Nat} {j : Nat}
    (hj : j ≠ xfOf s i) : getNode (moveStep gid s i).1 j = getNode s j := by
  rcases @moveStep_cases gid s i with h | h | h <;> rw [h]
  · exact getNode_parentCmd_other hj
  · rw [getNode_logMsg]
    exact getNode_parentCmd_other hj

theorem getNode_moveStep_gid {gid : Nat} {s : Scene} {i : Nat} :
    getNode (moveStep gid s i).1 gid = getNode s gid := by
  by_cases hx : gid = xfOf s i
  · have hfail : (parentCmd s (xfOf s i) gid).2 = false := by
      rw [parentCmd_eq]
      rw [if_pos (by simp [hx])]
    rcases @moveStep_cases gid s i with h | h | h <;> rw [h]
    · exact getNode_congr (parentCmd_fail_nodes hfail)
    · rw [getNode_logMsg]
      exact getNode_congr (parentCmd_fail_nodes hfail)
  · exact getNode_moveStep_other hx

theorem createGroupCount_parentCmd {s : Scene} {c t : Nat} :
    createGroupCount ((parentCmd s c t).1).trace = createGroupCount s.trace := by
  rw [parentCmd_trace]
  unfold createGroupCount
  rw [List.filter_append, List.length_append]
  simp

theorem createGroupCount_moveStep {gid : Nat} {s : Scene} {i : Nat} :
    createGroupCount ((moveStep gid s i).1.trace) = createGroupCount s.trace := by
  rcases @moveStep_cases gid s i with h | h | h <;> rw [h]
  · exact createGroupCount_parentCmd
  · rw [trace_logMsg]
    exact createGroupCount_parentCmd

theorem moveSelected_cons {gid : Nat} {i : Nat} {rest : List Nat} {s : Scene} :
    (moveSelected gid (i :: rest) s).1 = (moveSelected gid rest (moveStep gid s i).1).1 := rfl

theorem countName_moveSelected {gid : Nat} {m : String} :
    ∀ (ids : List Nat) (s : Scene), countName (moveSelected gid ids s).1 m = countName s m := by
  intro ids
  induction ids with
  | nil => intro s; rfl
  | cons i rest ih =>
    intro s
    rw [moveSelected_cons, ih, countName_moveStep]

theorem nameOfId_moveSelected {gid : Nat} {j : Nat} :
    ∀ (ids : List Nat) (s : Scene), nameOfId (moveSelected gid ids s).1 j = nameOfId s j := by
  intro ids
  induction ids with
  | nil => intro s; rfl
  | cons i rest ih =>
    intro s
    rw [moveSelected_cons, ih, nameOfId_moveStep]

theorem wf_moveSelected {gid : Nat} :
    ∀ (ids : List Nat) (s : Scene), wf s = true → wf (moveSelected gid ids s).1 = true := by
  intro ids
  induction ids with
  | nil => intro s h; exact h
  | cons i rest ih =>
    intro s h
    rw [moveSelected_cons]
    exact ih _ (wf_moveStep h)

theorem selection_moveSelected {gid : Nat} :
    ∀ (ids : List Nat) (s : Scene), (moveSelected gid ids s).1.selection = s.selection := by
  intro ids
  induction ids with
  | nil => intro s; rfl
  | cons i rest ih =>
    intro s
    rw [moveSelected_cons, ih, selection_moveStep]

theorem createGroupCount_moveSelected {gid : Nat} :
    ∀ (ids : List Nat) (s : Scene),
      createGroupCount ((moveSelected gid ids s).1.trace) = createGroupCount s.trace := by
  intro ids
  induction ids with
  | nil => intro s; rfl
  | cons i rest ih =>
    intro s
    rw [moveSelected_cons, ih, createGroupCount_moveStep]

theorem getNode_moveSelected_gid {gid : Nat} :
    ∀ (ids : List Nat) (s : Scene),
      getNode (moveSelected gid ids s).1 gid = getNode s gid := by
  intro ids
  induction ids with
  | nil => intro s; rfl
  | cons i rest ih =>
    intro s
    rw [moveSelected_cons, ih, getNode_moveStep_gid]

theorem getNode_moveSelected_untouched {gid : Nat} {j : Nat} (h3 : j ≠ gid) :
    ∀ (ids : List Nat) (s : Scene), j ∉ ids → (∀ i ∈ ids, parentOf s i ≠ some j) →
      getNode (moveSelected gid ids s).1 j = getNode s j := by
  intro ids
  induction ids with
  | nil => intro s _ _; rfl
  | cons i rest ih =>
    intro s h1 h2
    rw [moveSelected_cons]
    have hxf : j ≠ xfOf s i := by
      rcases xfOf_cases (s := s) (i := i) with hx | hx
      · rw [hx]
        exact fun he => h1 (he ▸ List.mem_cons_self i rest)
      · intro he
        exact h2 i (List.mem_cons_self i rest) (by rw [hx, he])
    rw [ih _ (fun hm => h1 (List.mem_cons_of_mem _ hm)) ?_,
      getNode_moveStep_other hxf]
    intro i' hi'
    rcases @parentOf_moveStep_cases gid s i i' with hc | hc
    · rw [hc]
      exact h2 i' (List.mem_cons_of_mem _ hi')
    · rw [hc]
      intro he
      exact h3 (Option.some_injective _ he).symm

theorem pathExists2_of_getNode {s : Scene} {j : Nat} {y : SNode} {pid : Nat}
    {a b : String} (hy : getNode s j = some y) (hn : y.name = b)
    (hp : y.parent = some pid) (hpar : nameOfId s pid = a) :
    pathExists2 s a b = true := by
  unfold pathExists2
  apply List.any_eq_true.mpr
  refine ⟨y, List.mem_of_find?_eq_some hy, ?_⟩
  rw [hp]
  unfold nameOfId at hpar
  simp [hn, hpar]

theorem findPath2_isSome_of_pathExists2 {s : Scene} {a b : String}
    (h : pathExists2 s a b = true) : (findPath2 s a b).isSome := by
  unfold pathExists2 at h
  unfold findPath2
  have hs : (s.nodes.find? (fun y => y.name == b &&
      (match y.parent with
       | some pid => ((getNode s pid).map (fun p => p.name)).getD "" == a
       | none => false))).isSome := by
    rw [List.find?_isSome]
    exact List.any_eq_true.mp h
  obtain ⟨y, hy⟩ := Option.isSome_iff_exists.mp hs
  rw [hy]
  rfl

/-! ## `create_group` anatomy -/

theorem ensureRootGroup_exists {s : Scene} {root : String}
    (h : objExistsName s root = true) :
    ensureRootGroup s root =
      logMsg s Level.info "root group already exists (no duplicate created)" := by
  unfold ensureRootGroup
  rw [h]
  rfl

theorem ensureRootGroup_absent {s : Scene} {root : String}
    (h : objExistsName s root = false) :
    ensureRootGroup s root = logMsg (groupCmd s root none) Level.info "Created root group" := by
  unfold ensureRootGroup
  rw [h]
  rfl

theorem ensureChildGroup_exists {s : Scene} {root child : String}
    (h : pathExists2 s root child = true) : ensureChildGroup s root child = s := by
  unfold ensureChildGroup
  rw [h]
  rfl

theorem ensureChildGroup_absent {s : Scene} {root child : String}
    (h : pathExists2 s root child = false) :
    ensureChildGroup s root child =
      logMsg (groupCmd s child (findIdByName s root)) Level.info "Created child group" := by
  unfold ensureChildGroup
  rw [h]
  rfl

theorem moveSelPhase_empty {s : Scene} {root geom : String}
    (h : s.selection = []) :
    moveSelPhase s root geom =
      logMsg s Level.warn "No selection found. Nothing was moved into GRP_geom." := by
  unfold moveSelPhase
  rw [h]
  rfl

theorem moveSelPhase_go {s : Scene} {root geom : String} {gid : Nat}
    (hne : s.selection.isEmpty = false) (hf : findPath2 s root geom = some gid) :
    moveSelPhase s root geom =
      logMsg (moveSelected gid s.selection s).1 Level.info "Moved item(s) under GRP_geom" := by
  unfold moveSelPhase
  rw [hne, hf]
  rfl

theorem moveSelPhase_noPath {s : Scene} {root geom : String}
    (hne : s.selection.isEmpty = false) (hf : findPath2 s root geom = none) :
    moveSelPhase s root geom = s := by
  unfold moveSelPhase
  rw [hne, hf]
  rfl

theorem create_group_eq {env : Option String} {s : Scene} :
    create_group env s =
      moveSelPhase
        (ensureChildGroup
          (ensureChildGroup (ensureRootGroup (assetPrelude env s).2 (rootNameOf env))
            (rootNameOf env) "GRP_geom")
          (rootNameOf env) "GRP_rig")
        (rootNameOf env) "GRP_geom" := rfl

theorem getNode_ge_nextId {s : Scene} {i : Nat} (hwf : wf s = true)
    (h : s.nextId ≤ i) : getNode s i = none := by
  unfold getNode
  rw [List.find?_eq_none]
  intro m hm
  have := wf_idLt hwf m hm
  simp only [beq_iff_eq]
  omega

theorem countName_moveSelPhase {s : Scene} {root geom : String} {m : String} :
    countName (moveSelPhase s root geom) m = countName s m := by
  cases hsel : s.selection with
  | nil => rw [moveSelPhase_empty hsel, countName_logMsg]
  | cons a as =>
    have hne : s.selection.isEmpty = false := by rw [hsel]; rfl
    cases hf : findPath2 s root geom with
    | none => rw [moveSelPhase_noPath hne hf]
    | some gid =>
      rw [moveSelPhase_go hne hf, countName_logMsg, countName_moveSelected]

theorem wf_moveSelPhase {s : Scene} {root geom : String} (hwf : wf s = true) :
    wf (moveSelPhase s root geom) = true := by
  cases hsel : s.selection with
  | nil => rw [moveSelPhase_empty hsel, wf_logMsg]; exact hwf
  | cons a as =>
    have hne : s.selection.isEmpty = false := by rw [hsel]; rfl
    cases hf : findPath2 s root geom with
    | none => rw [moveSelPhase_noPath hne hf]; exact hwf
    | some gid =>
      rw [moveSelPhase_go hne hf, wf_logMsg]
      exact wf_moveSelected _ _ hwf

theorem selection_moveSelPhase {s : Scene} {root geom : String} :
    (moveSelPhase s root geom).selection = s.selection := by
  cases hsel : s.selection with
  | nil =>
    rw [moveSelPhase_empty hsel, selection_logMsg]
    exact hsel
  | cons a as =>
    have hne : s.selection.isEmpty = false := by rw [hsel]; rfl
    cases hf : findPath2 s root geom with
    | none =>
      rw [moveSelPhase_noPath hne hf]
      exact hsel
    | some gid =>
      rw [moveSelPhase_go hne hf, selection_logMsg, selection_moveSelected]
      exact hsel

theorem nameOfId_moveSelPhase {s : Scene} {root geom : String} {j : Nat} :
    nameOfId (moveSelPhase s root geom) j = nameOfId s j := by
  cases hsel : s.selection with
  | nil => rw [moveSelPhase_empty hsel, nameOfId_logMsg]
  | cons a as =>
    have hne : s.selection.isEmpty = false := by rw [hsel]; rfl
    cases hf : findPath2 s root geom with
    | none => rw [moveSelPhase_noPath hne hf]
    | some gid =>
      rw [moveSelPhase_go hne hf, nameOfId_logMsg, nameOfId_moveSelected]

theorem createGroupCount_moveSelPhase {s : Scene} {root geom : String} :
    createGroupCount (moveSelPhase s root geom).trace = createGroupCount s.trace := by
  cases hsel : s.selection with
  | nil => rw [moveSelPhase_empty hsel, trace_logMsg]
  | cons a as =>
    have hne : s.selection.isEmpty = false := by rw [hsel]; rfl
    cases hf : findPath2 s root geom with
    | none => rw [moveSelPhase_noPath hne hf]
    | some gid =>
      rw [moveSelPhase_go hne hf, trace_logMsg, createGroupCount_moveSelected]

theorem getNode_moveSelPhase_geomNode {s : Scene} {root geom : String} {j : Nat}
    (hj : findPath2 s root geom = some j) :
    getNode (moveSelPhase s root geom) j = getNode s j := by
  cases hsel : s.selection with
  | nil => rw [moveSelPhase_empty hsel, getNode_logMsg]
  | cons a as =>
    have hne : s.selection.isEmpty = false := by rw [hsel]; rfl
    rw [moveSelPhase_go hne hj, getNode_logMsg, getNode_moveSelected_gid]

theorem getNode_moveSelPhase_untouched {s : Scene} {root geom : String} {j : Nat}
    (hj1 : j ∉ s.selection) (hj2 : ∀ i ∈ s.selection, parentOf s i ≠ some j)
    (hj3 : findPath2 s root geom ≠ some j) :
    getNode (moveSelPhase s root geom) j = getNode s j := by
  cases hsel : s.selection with
  | nil => rw [moveSelPhase_empty hsel, getNode_logMsg]
  | cons a as =>
    have hne : s.selection.isEmpty = false := by rw [hsel]; rfl
    cases hf : findPath2 s root geom with
    | none => rw [moveSelPhase_noPath hne hf]
    | some gid =>
      have hgj : j ≠ gid := by
        intro he
        exact hj3 (by rw [hf, he])
      rw [moveSelPhase_go hne hf, getNode_logMsg]
      exact getNode_moveSelected_untouched hgj _ _ hj1 hj2

theorem parentOf_moveSelected_cases {gid : Nat} {x : Nat} :
    ∀ (ids : List Nat) (s : Scene),
      parentOf (moveSelected gid ids s).1 x = parentOf s x
      ∨ parentOf (moveSelected gid ids s).1 x = some gid := by
  intro ids
  induction ids with
  | nil => intro s; exact Or.inl rfl
  | cons i rest ih =>
    intro s
    rw [moveSelected_cons]
    rcases ih (moveStep gid s i).1 with h | h
    · rw [h]
      exact parentOf_moveStep_cases
    · exact Or.inr h

theorem parentOf_moveSelPhase_cases {s : Scene} {root geom : String} {x : Nat} :
    parentOf (moveSelPhase s root geom) x = parentOf s x
    ∨ (∃ gid, findPath2 s root geom = some gid
        ∧ parentOf (moveSelPhase s root geom) x = some gid) := by
  cases hsel : s.selection with
  | nil =>
    rw [moveSelPhase_empty hsel, parentOf_logMsg]
    exact Or.inl rfl
  | cons a as =>
    have hne : s.selection.isEmpty = false := by rw [hsel]; rfl
    cases hf : findPath2 s root geom with
    | none =>
      rw [moveSelPhase_noPath hne hf]
      exact Or.inl rfl
    | some gid =>
      rw [moveSelPhase_go hne hf, parentOf_logMsg]
      rcases @parentOf_moveSelected_cases gid x s.selection s with h | h
      · rw [h]
        exact Or.inl rfl
      · exact Or.inr ⟨gid, rfl, h⟩

/-! ## First and second `create_group` runs -/

theorem groupCmd_eq {s : Scene} {n : String} {par : Option Nat} :
    groupCmd s n par = createNode s n NType.transform par
      ((par.bind (fun i => (getNode s i).map (fun m => m.pos))).getD (0, 0, 0))
      (HEvent.createGroup s.nextId n par) := rfl

theorem nextId_createNode {s : Scene} {n : String} {t : NType} {par : Option Nat}
    {p : Pos} {e : HEvent} : (createNode s n t par p e).nextId = s.nextId + 1 := rfl

theorem selection_createNode {s : Scene} {n : String} {t : NType} {par : Option Nat}
    {p : Pos} {e : HEvent} : (createNode s n t par p e).selection = s.selection := rfl

theorem nextId_logMsg {s : Scene} {lv : Level} {m : String} :
    (logMsg s lv m).nextId = s.nextId := rfl

theorem parentOf_createNode_found {s : Scene} {n : String} {t : NType} {par : Option Nat}
    {p : Pos} {e : HEvent} {i : Nat} {w : SNode} (h : getNode s i = some w) :
    parentOf (createNode s n t par p e) i = parentOf s i := by
  unfold parentOf
  rw [getNode_createNode_found h, h]

theorem findPath2_eq_of {s : Scene} {a b : String} {j : Nat} {g : SNode}
    (hp : pathExists2 s a b = true) (hc : countName s b = 1)
    (hg : getNode s j = some g) (hgn : g.name = b) :
    findPath2 s a b = some j := by
  unfold findPath2
  cases hf : s.nodes.find? (fun y => y.name == b &&
      (match y.parent with
       | some pid => ((getNode s pid).map (fun p => p.name)).getD "" == a
       | none => false)) with
  | none =>
    exfalso
    unfold pathExists2 at hp
    obtain ⟨y, hymem, hypred⟩ := List.any_eq_true.mp hp
    have := List.find?_eq_none.mp hf y hymem
    exact this hypred
  | some w =>
    have hwpred := List.find?_some hf
    have hwname : w.name = b := by
      have := Bool.and_elim_left hwpred
      simpa using this
    have hwmem := List.mem_of_find?_eq_some hf
    have hgmem : g ∈ s.nodes := List.mem_of_find?_eq_some hg
    have hgid : g.id = j := by
      have := List.find?_some hg
      simpa using this
    have hwg : w = g := countName_unique hc hwmem hgmem hwname hgn
    rw [hwg]
    simp [hgid]

theorem create_group_fresh {env : Option String} {s : Scene}
    (hwf : wf s = true) (hptr : ptrBounded s = true)
    (h0r : countName s (rootNameOf env) = 0)
    (h0g : countName s "GRP_geom" = 0)
    (h0rg : countName s "GRP_rig" = 0)
    (hgne : rootNameOf env ≠ "GRP_geom")
    (hrne : rootNameOf env ≠ "GRP_rig") :
    countName (create_group env s) (rootNameOf env) = 1
    ∧ countName (create_group env s) "GRP_geom" = 1
    ∧ countName (create_group env s) "GRP_rig" = 1
    ∧ (∃ g, getNode (create_group env s) (s.nextId + 1) = some g
        ∧ g.name = "GRP_geom" ∧ g.parent = some s.nextId)
    ∧ (∃ r, getNode (create_group env s) (s.nextId + 2) = some r
        ∧ r.name = "GRP_rig" ∧ r.parent = some s.nextId)
    ∧ nameOfId (create_group env s) s.nextId = rootNameOf env
    ∧ wf (create_group env s) = true
    ∧ (create_group env s).selection = s.selection
    ∧ (∀ i ∈ s.selection, parentOf (create_group env s) i = parentOf s i
        ∨ parentOf (create_group env s) i = some (s.nextId + 1)) := by
  have hbgeom : (rootNameOf env == "GRP_geom") = false := beq_eq_false_iff_ne.mpr hgne
  have hbrig : (rootNameOf env == "GRP_rig") = false := beq_eq_false_iff_ne.mpr hrne
  have hbgr : ("GRP_geom" == rootNameOf env) = false :=
    beq_eq_false_iff_ne.mpr (fun h => hgne h.symm)
  have hbrr : ("GRP_rig" == rootNameOf env) = false :=
    beq_eq_false_iff_ne.mpr (fun h => hrne h.symm)
  have hA_nodes : (assetPrelude env s).2.nodes = s.nodes := assetPrelude_nodes
  have hA_next : (assetPrelude env s).2.nextId = s.nextId := assetPrelude_nextId
  have hA_sel : (assetPrelude env s).2.selection = s.selection := assetPrelude_selection
  have hwfA : wf (assetPrelude env s).2 = true := wf_assetPrelude hwf
  -- stage a: create the root group
  have hexR : objExistsName (assetPrelude env s).2 (rootNameOf env) = false :=
    objExists_false_of_countName_zero (by rw [countName_congr hA_nodes]; exact h0r)
  have hsa : ensureRootGroup (assetPrelude env s).2 (rootNameOf env) =
      logMsg (createNode (assetPrelude env s).2 (rootNameOf env) NType.transform none
        (0, 0, 0) (HEvent.createGroup (assetPrelude env s).2.nextId (rootNameOf env) none))
        Level.info "Created root group" :=
    ensureRootGroup_absent hexR
  rw [create_group_eq, hsa]
  set A := (assetPrelude env s).2 with hAdef
  set sa := logMsg (createNode A (rootNameOf env) NType.transform none (0, 0, 0)
    (HEvent.createGroup A.nextId (rootNameOf env) none)) Level.info "Created root group"
    with hsadef
  have hsa_nodes : sa.nodes = A.nodes ++
      [{ id := A.nextId, name := rootNameOf env, ntype := NType.transform,
         parent := none, pos := (0, 0, 0) }] := rfl
  have hcntR_a : countName sa (rootNameOf env) = 1 := by
    rw [hsadef, countName_logMsg, countName_createNode, countName_congr hA_nodes, h0r]
    simp
  have hcntG_a : countName sa "GRP_geom" = 0 := by
    rw [hsadef, countName_logMsg, countName_createNode, countName_congr hA_nodes, h0g, hbgeom]
    simp
  have hcntRg_a : countName sa "GRP_rig" = 0 := by
    rw [hsadef, countName_logMsg, countName_createNode, countName_congr hA_nodes, h0rg, hbrig]
    simp
  have hfnA : firstNamed A (rootNameOf env) = none :=
    firstNamed_none_of_not_objExists hexR
  have hfsR_a : firstNamed sa (rootNameOf env) = some
      { id := A.nextId, name := rootNameOf env, ntype := NType.transform,
        parent := none, pos := (0, 0, 0) } := by
    rw [hsadef, firstNamed_logMsg, firstNamed_createNode_new hfnA]
    simp
  have hfid_a : findIdByName sa (rootNameOf env) = some A.nextId := by
    unfold findIdByName
    rw [hfsR_a]
    rfl
  have hwf_sa : wf sa = true := by
    rw [hsadef, wf_logMsg]
    exact wf_createNode hwfA
  have hnext_sa : sa.nextId = A.nextId + 1 := rfl
  have hgetR_a : getNode sa A.nextId = some
      { id := A.nextId, name := rootNameOf env, ntype := NType.transform,
        parent := none, pos := (0, 0, 0) } := by
    have hnone : getNode A A.nextId = none := getNode_ge_nextId hwfA (le_refl _)
    rw [hsadef, getNode_logMsg, getNode_createNode_new hnone]
    simp
  -- stage b: create the geometry group
  have hpb : pathExists2 sa (rootNameOf env) "GRP_geom" = false :=
    pathExists2_false_of_countZero hcntG_a
  have hsb : ensureChildGroup sa (rootNameOf env) "GRP_geom" =
      logMsg (groupCmd sa "GRP_geom" (findIdByName sa (rootNameOf env))) Level.info
        "Created child group" := ensureChildGroup_absent hpb
  rw [hsb, hfid_a, groupCmd_eq]
  set Pb := (((some A.nextId).bind (fun i => (getNode sa i).map (fun m => m.pos))).getD
    (0, 0, 0)) with hPbdef
  set sb := logMsg (createNode sa "GRP_geom" NType.transform (some A.nextId) Pb
    (HEvent.createGroup sa.nextId "GRP_geom" (some A.nextId))) Level.info
    "Created child group" with hsbdef
  have hcntR_b : countName sb (rootNameOf env) = 1 := by
    rw [hsbdef, countName_logMsg, countName_createNode, hcntR_a, hbgr]
    simp
  have hcntG_b : countName sb "GRP_geom" = 1 := by
    rw [hsbdef, countName_logMsg, countName_createNode, hcntG_a]
    simp
  have hcntRg_b : countName sb "GRP_rig" = 0 := by
    rw [hsbdef, countName_logMsg, countName_createNode, hcntRg_a]
    simp
  have hfsR_b : firstNamed sb (rootNameOf env) = some
      { id := A.nextId, name := rootNameOf env, ntype := NType.transform,
        parent := none, pos := (0, 0, 0) } := by
    rw [hsbdef, firstNamed_logMsg, firstNamed_createNode_found hfsR_a]
  have hfid_b : findIdByName sb (rootNameOf env) = some A.nextId := by
    unfold findIdByName
    rw [hfsR_b]
    rfl
  have hwf_sb : wf sb = true := by
    rw [hsbdef, wf_logMsg]
    exact wf_createNode hwf_sa
  have hnext_sb : sb.nextId = A.nextId + 2 := by
    rw [hsbdef, nextId_logMsg, nextId_createNode, hnext_sa]
  have hgetR_b : getNode sb A.nextId = some
      { id := A.nextId, name := rootNameOf env, ntype := NType.transform,
        parent := none, pos := (0, 0, 0) } := by
    rw [hsbdef, getNode_logMsg, getNode_createNode_found hgetR_a]
  have hgetG_b : getNode sb (A.nextId + 1) = some
      { id := sa.nextId, name := "GRP_geom", ntype := NType.transform,
        parent := some A.nextId, pos := Pb } := by
    have hnone : getNode sa (A.nextId + 1) = none :=
      getNode_ge_nextId hwf_sa (by rw [hnext_sa])
    rw [hsbdef, getNode_logMsg, getNode_createNode_new hnone]
    rw [hnext_sa]
    simp
  -- stage c: create the rig group
  have hpc : pathExists2 sb (rootNameOf env) "GRP_rig" = false :=
    pathExists2_false_of_countZero hcntRg_b
  have hsc : ensureChildGroup sb (rootNameOf env) "GRP_rig" =
      logMsg (groupCmd sb "GRP_rig" (findIdByName sb (rootNameOf env))) Level.info
        "Created child group" := ensureChildGroup_absent hpc
  rw [hsc, hfid_b, groupCmd_eq]
  set Pc := (((some A.nextId).bind (fun i => (getNode sb i).map (fun m => m.pos))).getD
    (0, 0, 0)) with hPcdef
  set sc := logMsg (createNode sb "GRP_rig" NType.transform (some A.nextId) Pc
    (HEvent.createGroup sb.nextId "GRP_rig" (some A.nextId))) Level.info
    "Created child group" with hscdef
  have hcntR_c : countName sc (rootNameOf env) = 1 := by
    rw [hscdef, countName_logMsg, countName_createNode, hcntR_b, hbrr]
    simp
  have hcntG_c : countName sc "GRP_geom" = 1 := by
    rw [hscdef, countName_logMsg, countName_createNode, hcntG_b]
    simp
  have hcntRg_c : countName sc "GRP_rig" = 1 := by
    rw [hscdef, countName_logMsg, countName_createNode, hcntRg_b]
    simp
  have hwf_sc : wf sc = true := by
    rw [hscdef, wf_logMsg]
    exact wf_createNode hwf_sb
  have hgetR_c : getNode sc A.nextId = some
      { id := A.nextId, name := rootNameOf env, ntype := NType.transform,
        parent := none, pos := (0, 0, 0) } := by
    rw [hscdef, getNode_logMsg, getNode_createNode_found hgetR_b]
  have hgetG_c : getNode sc (A.nextId + 1) = some
      { id := sa.nextId, name := "GRP_geom", ntype := NType.transform,
        parent := some A.nextId, pos := Pb } := by
    rw [hscdef, getNode_logMsg, getNode_createNode_found hgetG_b]
  have hgetRg_c : getNode sc (A.nextId + 2) = some
      { id := sb.nextId, name := "GRP_rig", ntype := NType.transform,
        parent := some A.nextId, pos := Pc } := by
    have hnone : getNode sb (A.nextId + 2) = none :=
      getNode_ge_nextId hwf_sb (by rw [hnext_sb])
    rw [hscdef, getNode_logMsg, getNode_createNode_new hnone]
    rw [hnext_sb]
    simp
  have hname_c : nameOfId sc A.nextId = rootNameOf env := by
    unfold nameOfId
    rw [hgetR_c]
    rfl
  have hsel_c : sc.selection = s.selection := by
    rw [hscdef, selection_logMsg, selection_createNode, hsbdef, selection_logMsg,
      selection_createNode, hsadef, selection_logMsg, selection_createNode]
    exact hA_sel
  have hpathG_c : pathExists2 sc (rootNameOf env) "GRP_geom" = true :=
    pathExists2_of_getNode hgetG_c rfl rfl hname_c
  have hfp_c : findPath2 sc (rootNameOf env) "GRP_geom" = some (A.nextId + 1) :=
    findPath2_eq_of hpathG_c hcntG_c hgetG_c rfl
  -- the selection-move phase
  have hselValid : ∀ i ∈ s.selection, ∃ w, getNode s i = some w := by
    intro i hi
    obtain ⟨m, hm, hmi⟩ := wf_selValid hwf i hi
    have : (s.nodes.find? (fun v => v.id == i)).isSome := by
      rw [List.find?_isSome]
      exact ⟨m, hm, by simp [hmi]⟩
    obtain ⟨w, hw⟩ := Option.isSome_iff_exists.mp this
    exact ⟨w, hw⟩
  have hparsel : ∀ i ∈ s.selection, parentOf sc i = parentOf s i := by
    intro i hi
    obtain ⟨w, hw⟩ := hselValid i hi
    have hwA : getNode A i = some w := by
      rw [getNode_congr hA_nodes]
      exact hw
    have h1 : getNode sa i = some w := by
      rw [hsadef, getNode_logMsg, getNode_createNode_found hwA]
    have h2 : getNode sb i = some w := by
      rw [hsbdef, getNode_logMsg, getNode_createNode_found h1]
    have hpc2 : parentOf sc i = parentOf sb i := by
      rw [hscdef, parentOf_logMsg]
      exact parentOf_createNode_found h2
    have hpb2 : parentOf sb i = parentOf sa i := by
      rw [hsbdef, parentOf_logMsg]
      exact parentOf_createNode_found h1
    have hpa2 : parentOf sa i = parentOf A i := by
      rw [hsadef, parentOf_logMsg]
      exact parentOf_createNode_found hwA
    rw [hpc2, hpb2, hpa2]
    exact parentOf_congr hA_nodes
  have hparbound : ∀ i ∈ s.selection, parentOf s i = none
      ∨ ∃ p, parentOf s i = some p ∧ p < s.nextId := by
    intro i hi
    obtain ⟨w, hw⟩ := hselValid i hi
    have hwmem : w ∈ s.nodes := List.mem_of_find?_eq_some hw
    have hptr2 : ∀ m ∈ s.nodes, (match m.parent with
        | some p => decide (p < s.nextId)
        | none => true) = true := by
      have := hptr
      unfold ptrBounded at this
      rw [List.all_eq_true] at this
      exact this
    have := hptr2 w hwmem
    unfold parentOf
    rw [hw]
    simp only [Option.some_bind]
    cases hp : w.parent with
    | none => exact Or.inl rfl
    | some p =>
      rw [hp] at this
      simp at this
      exact Or.inr ⟨p, rfl, this⟩
  refine ⟨?_, ?_, ?_, ?_, ?_, ?_, ?_, ?_, ?_⟩
  · rw [countName_moveSelPhase]
    exact hcntR_c
  · rw [countName_moveSelPhase]
    exact hcntG_c
  · rw [countName_moveSelPhase]
    exact hcntRg_c
  · refine ⟨{ id := sa.nextId, name := "GRP_geom", ntype := NType.transform,
              parent := some A.nextId, pos := Pb }, ?_, rfl, ?_⟩
    · rw [← hA_next]
      rw [getNode_moveSelPhase_geomNode hfp_c]
      exact hgetG_c
    · rw [hA_next]
  · refine ⟨{ id := sb.nextId, name := "GRP_rig", ntype := NType.transform,
              parent := some A.nextId, pos := Pc }, ?_, rfl, ?_⟩
    · rw [← hA_next]
      rw [getNode_moveSelPhase_untouched ?_ ?_ ?_]
      · exact hgetRg_c
      · rw [hsel_c]
        intro hmem
        obtain ⟨m, hm, hmi⟩ := wf_selValid hwf _ hmem
        have := wf_idLt hwf m hm
        rw [hA_next] at hmi
        omega
      · rw [hsel_c]
        intro i hi
        rw [hparsel i hi]
        rcases hparbound i hi with hp | ⟨p, hp, hlt⟩
        · rw [hp]
          exact fun h => Option.noConfusion h
        · rw [hp, hA_next]
          intro he
          have := Option.some_injective _ he
          omega
      · rw [hfp_c]
        intro he
        have := Option.some_injective _ he
        omega
    · rw [hA_next]
  · rw [← hA_next, nameOfId_moveSelPhase]
    exact hname_c
  · exact wf_moveSelPhase hwf_sc
  · rw [selection_moveSelPhase]
    exact hsel_c
  · intro i hi
    rcases @parentOf_moveSelPhase_cases sc (rootNameOf env) "GRP_geom" i
      with h | ⟨gid, hgid, h⟩
    · rw [h]
      exact Or.inl (hparsel i hi)
    · right
      rw [h]
      have hge : gid = A.nextId + 1 :=
        (Option.some_injective _ (hfp_c.symm.trans hgid)).symm
      rw [hge, hA_next]

theorem create_group_existing {env : Option String} {s1 : Scene}
    (hR : objExistsName s1 (rootNameOf env) = true)
    (hG : pathExists2 s1 (rootNameOf env) "GRP_geom" = true)
    (hRg : pathExists2 s1 (rootNameOf env) "GRP_rig" = true) :
    create_group env s1 = moveSelPhase
      (logMsg (assetPrelude env s1).2 Level.info
        "root group already exists (no duplicate created)")
      (rootNameOf env) "GRP_geom" := by
  rw [create_group_eq]
  have hnodesA : (assetPrelude env s1).2.nodes = s1.nodes := assetPrelude_nodes
  have hRA : objExistsName (assetPrelude env s1).2 (rootNameOf env) = true := by
    rw [objExistsName_congr hnodesA]
    exact hR
  rw [ensureRootGroup_exists hRA]
  have hGA : pathExists2 (logMsg (assetPrelude env s1).2 Level.info
      "root group already exists (no duplicate created)") (rootNameOf env)
      "GRP_geom" = true := by
    rw [pathExists2_congr (t := logMsg (assetPrelude env s1).2 Level.info
      "root group already exists (no duplicate created)") hnodesA]
    exact hG
  rw [ensureChildGroup_exists hGA]
  have hRgA : pathExists2 (logMsg (assetPrelude env s1).2 Level.info
      "root group already exists (no duplicate created)") (rootNameOf env)
      "GRP_rig" = true := by
    rw [pathExists2_congr (t := logMsg (assetPrelude env s1).2 Level.info
      "root group already exists (no duplicate created)") hnodesA]
    exact hRg
  rw [ensureChildGroup_exists hRgA]

theorem objExists_true_of_countName_pos {s : Scene} {n : String}
    (h : 0 < countName s n) : objExistsName s n = true := by
  cases he : objExistsName s n with
  | true => rfl
  | false =>
    exfalso
    unfold countName at h
    obtain ⟨m, hm⟩ := List.exists_mem_of_length_pos h
    have hmm := List.mem_filter.mp hm
    unfold objExistsName at he
    have hany : s.nodes.any (fun m => m.name == n) = true :=
      List.any_eq_true.mpr ⟨m, hmm.1, hmm.2⟩
    rw [he] at hany
    exact Bool.noConfusion hany

theorem sel_getNode_isSome {s : Scene} (hwf : wf s = true) {i : Nat}
    (hi : i ∈ s.selection) : ∃ w, getNode s i = some w := by
  obtain ⟨m, hm, hmi⟩ := wf_selValid hwf i hi
  have : (s.nodes.find? (fun v => v.id == i)).isSome := by
    rw [List.find?_isSome]
    exact ⟨m, hm, by simp [hmi]⟩
  obtain ⟨w, hw⟩ := Option.isSome_iff_exists.mp this
  exact ⟨w, hw⟩

theorem sel_parent_bounded {s : Scene} (hwf : wf s = true)
    (hptr : ptrBounded s = true) {i : Nat} (hi : i ∈ s.selection) :
    parentOf s i = none ∨ ∃ p, parentOf s i = some p ∧ p < s.nextId := by
  obtain ⟨w, hw⟩ := sel_getNode_isSome hwf hi
  have hwmem : w ∈ s.nodes := List.mem_of_find?_eq_some hw
  have hptr2 : ∀ m ∈ s.nodes, (match m.parent with
      | some p => decide (p < s.nextId)
      | none => true) = true := by
    have := hptr
    unfold ptrBounded at this
    rw [List.all_eq_true] at this
    exact this
  have := hptr2 w hwmem
  unfold parentOf
  rw [hw]
  simp only [Option.some_bind]
  cases hp : w.parent with
  | none => exact Or.inl rfl
  | some p =>
    rw [hp] at this
    simp at this
    exact Or.inr ⟨p, rfl, this⟩

theorem sel_id_lt_nextId {s : Scene} (hwf : wf s = true) {i : Nat}
    (hi : i ∈ s.selection) : i < s.nextId := by
  obtain ⟨m, hm, hmi⟩ := wf_selValid hwf i hi
  have := wf_idLt hwf m hm
  omega

/-- C3: running `create_group` twice from a scene holding none of the three
group names yields exactly one root group, one `GRP_geom` and one `GRP_rig`,
both children resolvable under the root, and the second call issues no
group-creation host command at all. -/
theorem c3_create_group_idempotent {env : Option String} {s : Scene}
    (hwf : wf s = true) (hptr : ptrBounded s = true)
    (h0r : countName s (rootNameOf env) = 0)
    (h0g : countName s "GRP_geom" = 0)
    (h0rg : countName s "GRP_rig" = 0)
    (hgne : rootNameOf env ≠ "GRP_geom")
    (hrne : rootNameOf env ≠ "GRP_rig") :
    countName (create_group env (create_group env s)) (rootNameOf env) = 1
    ∧ countName (create_group env (create_group env s)) "GRP_geom" = 1
    ∧ countName (create_group env (create_group env s)) "GRP_rig" = 1
    ∧ pathExists2 (create_group env (create_group env s)) (rootNameOf env)
        "GRP_geom" = true
    ∧ pathExists2 (create_group env (create_group env s)) (rootNameOf env)
        "GRP_rig" = true
    ∧ createGroupCount (create_group env (create_group env s)).trace
        = createGroupCount (create_group env s).trace := by
  obtain ⟨hc1r, hc1g, hc1rg, ⟨g, hg, hgname, hgpar⟩, ⟨r, hr, hrname, hrpar⟩,
    hname1, hwf1, hsel1, hpar1⟩ :=
    create_group_fresh hwf hptr h0r h0g h0rg hgne hrne
  have hR1 : objExistsName (create_group env s) (rootNameOf env) = true :=
    objExists_true_of_countName_pos (by omega)
  have hG1 : pathExists2 (create_group env s) (rootNameOf env) "GRP_geom" = true :=
    pathExists2_of_getNode hg hgname hgpar hname1
  have hRg1 : pathExists2 (create_group env s) (rootNameOf env) "GRP_rig" = true :=
    pathExists2_of_getNode hr hrname hrpar hname1
  rw [create_group_existing hR1 hG1 hRg1]
  set M := logMsg (assetPrelude env (create_group env s)).2 Level.info
    "root group already exists (no duplicate created)" with hMdef
  have hMnodes : M.nodes = (create_group env s).nodes := by
    rw [hMdef]
    exact assetPrelude_nodes
  have hMsel : M.selection = s.selection := by
    rw [hMdef, selection_logMsg, assetPrelude_selection]
    exact hsel1
  have hMgetG : getNode M (s.nextId + 1) = some g := by
    rw [getNode_congr hMnodes]
    exact hg
  have hMgetR : getNode M (s.nextId + 2) = some r := by
    rw [getNode_congr hMnodes]
    exact hr
  have hMcntG : countName M "GRP_geom" = 1 := by
    rw [countName_congr hMnodes]
    exact hc1g
  have hMpathG : pathExists2 M (rootNameOf env) "GRP_geom" = true := by
    rw [pathExists2_congr hMnodes]
    exact hG1
  have hMfp : findPath2 M (rootNameOf env) "GRP_geom" = some (s.nextId + 1) :=
    findPath2_eq_of hMpathG hMcntG hMgetG hgname
  have hMname : nameOfId (moveSelPhase M (rootNameOf env) "GRP_geom") s.nextId
      = rootNameOf env := by
    rw [nameOfId_moveSelPhase, nameOfId_congr hMnodes]
    exact hname1
  refine ⟨?_, ?_, ?_, ?_, ?_, ?_⟩
  · rw [countName_moveSelPhase, countName_congr hMnodes]
    exact hc1r
  · rw [countName_moveSelPhase, countName_congr hMnodes]
    exact hc1g
  · rw [countName_moveSelPhase, countName_congr hMnodes]
    exact hc1rg
  · have hgd : getNode (moveSelPhase M (rootNameOf env) "GRP_geom") (s.nextId + 1)
        = some g := by
      rw [getNode_moveSelPhase_geomNode hMfp]
      exact hMgetG
    exact pathExists2_of_getNode hgd hgname hgpar hMname
  · have hrd : getNode (moveSelPhase M (rootNameOf env) "GRP_geom") (s.nextId + 2)
        = some r := by
      rw [getNode_moveSelPhase_untouched ?_ ?_ ?_]
      · exact hMgetR
      · rw [hMsel]
        intro hmem
        have := sel_id_lt_nextId hwf hmem
        omega
      · rw [hMsel]
        intro i hi
        have hMp : parentOf M i = parentOf (create_group env s) i :=
          parentOf_congr hMnodes
        rw [hMp]
        rcases hpar1 i hi with hp | hp
        · rw [hp]
          rcases sel_parent_bounded hwf hptr hi with hq | ⟨p, hq, hlt⟩
          · rw [hq]
            exact fun h => Option.noConfusion h
          · rw [hq]
            intro he
            have := Option.some_injective _ he
            omega
        · rw [hp]
          intro he
          have := Option.some_injective _ he
          omega
      · rw [hMfp]
        intro he
        have := Option.some_injective _ he
        omega
    exact pathExists2_of_getNode hrd hrname hrpar hMname
  · rw [createGroupCount_moveSelPhase, hMdef, trace_logMsg, assetPrelude_trace]

/-- C8: `_asset_name` returns the `ASSET` environment value when it is set
and non-empty; when unset or empty it returns the literal `defaultAsset`
and flags the fallback, in which case every operation's prelude logs the
warning (and otherwise leaves the scene untouched); the root group name
every operation uses is derived from this result. -/
theorem c8_asset_name_fallback (env : Option String) (s : Scene) :
    (∀ n, env = some n → n ≠ "" → _asset_name env = (n, false))
    ∧ ((env = none ∨ env = some "") → _asset_name env = ("defaultAsset", true))
    ∧ ((_asset_name env).2 = true →
        (assetPrelude env s).2.log = s.log
          ++ [(Level.warn, "ASSET env var not set. Using fallback defaultAsset.")])
    ∧ ((_asset_name env).2 = false → (assetPrelude env s).2 = s)
    ∧ rootNameOf env = "GRP_" ++ (_asset_name env).1 := by
  refine ⟨?_, ?_, ?_, ?_, rfl⟩
  · intro n hn hne
    subst hn
    show (if (n == "") = true then ("defaultAsset", true) else (n, false)) = (n, false)
    rw [if_neg ?_]
    intro hb
    exact hne (by simpa using hb)
  · rintro (rfl | rfl) <;> rfl
  · intro h
    rw [assetPrelude_snd, if_pos h]
    rfl
  · intro h
    rw [assetPrelude_snd, h]
    rfl

theorem c8_asset_name_fallback_witness :
    _asset_name (some "trex") = ("trex", false)
    ∧ _asset_name none = ("defaultAsset", true)
    ∧ (assetPrelude none emptyScene).2.log = emptyScene.log
        ++ [(Level.warn, "ASSET env var not set. Using fallback defaultAsset.")]
    ∧ (assetPrelude (some "trex") emptyScene).2 = emptyScene :=
  ⟨(c8_asset_name_fallback (some "trex") emptyScene).1 "trex" rfl (by decide),
   (c8_asset_name_fallback none emptyScene).2.1 (Or.inl rfl),
   (c8_asset_name_fallback none emptyScene).2.2.1 (by decide),
   (c8_asset_name_fallback (some "trex") emptyScene).2.2.2.1 (by decide)⟩

theorem c3_create_group_idempotent_witness :
    wf emptyScene = true
    ∧ countName (create_group demoEnv (create_group demoEnv emptyScene))
        "GRP_geom" = 1
    ∧ createGroupCount (create_group demoEnv (create_group demoEnv emptyScene)).trace
        = createGroupCount (create_group demoEnv emptyScene).trace :=
  ⟨by decide,
   (@c3_create_group_idempotent demoEnv emptyScene (by decide)
     (by decide) (by decide) (by decide) (by decide) (by decide) (by decide)).2.1,
   (@c3_create_group_idempotent demoEnv emptyScene (by decide)
     (by decide) (by decide) (by decide) (by decide) (by decide) (by decide)).2.2.2.2.2⟩

/-! ## Chain and rig-parenting guards: supporting lemmas -/

theorem nextId_selectClearCmd {s : Scene} : (selectClearCmd s).nextId = s.nextId := rfl

theorem nextId__ensure_joint {s : Scene} {n : String} {p : Pos} :
    s.nextId ≤ (_ensure_joint s n p).nextId := by
  cases hex : objExistsName s n with
  | true =>
    rw [_ensure_joint_exists hex, nextId_logMsg, nextId_xformSetWT]
  | false =>
    rw [_ensure_joint_absent hex, nextId_logMsg]
    unfold jointCmd
    rw [nextId_createNode, nextId_selectClearCmd]
    omega

theorem getNode_createNode_ne {s : Scene} {n : String} {t : NType} {par : Option Nat}
    {p : Pos} {e : HEvent} {i : Nat} (h : i ≠ s.nextId) :
    getNode (createNode s n t par p e) i = getNode s i := by
  unfold getNode
  rw [createNode_nodes, List.find?_append]
  have hnew : List.find? (fun m : SNode => m.id == i)
      ([{ id := s.nextId, name := n, ntype := t, parent := par, pos := p }] :
        List SNode) = none := by
    rw [List.find?_eq_none]
    intro a ha
    rw [List.mem_singleton] at ha
    subst ha
    simp
    omega
  cases hf : s.nodes.find? (fun m => m.id == i) with
  | some w => rfl
  | none =>
    rw [hnew]
    rfl

theorem nameOfId_createNode_ne {s : Scene} {n : String} {t : NType} {par : Option Nat}
    {p : Pos} {e : HEvent} {i : Nat} (h : i ≠ s.nextId) :
    nameOfId (createNode s n t par p e) i = nameOfId s i := by
  unfold nameOfId
  rw [getNode_createNode_ne h]

theorem nameOfId__ensure_joint_lt {s : Scene} {n : String} {p : Pos} {i : Nat}
    (h : i < s.nextId) : nameOfId (_ensure_joint s n p) i = nameOfId s i := by
  cases hex : objExistsName s n with
  | true =>
    rw [_ensure_joint_exists hex, nameOfId_logMsg]
    exact nameOfId_xformSetWT
  | false =>
    rw [_ensure_joint_absent hex, nameOfId_logMsg]
    unfold jointCmd
    rw [nameOfId_createNode_ne (by rw [nextId_selectClearCmd]; omega)]
    exact nameOfId_congr rfl

theorem findIdByName_xformSetWT {s : Scene} {n : String} {p : Pos} {m : String} :
    findIdByName (xformSetWT s n p) m = findIdByName s m := by
  cases hf : findIdByName s n with
  | none => rw [xformSetWT_none hf]
  | some i =>
    unfold findIdByName
    rw [firstNamed_xformSetWT hf]
    cases firstNamed s m with
    | none => rfl
    | some v =>
      show some (if v.id == i then { v with pos := p } else v).id = some v.id
      rw [posUpd_id]

theorem findIdByName__ensure_joint_found {s : Scene} {n : String} {p : Pos}
    {m : String} {j : Nat} (h : findIdByName s m = some j) :
    findIdByName (_ensure_joint s n p) m = some j := by
  cases hex : objExistsName s n with
  | true =>
    rw [_ensure_joint_exists hex, findIdByName_logMsg, findIdByName_xformSetWT]
    exact h
  | false =>
    rw [_ensure_joint_absent hex, findIdByName_logMsg]
    obtain ⟨v, hv, hvid⟩ := findIdByName_firstNamed h
    have hv2 : firstNamed (selectClearCmd s) m = some v := by
      rw [firstNamed_congr rfl]
      exact hv
    unfold jointCmd findIdByName
    rw [firstNamed_createNode_found hv2]
    simp [hvid]

theorem findIdByName__ensure_joint_fresh {s : Scene} {n : String} {p : Pos}
    (hex : objExistsName s n = false) :
    findIdByName (_ensure_joint s n p) n = some s.nextId := by
  rw [_ensure_joint_absent hex, findIdByName_logMsg]
  have hn : firstNamed (selectClearCmd s) n = none := by
    rw [firstNamed_congr rfl]
    exact firstNamed_none_of_not_objExists hex
  unfold jointCmd findIdByName
  rw [firstNamed_createNode_new hn]
  simp
  rfl

theorem findIdByName_parentCmd {s : Scene} {c t : Nat} {m : String} :
    findIdByName ((parentCmd s c t).1) m = findIdByName s m := by
  rcases hb : (parentCmd s c t).2 with hf | ht
  · exact findIdByName_congr (parentCmd_fail_nodes hb)
  · unfold findIdByName firstNamed
    rw [parentCmd_success_nodes hb]
    rw [find?_map_pred (α := SNode) _ (fun v => v.name == m)
      (fun v => by simp only [parUpd_name]) _]
    cases s.nodes.find? (fun v => v.name == m) with
    | none => rfl
    | some v =>
      show some (if v.id == c then { v with parent := some t } else v).id = some v.id
      rw [parUpd_id]

theorem findIdByName_exists_of_objExists {s : Scene} {n : String}
    (h : objExistsName s n = true) : ∃ j, findIdByName s n = some j := by
  unfold objExistsName at h
  obtain ⟨m, hm, hp⟩ := List.any_eq_true.mp h
  have : (s.nodes.find? (fun v => v.name == n)).isSome := by
    rw [List.find?_isSome]
    exact ⟨m, hm, hp⟩
  obtain ⟨w, hw⟩ := Option.isSome_iff_exists.mp this
  exact ⟨w.id, by unfold findIdByName firstNamed; rw [hw]; rfl⟩

theorem getNode_self_of_mem {s : Scene} {y : SNode} (hwf : wf s = true)
    (hy : y ∈ s.nodes) : getNode s y.id = some y := by
  have : (s.nodes.find? (fun v => v.id == y.id)).isSome := by
    rw [List.find?_isSome]
    exact ⟨y, hy, by simp⟩
  obtain ⟨w, hw⟩ := Option.isSome_iff_exists.mp this
  have hwmem : w ∈ s.nodes := List.mem_of_find?_eq_some hw
  have hwid : w.id = y.id := by
    have := List.find?_some hw
    simpa using this
  unfold getNode
  rw [hw, eq_of_mem_of_id_eq hwf hwmem hy hwid]

theorem getNode_of_findIdByName {s : Scene} {n : String} {j : Nat} (hwf : wf s = true)
    (h : findIdByName s n = some j) :
    ∃ w, getNode s j = some w ∧ w.name = n ∧ w.id = j := by
  obtain ⟨v, hv, hvid⟩ := findIdByName_firstNamed h
  refine ⟨v, ?_, firstNamed_name hv, hvid⟩
  rw [← hvid]
  exact getNode_self_of_mem hwf (firstNamed_mem hv)

theorem findIdByName_ne_of_names {s : Scene} {n1 n2 : String} {j1 j2 : Nat}
    (hwf : wf s = true) (h1 : findIdByName s n1 = some j1)
    (h2 : findIdByName s n2 = some j2) (hne : n1 ≠ n2) : j1 ≠ j2 := by
  obtain ⟨v1, hv1, hv1id⟩ := findIdByName_firstNamed h1
  obtain ⟨v2, hv2, hv2id⟩ := findIdByName_firstNamed h2
  intro he
  apply hne
  have hid : v1.id = v2.id := by rw [hv1id, hv2id, he]
  have := eq_of_mem_of_id_eq hwf (firstNamed_mem hv1) (firstNamed_mem hv2) hid
  rw [← firstNamed_name hv1, ← firstNamed_name hv2, this]

theorem parent_lt_of_parentOf {s : Scene} {i p : Nat} (hptr : ptrBounded s = true)
    (h : parentOf s i = some p) : p < s.nextId := by
  unfold parentOf at h
  cases hg : getNode s i with
  | none => rw [hg] at h; cases h
  | some w =>
    rw [hg] at h
    simp only [Option.some_bind] at h
    have hwmem : w ∈ s.nodes := List.mem_of_find?_eq_some hg
    unfold ptrBounded at hptr
    rw [List.all_eq_true] at hptr
    have := hptr w hwmem
    rw [h] at this
    simpa using this

theorem findPath2_spec {s : Scene} {a b : String} {j : Nat} (hwf : wf s = true)
    (h : findPath2 s a b = some j) :
    nameOfId s j = b ∧ j < s.nextId
    ∧ ∃ pid, parentOf s j = some pid ∧ nameOfId s pid = a := by
  unfold findPath2 at h
  cases hf : s.nodes.find? (fun y => y.name == b &&
      (match y.parent with
       | some pid => ((getNode s pid).map (fun p => p.name)).getD "" == a
       | none => false)) with
  | none => rw [hf] at h; cases h
  | some y =>
    rw [hf] at h
    have hyj : y.id = j := by simpa using h
    have hymem : y ∈ s.nodes := List.mem_of_find?_eq_some hf
    have hypred := List.find?_some hf
    have hyname : y.name = b := by
      have := Bool.and_elim_left hypred
      simpa using this
    have hypar := Bool.and_elim_right hypred
    have hget : getNode s j = some y := by
      rw [← hyj]
      exact getNode_self_of_mem hwf hymem
    refine ⟨?_, ?_, ?_⟩
    · unfold nameOfId
      rw [hget]
      simp [hyname]
    · have := wf_idLt hwf y hymem
      omega
    · cases hp : y.parent with
      | none => rw [hp] at hypar; cases hypar
      | some pid =>
        rw [hp] at hypar
        refine ⟨pid, ?_, ?_⟩
        · unfold parentOf
          rw [hget, Option.some_bind, hp]
        · unfold nameOfId
          simpa using hypar

theorem parentCmd_success_not_child {s : Scene} {c t : Nat}
    (h : (parentCmd s c t).2 = true) : parentOf s c ≠ some t := by
  intro he
  rw [parentCmd_eq] at h
  have : (parentOf s c == some t) = true := by simp [he]
  rw [this] at h
  simp at h

theorem all_info_newLog_absurd {s t : Scene} {L : List LogEntry} {m : String}
    (hdec : t.log = s.log ++ L) (hmem : (Level.warn, m) ∈ L)
    (hok : (newLog s t).all (fun e => e.1 == Level.info) = true) : False := by
  unfold newLog at hok
  rw [hdec, List.drop_left] at hok
  have h2 : false = true := List.all_eq_true.mp hok _ hmem
  exact Bool.noConfusion h2

theorem log_logMsg {s : Scene} {lv : Level} {m : String} :
    (logMsg s lv m).log = s.log ++ [(lv, m)] := rfl

theorem log_createNode {s : Scene} {n : String} {t : NType} {par : Option Nat}
    {p : Pos} {e : HEvent} : (createNode s n t par p e).log = s.log := rfl

theorem log_selectClearCmd {s : Scene} : (selectClearCmd s).log = s.log := rfl

theorem log_assetPrelude {env : Option String} {s : Scene} :
    ∃ L, (assetPrelude env s).2.log = s.log ++ L := by
  rw [assetPrelude_snd]
  by_cases h : (_asset_name env).2 = true
  · rw [if_pos h]
    exact ⟨_, rfl⟩
  · rw [if_neg h]
    exact ⟨[], (List.append_nil _).symm⟩

theorem log__ensure_joint {s : Scene} {n : String} {p : Pos} :
    ∃ L, (_ensure_joint s n p).log = s.log ++ L := by
  cases hex : objExistsName s n with
  | true =>
    rw [_ensure_joint_exists hex, log_logMsg, log_xformSetWT]
    exact ⟨_, rfl⟩
  | false =>
    rw [_ensure_joint_absent hex, log_logMsg]
    unfold jointCmd
    rw [log_createNode, log_selectClearCmd]
    exact ⟨_, rfl⟩

theorem log_parentIfNeededShort {s : Scene} {child target : String} :
    (parentIfNeededShort s child target).1.log = s.log := by
  cases hc : findIdByName s child with
  | none => rw [parentIfNeededShort_eq_noneL hc]
  | some c =>
    cases ht : findIdByName s target with
    | none => rw [parentIfNeededShort_eq_noneR hc ht]
    | some t =>
      cases hg : (parentShortName s c != some target) with
      | false => rw [parentIfNeededShort_eq_skip hc ht hg]
      | true =>
        rw [parentIfNeededShort_eq_call hc ht hg]
        exact parentCmd_log

theorem log_rigTry {s : Scene} {rigPath root rig jntRoot : String} :
    ∃ L, (rigTry s rigPath root rig jntRoot).log = s.log ++ L := by
  cases h : findIdByName s jntRoot with
  | none =>
    rw [rigTry_eq_noneJ h, log_logMsg]
    exact ⟨_, rfl⟩
  | some jr =>
    cases hg : (parentFullPath s jr != some rigPath) with
    | false =>
      rw [rigTry_eq_skip h hg]
      exact ⟨[], (List.append_nil _).symm⟩
    | true =>
      cases hp : findPath2 s root rig with
      | none =>
        rw [rigTry_eq_noPath h hg hp, log_logMsg]
        exact ⟨_, rfl⟩
      | some t =>
        rw [rigTry_eq_call h hg hp]
        split
        · exact ⟨[], by rw [parentCmd_log]; exact (List.append_nil _).symm⟩
        · exact ⟨_, by rw [log_logMsg, parentCmd_log]⟩

theorem trace_selectClearCmd {s : Scene} :
    (selectClearCmd s).trace = s.trace ++ [HEvent.selectClear] := rfl

theorem trace_createNode {s : Scene} {n : String} {t : NType} {par : Option Nat}
    {p : Pos} {e : HEvent} : (createNode s n t par p e).trace = s.trace ++ [e] := rfl

theorem trace_xformSetWT {s : Scene} {n : String} {p : Pos} :
    ∃ Δ, (xformSetWT s n p).trace = s.trace ++ Δ
      ∧ ∀ c t, HEvent.reparent c t ∉ Δ := by
  cases hf : findIdByName s n with
  | none =>
    rw [xformSetWT_none hf]
    exact ⟨[], (List.append_nil _).symm, by intro c t h; cases h⟩
  | some i =>
    rw [xformSetWT_some hf]
    refine ⟨[HEvent.setTranslation i p], rfl, ?_⟩
    intro c t h
    rw [List.mem_singleton] at h
    cases h

theorem trace__ensure_joint {s : Scene} {n : String} {p : Pos} :
    ∃ Δ, (_ensure_joint s n p).trace = s.trace ++ Δ
      ∧ ∀ c t, HEvent.reparent c t ∉ Δ := by
  cases hex : objExistsName s n with
  | true =>
    rw [_ensure_joint_exists hex, trace_logMsg]
    exact trace_xformSetWT
  | false =>
    rw [_ensure_joint_absent hex, trace_logMsg]
    unfold jointCmd
    rw [trace_createNode, trace_selectClearCmd, List.append_assoc]
    refine ⟨_, rfl, ?_⟩
    intro c t h
    rcases List.mem_append.mp h with h1 | h1 <;>
      (rw [List.mem_singleton] at h1; cases h1)

theorem node_of_nameOfId {s : Scene} {p : Nat} {n : String}
    (h : nameOfId s p = n) (hne : n ≠ "") :
    ∃ w, getNode s p = some w ∧ w.name = n ∧ w.id = p := by
  unfold nameOfId at h
  cases hg : getNode s p with
  | none =>
    rw [hg] at h
    exact absurd h.symm hne
  | some w =>
    rw [hg] at h
    refine ⟨w, rfl, by simpa using h, ?_⟩
    have := List.find?_some hg
    simpa using this

theorem parentShortName_eq_trans {u v : Scene} {i : Nat}
    (hpar : parentOf u i = parentOf v i)
    (hnm : ∀ p, parentOf v i = some p → nameOfId u p = nameOfId v p) :
    parentShortName u i = parentShortName v i := by
  unfold parentShortName
  rw [hpar]
  cases hp : parentOf v i with
  | none => rfl
  | some p =>
    show some (nameOfId u p) = some (nameOfId v p)
    rw [hnm p hp]

theorem parentIfNeededShort_step {u : Scene} {child target : String} {c t : Nat}
    (hwfu : wf u = true) (hct : countName u target = 1) (htne : target ≠ "")
    (hc : findIdByName u child = some c) (ht : findIdByName u target = some t) :
    (parentIfNeededShort u child target).2 = false
    ∨ ∃ Δ, (parentIfNeededShort u child target).2 = true
        ∧ parentOf (parentIfNeededShort u child target).1 c = some t
        ∧ (∀ i, i ≠ c → parentOf (parentIfNeededShort u child target).1 i = parentOf u i)
        ∧ (∀ q, nameOfId (parentIfNeededShort u child target).1 q = nameOfId u q)
        ∧ (∀ m, findIdByName (parentIfNeededShort u child target).1 m = findIdByName u m)
        ∧ wf (parentIfNeededShort u child target).1 = true
        ∧ (parentIfNeededShort u child target).1.log = u.log
        ∧ (parentIfNeededShort u child target).1.trace = u.trace ++ Δ
        ∧ ((Δ = [] ∧ parentShortName u c = some target)
            ∨ (Δ = [HEvent.reparent c t] ∧ parentShortName u c ≠ some target)) := by
  cases hg : (parentShortName u c != some target) with
  | false =>
    have heq : parentShortName u c = some target := by
      have := bne_eq_false_iff_eq.mp hg
      exact this
    have hskip := parentIfNeededShort_eq_skip hc ht hg
    right
    refine ⟨[], ?_, ?_, ?_, ?_, ?_, ?_, ?_, ?_, Or.inl ⟨rfl, heq⟩⟩
    · rw [hskip]
    · rw [hskip]
      unfold parentShortName at heq
      cases hp : parentOf u c with
      | none => rw [hp] at heq; cases heq
      | some p =>
        rw [hp] at heq
        have hnm : nameOfId u p = target := by
          have : some (nameOfId u p) = some target := heq
          exact Option.some_injective _ this
        obtain ⟨w, hw, hwname, hwid⟩ := node_of_nameOfId hnm htne
        obtain ⟨wt, hwt, hwtname, hwtid⟩ := getNode_of_findIdByName hwfu ht
        have hweq : w = wt := countName_unique hct
          (List.mem_of_find?_eq_some hw) (List.mem_of_find?_eq_some hwt) hwname hwtname
        rw [← hwid, hweq, hwtid]
    · intro i hi
      rw [hskip]
    · intro q
      rw [hskip]
    · intro m
      rw [hskip]
    · rw [hskip]
      exact hwfu
    · rw [hskip]
    · rw [hskip]
      exact (List.append_nil _).symm
  | true =>
    have hcall := parentIfNeededShort_eq_call hc ht hg
    have hne : parentShortName u c ≠ some target := bne_iff_ne.mp hg
    rcases hok : (parentCmd u c t).2 with hf | htr
    · left
      rw [hcall]
      exact hok
    · right
      obtain ⟨wc, hwc, hwcname, hwcid⟩ := getNode_of_findIdByName hwfu hc
      refine ⟨[HEvent.reparent c t], ?_, ?_, ?_, ?_, ?_, ?_, ?_, ?_, Or.inr ⟨rfl, hne⟩⟩
      · rw [hcall]
        exact hok
      · rw [hcall]
        exact parentOf_parentCmd_success_self hok hwc
      · intro i hi
        rw [hcall]
        exact parentOf_parentCmd_other hi
      · intro q
        rw [hcall]
        exact nameOfId_parentCmd
      · intro m
        rw [hcall]
        exact findIdByName_parentCmd
      · rw [hcall]
        exact wf_parentCmd hwfu
      · rw [hcall]
        exact parentCmd_log
      · rw [hcall]
        exact parentCmd_trace

theorem build_rig_run_ensureStage {env : Option String} {s : Scene}
    (hrig : pathExists2 s (rootNameOf env) "GRP_rig" = true)
    (hl1 : objExistsName s "LOC_root" = true)
    (hl2 : objExistsName s "LOC_base" = true)
    (hl3 : objExistsName s "LOC_move" = true) :
    build_rig env s =
      logMsg
        (rigTry (chainTry (ensureStage env s) "JNT_root" "JNT_base" "JNT_move")
          (rootNameOf env ++ "|" ++ "GRP_rig") (rootNameOf env) "GRP_rig" "JNT_root")
        Level.info "Rig built or updated under rig path" := by
  rw [build_rig_run hrig hl1 hl2 hl3]
  rfl

theorem ensure_stage_facts {env : Option String} {s : Scene}
    (hwf : wf s = true) (hptr : ptrBounded s = true)
    (hj1 : countName s "JNT_root" ≤ 1) (hj2 : countName s "JNT_base" ≤ 1)
    (hj3 : countName s "JNT_move" ≤ 1) :
    countName (ensureStage env s) "JNT_root" = 1
    ∧ countName (ensureStage env s) "JNT_base" = 1
    ∧ countName (ensureStage env s) "JNT_move" = 1
    ∧ wf (ensureStage env s) = true
    ∧ (∀ i, parentOf (ensureStage env s) i = parentOf s i)
    ∧ (∀ q, q < s.nextId → nameOfId (ensureStage env s) q = nameOfId s q)
    ∧ (∀ i, parentShortName (ensureStage env s) i = parentShortName s i)
    ∧ (∃ L, (ensureStage env s).log = s.log ++ L)
    ∧ (∃ Δ, (ensureStage env s).trace = s.trace ++ Δ
        ∧ ∀ c t, HEvent.reparent c t ∉ Δ)
    ∧ (∃ jr, findIdByName (ensureStage env s) "JNT_root" = some jr
        ∧ (findIdByName s "JNT_root" = some jr ∨ parentOf s jr = none)) := by
  have hA : (assetPrelude env s).2.nodes = s.nodes := assetPrelude_nodes
  have hwfA : wf (assetPrelude env s).2 = true := wf_assetPrelude hwf
  have hwfE1 : wf (_ensure_joint (assetPrelude env s).2 "JNT_root"
      (posOfName s "LOC_root")) = true := wf__ensure_joint hwfA
  have hwfE2 : wf (_ensure_joint (_ensure_joint (assetPrelude env s).2 "JNT_root"
      (posOfName s "LOC_root")) "JNT_base" (posOfName s "LOC_base")) = true :=
    wf__ensure_joint hwfE1
  have hc1 : countName (ensureStage env s) "JNT_root" = 1 := by
    unfold ensureStage
    rw [countName__ensure_joint_other (by decide),
      countName__ensure_joint_other (by decide),
      countName__ensure_joint_self, countName_congr hA]
    omega
  have hc2 : countName (ensureStage env s) "JNT_base" = 1 := by
    unfold ensureStage
    rw [countName__ensure_joint_other (by decide),
      countName__ensure_joint_self, countName__ensure_joint_other (by decide),
      countName_congr hA]
    omega
  have hc3 : countName (ensureStage env s) "JNT_move" = 1 := by
    unfold ensureStage
    rw [countName__ensure_joint_self, countName__ensure_joint_other (by decide),
      countName__ensure_joint_other (by decide), countName_congr hA]
    omega
  have hpar : ∀ i, parentOf (ensureStage env s) i = parentOf s i := by
    intro i
    unfold ensureStage
    rw [parentOf__ensure_joint, parentOf__ensure_joint, parentOf__ensure_joint]
    exact parentOf_congr hA
  have hnm : ∀ q, q < s.nextId → nameOfId (ensureStage env s) q = nameOfId s q := by
    intro q hq
    have h1 : q < (assetPrelude env s).2.nextId := by
      rw [assetPrelude_nextId]
      exact hq
    have h2 : q < (_ensure_joint (assetPrelude env s).2 "JNT_root"
        (posOfName s "LOC_root")).nextId := lt_of_lt_of_le h1 nextId__ensure_joint
    have h3 : q < (_ensure_joint (_ensure_joint (assetPrelude env s).2 "JNT_root"
        (posOfName s "LOC_root")) "JNT_base" (posOfName s "LOC_base")).nextId :=
      lt_of_lt_of_le h2 nextId__ensure_joint
    unfold ensureStage
    rw [nameOfId__ensure_joint_lt h3, nameOfId__ensure_joint_lt h2,
      nameOfId__ensure_joint_lt h1, nameOfId_congr hA]
  refine ⟨hc1, hc2, hc3, wf__ensure_joint hwfE2, hpar, hnm, ?_, ?_, ?_, ?_⟩
  · intro i
    refine parentShortName_eq_trans (hpar i) ?_
    intro p hp
    exact hnm p (parent_lt_of_parentOf hptr hp)
  · obtain ⟨L0, hL0⟩ := @log_assetPrelude env s
    obtain ⟨L1, hL1⟩ := log__ensure_joint (s := (assetPrelude env s).2)
      (n := "JNT_root") (p := posOfName s "LOC_root")
    obtain ⟨L2, hL2⟩ := log__ensure_joint
      (s := _ensure_joint (assetPrelude env s).2 "JNT_root" (posOfName s "LOC_root"))
      (n := "JNT_base") (p := posOfName s "LOC_base")
    obtain ⟨L3, hL3⟩ := log__ensure_joint
      (s := _ensure_joint (_ensure_joint (assetPrelude env s).2 "JNT_root"
        (posOfName s "LOC_root")) "JNT_base" (posOfName s "LOC_base"))
      (n := "JNT_move") (p := posOfName s "LOC_move")
    refine ⟨L0 ++ L1 ++ L2 ++ L3, ?_⟩
    show (ensureStage env s).log = _
    unfold ensureStage
    rw [hL3, hL2, hL1, hL0]
    simp [List.append_assoc]
  · obtain ⟨D1, hD1, hn1⟩ := trace__ensure_joint (s := (assetPrelude env s).2)
      (n := "JNT_root") (p := posOfName s "LOC_root")
    obtain ⟨D2, hD2, hn2⟩ := trace__ensure_joint
      (s := _ensure_joint (assetPrelude env s).2 "JNT_root" (posOfName s "LOC_root"))
      (n := "JNT_base") (p := posOfName s "LOC_base")
    obtain ⟨D3, hD3, hn3⟩ := trace__ensure_joint
      (s := _ensure_joint (_ensure_joint (assetPrelude env s).2 "JNT_root"
        (posOfName s "LOC_root")) "JNT_base" (posOfName s "LOC_base"))
      (n := "JNT_move") (p := posOfName s "LOC_move")
    refine ⟨D1 ++ D2 ++ D3, ?_, ?_⟩
    · show (ensureStage env s).trace = _
      unfold ensureStage
      rw [hD3, hD2, hD1, assetPrelude_trace]
      simp [List.append_assoc]
    · intro c t hmem
      rcases List.mem_append.mp hmem with h12 | h3
      · rcases List.mem_append.mp h12 with h1 | h2
        · exact hn1 c t h1
        · exact hn2 c t h2
      · exact hn3 c t h3
  · cases hex : objExistsName s "JNT_root" with
    | true =>
      obtain ⟨j0, hj0⟩ := findIdByName_exists_of_objExists hex
      have hjA : findIdByName (assetPrelude env s).2 "JNT_root" = some j0 := by
        rw [findIdByName_congr hA]
        exact hj0
      refine ⟨j0, ?_, Or.inl hj0⟩
      unfold ensureStage
      exact findIdByName__ensure_joint_found
        (findIdByName__ensure_joint_found (findIdByName__ensure_joint_found hjA))
    | false =>
      have hexA : objExistsName (assetPrelude env s).2 "JNT_root" = false := by
        rw [objExistsName_congr hA]
        exact hex
      have hfr : findIdByName (_ensure_joint (assetPrelude env s).2 "JNT_root"
          (posOfName s "LOC_root")) "JNT_root" = some (assetPrelude env s).2.nextId :=
        findIdByName__ensure_joint_fresh hexA
      refine ⟨(assetPrelude env s).2.nextId, ?_, Or.inr ?_⟩
      · unfold ensureStage
        exact findIdByName__ensure_joint_found (findIdByName__ensure_joint_found hfr)
      · unfold parentOf
        rw [getNode_ge_nextId hwf (by rw [assetPrelude_nextId])]
        rfl

/-! ### Full-path decomposition under pipe-free names -/

theorem intercalate_go_append (y : String) :
    ∀ (xs : List String) (acc : String),
      String.intercalate.go acc "|" (xs ++ [y]) =
        String.intercalate.go acc "|" xs ++ "|" ++ y := by
  intro xs
  induction xs with
  | nil =>
    intro acc
    rfl
  | cons a t ih =>
    intro acc
    show String.intercalate.go (acc ++ "|" ++ a) "|" (t ++ [y]) = _
    rw [ih]
    rfl

theorem intercalate_pipe_append_last {l0 y : String} {ls : List String} :
    String.intercalate "|" ((l0 :: ls) ++ [y]) =
      String.intercalate "|" (l0 :: ls) ++ "|" ++ y :=
  intercalate_go_append y ls l0

theorem eq_of_pipefree_prefix :
    ∀ (x y u v : List Char), ('|' : Char) ∉ x → ('|' : Char) ∉ y →
      x ++ '|' :: u = y ++ '|' :: v → x = y := by
  intro x
  induction x with
  | nil =>
    intro y u v hx hy h
    cases y with
    | nil => rfl
    | cons d ys =>
      exfalso
      injection h with h1 h2
      apply hy
      rw [h1]
      exact List.mem_cons_self _ _
  | cons c xs ih =>
    intro y u v hx hy h
    cases y with
    | nil =>
      exfalso
      injection h with h1 h2
      apply hx
      rw [← h1]
      exact List.mem_cons_self _ _
    | cons d ys =>
      injection h with h1 h2
      have hx' : ('|' : Char) ∉ xs := fun hm => hx (List.mem_cons_of_mem _ hm)
      have hy' : ('|' : Char) ∉ ys := fun hm => hy (List.mem_cons_of_mem _ hm)
      rw [h1, ih ys u v hx' hy' h2]

theorem data_append_pipe (A B : String) :
    (A ++ "|" ++ B).data = A.data ++ '|' :: B.data := by
  rw [String.data_append, String.data_append, List.append_assoc]
  rfl

theorem pipe_last_eq {L : List String} {y A B : String}
    (hy : ('|' : Char) ∉ y.data) (hB : ('|' : Char) ∉ B.data)
    (h : String.intercalate "|" (L ++ [y]) = A ++ "|" ++ B) : y = B := by
  cases L with
  | nil =>
    exfalso
    have h' : y = A ++ "|" ++ B := h
    apply hy
    rw [h', data_append_pipe]
    exact List.mem_append_right _ (List.mem_cons_self _ _)
  | cons l0 ls =>
    rw [intercalate_pipe_append_last] at h
    have hd := congrArg String.data h
    rw [data_append_pipe, data_append_pipe] at hd
    have hr := congrArg List.reverse hd
    rw [List.reverse_append, List.reverse_append, List.reverse_cons,
      List.reverse_cons, List.append_assoc, List.append_assoc] at hr
    have hyr : ('|' : Char) ∉ y.data.reverse :=
      fun hm => hy (List.mem_reverse.mp hm)
    have hBr : ('|' : Char) ∉ B.data.reverse :=
      fun hm => hB (List.mem_reverse.mp hm)
    have hrev := eq_of_pipefree_prefix _ _ _ _ hyr hBr hr
    have hdata : y.data = B.data := by
      have h2 := congrArg List.reverse hrev
      rwa [List.reverse_reverse, List.reverse_reverse] at h2
    exact String.ext hdata

theorem nameOfId_noPipe {t : Scene} (hnp : noPipeNames t) (j : Nat) :
    ('|' : Char) ∉ (nameOfId t j).data := by
  unfold nameOfId
  cases hg : getNode t j with
  | none =>
    intro hmem
    exact List.not_mem_nil _ hmem
  | some w =>
    exact hnp w (List.mem_of_find?_eq_some hg)

theorem nameOfId_of_fullPath_pipe {t : Scene} {q : Nat} {A B : String}
    (hnp : noPipeNames t) (hB : ('|' : Char) ∉ B.data)
    (h : fullPath t q = A ++ "|" ++ B) : nameOfId t q = B := by
  unfold fullPath at h
  rw [List.map_append] at h
  simp only [List.map_cons, List.map_nil] at h
  exact pipe_last_eq (nameOfId_noPipe hnp q) hB h

theorem noPipeNames_congr {s t : Scene} (h : t.nodes = s.nodes)
    (hs : noPipeNames s) : noPipeNames t := by
  intro m hm
  rw [h] at hm
  exact hs m hm

theorem noPipeNames_logMsg {s : Scene} {lv : Level} {m : String}
    (hs : noPipeNames s) : noPipeNames (logMsg s lv m) := hs

theorem noPipeNames_selectClearCmd {s : Scene} (hs : noPipeNames s) :
    noPipeNames (selectClearCmd s) := hs

theorem noPipeNames_xformSetWT {s : Scene} {n : String} {p : Pos}
    (hs : noPipeNames s) : noPipeNames (xformSetWT s n p) := by
  cases hf : findIdByName s n with
  | none =>
    rw [xformSetWT_none hf]
    exact hs
  | some i =>
    rw [xformSetWT_some hf]
    intro m hm
    obtain ⟨m0, hm0, he⟩ := List.mem_map.mp hm
    rw [← he, posUpd_name]
    exact hs m0 hm0

theorem noPipeNames_createNode {s : Scene} {n : String} {t : NType}
    {par : Option Nat} {p : Pos} {e : HEvent} (hn : ('|' : Char) ∉ n.data)
    (hs : noPipeNames s) : noPipeNames (createNode s n t par p e) := by
  intro m hm
  rw [createNode_nodes] at hm
  rcases List.mem_append.mp hm with h1 | h1
  · exact hs m h1
  · rw [List.mem_singleton] at h1
    subst h1
    exact hn

theorem noPipeNames__ensure_joint {s : Scene} {n : String} {p : Pos}
    (hn : ('|' : Char) ∉ n.data) (hs : noPipeNames s) :
    noPipeNames (_ensure_joint s n p) := by
  cases hex : objExistsName s n with
  | true =>
    rw [_ensure_joint_exists hex]
    exact noPipeNames_logMsg (noPipeNames_xformSetWT hs)
  | false =>
    rw [_ensure_joint_absent hex]
    exact noPipeNames_logMsg
      (noPipeNames_createNode hn (noPipeNames_selectClearCmd hs))

theorem noPipeNames_parentCmd {s : Scene} {c t : Nat} (hs : noPipeNames s) :
    noPipeNames ((parentCmd s c t).1) := by
  rcases hb : (parentCmd s c t).2 with hf | ht
  · exact noPipeNames_congr (parentCmd_fail_nodes hb) hs
  · intro m hm
    rw [parentCmd_success_nodes hb] at hm
    obtain ⟨m0, hm0, he⟩ := List.mem_map.mp hm
    rw [← he, parUpd_name]
    exact hs m0 hm0

theorem noPipeNames_parentIfNeededShort {s : Scene} {child target : String}
    (hs : noPipeNames s) : noPipeNames ((parentIfNeededShort s child target).1) := by
  cases hc : findIdByName s child with
  | none =>
    rw [parentIfNeededShort_eq_noneL hc]
    exact hs
  | some c =>
    cases ht : findIdByName s target with
    | none =>
      rw [parentIfNeededShort_eq_noneR hc ht]
      exact hs
    | some t =>
      cases hg : (parentShortName s c != some target) with
      | false =>
        rw [parentIfNeededShort_eq_skip hc ht hg]
        exact hs
      | true =>
        rw [parentIfNeededShort_eq_call hc ht hg]
        exact noPipeNames_parentCmd hs

/-- C4: after a `build_rig` run whose prerequisites hold and whose host
calls all succeed (only info entries appended to the log), the joints form
the parent chain `JNT_root → JNT_base → JNT_move`, the chain root hangs
under the rig group node, and a reparent host call is recorded for a chain
link exactly when that link's parent differed from the target beforehand.
Name sanity: host node names carry no `|` path separator. -/
theorem c4_parent_chain_guarded {env : Option String} {s : Scene}
    (hwf : wf s = true) (hptr : ptrBounded s = true)
    (hrig : pathExists2 s (rootNameOf env) "GRP_rig" = true)
    (hl1 : objExistsName s "LOC_root" = true)
    (hl2 : objExistsName s "LOC_base" = true)
    (hl3 : objExistsName s "LOC_move" = true)
    (hj1 : countName s "JNT_root" ≤ 1) (hj2 : countName s "JNT_base" ≤ 1)
    (hj3 : countName s "JNT_move" ≤ 1)
    (hnp : noPipeNames s)
    (hok : (newLog s (build_rig env s)).all (fun e => e.1 == Level.info) = true) :
    ∃ jr jb jm rg,
      findIdByName (build_rig env s) "JNT_root" = some jr
      ∧ findIdByName (build_rig env s) "JNT_base" = some jb
      ∧ findIdByName (build_rig env s) "JNT_move" = some jm
      ∧ parentOf (build_rig env s) jb = some jr
      ∧ parentOf (build_rig env s) jm = some jb
      ∧ parentOf (build_rig env s) jr = some rg
      ∧ nameOfId (build_rig env s) rg = "GRP_rig"
      ∧ (HEvent.reparent jb jr ∈ newTrace s (build_rig env s)
          ↔ parentShortName s jb ≠ some "JNT_root")
      ∧ (HEvent.reparent jm jb ∈ newTrace s (build_rig env s)
          ↔ parentShortName s jm ≠ some "JNT_base")
      ∧ (HEvent.reparent jr rg ∈ newTrace s (build_rig env s)
          ↔ parentOf s jr ≠ some rg) := by
  have hrun := build_rig_run_ensureStage hrig hl1 hl2 hl3
  rw [hrun] at hok ⊢
  obtain ⟨hcE1, hcE2, hcE3, hwfE, hparE, hnmE, hpsnE, ⟨LE, hLE⟩,
    ⟨DE, hDE, hDEnone⟩, jr, hjrE, hjrcases⟩ :=
    @ensure_stage_facts env s hwf hptr hj1 hj2 hj3
  obtain ⟨jb, hjbE⟩ := findIdByName_exists_of_objExists
    (objExists_true_of_countName_pos (s := ensureStage env s) (n := "JNT_base")
      (by omega))
  obtain ⟨jm, hjmE⟩ := findIdByName_exists_of_objExists
    (objExists_true_of_countName_pos (s := ensureStage env s) (n := "JNT_move")
      (by omega))
  have hne_rb : jr ≠ jb := findIdByName_ne_of_names hwfE hjrE hjbE (by decide)
  have hne_rm : jr ≠ jm := findIdByName_ne_of_names hwfE hjrE hjmE (by decide)
  have hne_bm : jb ≠ jm := findIdByName_ne_of_names hwfE hjbE hjmE (by decide)
  -- first chain link
  rcases parentIfNeededShort_step (u := ensureStage env s) hwfE hcE1 (by decide)
      hjbE hjrE with hfail1 | hstep1
  · exfalso
    have hchainf : chainTry (ensureStage env s) "JNT_root" "JNT_base" "JNT_move" =
        logMsg (parentIfNeededShort (ensureStage env s) "JNT_base" "JNT_root").1
          Level.warn "Parenting joints failed" := by
      rw [chainTry_eq, if_neg (by simp [hfail1])]
    rw [hchainf] at hok
    obtain ⟨L2, hL2⟩ := @log_rigTry
      (logMsg (parentIfNeededShort (ensureStage env s) "JNT_base" "JNT_root").1
        Level.warn "Parenting joints failed")
      (rootNameOf env ++ "|" ++ "GRP_rig") (rootNameOf env) "GRP_rig" "JNT_root"
    refine all_info_newLog_absurd (m := "Parenting joints failed")
      (L := LE ++ ([(Level.warn, "Parenting joints failed")] ++
        (L2 ++ [(Level.info, "Rig built or updated under rig path")]))) ?_ ?_ hok
    · rw [log_logMsg, hL2, log_logMsg, log_parentIfNeededShort, hLE]
      simp [List.append_assoc]
    · simp
  obtain ⟨D1, hflag1, hpar1, hothers1, hnm1, hfind1, hwf1, hlog1, htr1, hguard1⟩ :=
    hstep1
  -- second chain link
  have hfind1m : findIdByName
      (parentIfNeededShort (ensureStage env s) "JNT_base" "JNT_root").1 "JNT_move" =
      some jm := by rw [hfind1]; exact hjmE
  have hfind1b : findIdByName
      (parentIfNeededShort (ensureStage env s) "JNT_base" "JNT_root").1 "JNT_base" =
      some jb := by rw [hfind1]; exact hjbE
  have hcnt1b : countName
      (parentIfNeededShort (ensureStage env s) "JNT_base" "JNT_root").1 "JNT_base" =
      1 := by rw [countName_parentIfNeededShort]; exact hcE2
  rcases parentIfNeededShort_step
      (u := (parentIfNeededShort (ensureStage env s) "JNT_base" "JNT_root").1)
      hwf1 hcnt1b (by decide) hfind1m hfind1b with hfail2 | hstep2
  · exfalso
    have hchainf : chainTry (ensureStage env s) "JNT_root" "JNT_base" "JNT_move" =
        logMsg (parentIfNeededShort
          (parentIfNeededShort (ensureStage env s) "JNT_base" "JNT_root").1
          "JNT_move" "JNT_base").1 Level.warn "Parenting joints failed" := by
      rw [chainTry_eq, if_pos hflag1, if_neg (by simp [hfail2])]
    rw [hchainf] at hok
    obtain ⟨L2, hL2⟩ := @log_rigTry
      (logMsg (parentIfNeededShort
        (parentIfNeededShort (ensureStage env s) "JNT_base" "JNT_root").1
        "JNT_move" "JNT_base").1 Level.warn "Parenting joints failed")
      (rootNameOf env ++ "|" ++ "GRP_rig") (rootNameOf env) "GRP_rig" "JNT_root"
    refine all_info_newLog_absurd (m := "Parenting joints failed")
      (L := LE ++ ([(Level.warn, "Parenting joints failed")] ++
        (L2 ++ [(Level.info, "Rig built or updated under rig path")]))) ?_ ?_ hok
    · rw [log_logMsg, hL2, log_logMsg, log_parentIfNeededShort, hlog1, hLE]
      simp [List.append_assoc]
    · simp
  obtain ⟨D2, hflag2, hpar2, hothers2, hnm2, hfind2, hwf2, hlog2, htr2, hguard2⟩ :=
    hstep2
  have hchain : chainTry (ensureStage env s) "JNT_root" "JNT_base" "JNT_move" =
      (parentIfNeededShort
        (parentIfNeededShort (ensureStage env s) "JNT_base" "JNT_root").1
        "JNT_move" "JNT_base").1 := by
    rw [chainTry_eq, if_pos hflag1, if_pos hflag2]
  rw [hchain] at hok ⊢
  set u2 := (parentIfNeededShort
    (parentIfNeededShort (ensureStage env s) "JNT_base" "JNT_root").1
    "JNT_move" "JNT_base").1 with hu2def
  -- joint ids and parents at the end of the chain phase
  have hfind2r : findIdByName u2 "JNT_root" = some jr := by
    rw [hu2def, hfind2, hfind1]; exact hjrE
  have hfind2b : findIdByName u2 "JNT_base" = some jb := by
    rw [hu2def, hfind2, hfind1]; exact hjbE
  have hfind2m : findIdByName u2 "JNT_move" = some jm := by
    rw [hu2def, hfind2, hfind1]; exact hjmE
  have hpar2b : parentOf u2 jb = some jr := by
    rw [hu2def, hothers2 jb hne_bm]; exact hpar1
  have hpar2m : parentOf u2 jm = some jb := hpar2
  have hpar2r : parentOf u2 jr = parentOf s jr := by
    rw [hu2def, hothers2 jr hne_rm, hothers1 jr hne_rb, hparE jr]
  have hnm2s : ∀ q, q < s.nextId → nameOfId u2 q = nameOfId s q := by
    intro q hq
    rw [hu2def, hnm2, hnm1, hnmE q hq]
  have hlog2s : u2.log = s.log ++ LE := by
    rw [hu2def, hlog2, hlog1, hLE]
  have hnpE : noPipeNames (ensureStage env s) := by
    unfold ensureStage
    exact noPipeNames__ensure_joint (by decide)
      (noPipeNames__ensure_joint (by decide)
        (noPipeNames__ensure_joint (by decide)
          (noPipeNames_congr assetPrelude_nodes hnp)))
  have hnp2 : noPipeNames u2 := by
    rw [hu2def]
    exact noPipeNames_parentIfNeededShort (noPipeNames_parentIfNeededShort hnpE)
  have htr2s : u2.trace = s.trace ++ (DE ++ (D1 ++ D2)) := by
    rw [hu2def, htr2, htr1, hDE]
    simp [List.append_assoc]
  -- the rig-parenting pass
  have hrigstep :
      ∃ R Dr rg,
        rigTry u2 (rootNameOf env ++ "|" ++ "GRP_rig") (rootNameOf env) "GRP_rig"
          "JNT_root" = R
        ∧ parentOf R jr = some rg
        ∧ (∀ i, i ≠ jr → parentOf R i = parentOf u2 i)
        ∧ (∀ q, nameOfId R q = nameOfId u2 q)
        ∧ (∀ m, findIdByName R m = findIdByName u2 m)
        ∧ R.trace = u2.trace ++ Dr
        ∧ nameOfId u2 rg = "GRP_rig"
        ∧ ((Dr = [] ∧ parentOf s jr = some rg)
            ∨ (Dr = [HEvent.reparent jr rg] ∧ parentOf s jr ≠ some rg)) := by
    cases hg3 : (parentFullPath u2 jr != some (rootNameOf env ++ "|" ++ "GRP_rig")) with
    | false =>
      have hfull : parentFullPath u2 jr =
          some (rootNameOf env ++ "|" ++ "GRP_rig") := bne_eq_false_iff_eq.mp hg3
      unfold parentFullPath at hfull
      cases hp : parentOf u2 jr with
      | none => rw [hp] at hfull; cases hfull
      | some q =>
        have hparS : parentOf s jr = some q := by rw [← hpar2r]; exact hp
        have hfq : fullPath u2 q = rootNameOf env ++ "|" ++ "GRP_rig" := by
          have h2 : Option.map (fullPath u2) (some q) =
              some (rootNameOf env ++ "|" ++ "GRP_rig") := by
            rw [← hp]
            exact hfull
          exact Option.some_injective _ h2
        have hqname2 : nameOfId u2 q = "GRP_rig" :=
          nameOfId_of_fullPath_pipe hnp2 (by decide) hfq
        refine ⟨u2, [], q, rigTry_eq_skip hfind2r hg3, hp, fun i _ => rfl,
          fun q' => rfl, fun m => rfl, (List.append_nil _).symm, hqname2,
          Or.inl ⟨rfl, hparS⟩⟩
    | true =>
      cases hfp2 : findPath2 u2 (rootNameOf env) "GRP_rig" with
      | none =>
        exfalso
        have hrigf := rigTry_eq_noPath hfind2r hg3 hfp2
        rw [hrigf] at hok
        refine all_info_newLog_absurd
          (m := "Parenting chain root under rig group failed")
          (L := LE ++ ([(Level.warn, "Parenting chain root under rig group failed")]
            ++ [(Level.info, "Rig built or updated under rig path")])) ?_ ?_ hok
        · rw [log_logMsg, log_logMsg, hlog2s]
          simp [List.append_assoc]
        · simp
      | some t =>
        have hrigc := rigTry_eq_call hfind2r hg3 hfp2
        cases hok3 : (parentCmd u2 jr t).2 with
        | false =>
          exfalso
          have hrigf : rigTry u2 (rootNameOf env ++ "|" ++ "GRP_rig")
              (rootNameOf env) "GRP_rig" "JNT_root" =
              logMsg (parentCmd u2 jr t).1 Level.warn
                "Parenting chain root under rig group failed" := by
            rw [hrigc, if_neg (by simp [hok3])]
          rw [hrigf] at hok
          refine all_info_newLog_absurd
            (m := "Parenting chain root under rig group failed")
            (L := LE ++ ([(Level.warn, "Parenting chain root under rig group failed")]
              ++ [(Level.info, "Rig built or updated under rig path")])) ?_ ?_ hok
          · rw [log_logMsg, log_logMsg, parentCmd_log, hlog2s]
            simp [List.append_assoc]
          · simp
        | true =>
          obtain ⟨htname, htlt, -⟩ := findPath2_spec hwf2 hfp2
          obtain ⟨wr, hwr, -, -⟩ := getNode_of_findIdByName hwf2 hfind2r
          refine ⟨(parentCmd u2 jr t).1, [HEvent.reparent jr t], t,
            by rw [hrigc, if_pos hok3], parentOf_parentCmd_success_self hok3 hwr,
            fun i hi => parentOf_parentCmd_other hi, fun q' => nameOfId_parentCmd,
            fun m => findIdByName_parentCmd, parentCmd_trace, htname,
            Or.inr ⟨rfl, ?_⟩⟩
          have := parentCmd_success_not_child hok3
          rw [← hpar2r]
          exact this
  obtain ⟨R, Dr, rg, hReq, hparRjr, hRpar, hRnm, hRfind, hRtr, hrgname, hDr⟩ :=
    hrigstep
  rw [hReq] at hok ⊢
  -- event decomposition of the run
  have htrF : (logMsg R Level.info "Rig built or updated under rig path").trace =
      s.trace ++ (DE ++ (D1 ++ (D2 ++ Dr))) := by
    rw [trace_logMsg, hRtr, htr2s]
    simp [List.append_assoc]
  have hNT : newTrace s (logMsg R Level.info "Rig built or updated under rig path") =
      DE ++ (D1 ++ (D2 ++ Dr)) := by
    unfold newTrace
    rw [htrF, List.drop_left]
  have hsplit : ∀ ev : HEvent, ev ∈ DE ++ (D1 ++ (D2 ++ Dr)) →
      ev ∈ DE ∨ ev ∈ D1 ∨ ev ∈ D2 ∨ ev ∈ Dr := by
    intro ev h
    rcases List.mem_append.mp h with h | h
    · exact Or.inl h
    rcases List.mem_append.mp h with h | h
    · exact Or.inr (Or.inl h)
    rcases List.mem_append.mp h with h | h
    · exact Or.inr (Or.inr (Or.inl h))
    · exact Or.inr (Or.inr (Or.inr h))
  have hin1 : ∀ ev : HEvent, ev ∈ D1 → ev ∈ DE ++ (D1 ++ (D2 ++ Dr)) := by
    intro ev h
    exact List.mem_append_right _ (List.mem_append_left _ h)
  have hin2 : ∀ ev : HEvent, ev ∈ D2 → ev ∈ DE ++ (D1 ++ (D2 ++ Dr)) := by
    intro ev h
    exact List.mem_append_right _ (List.mem_append_right _ (List.mem_append_left _ h))
  have hin3 : ∀ ev : HEvent, ev ∈ Dr → ev ∈ DE ++ (D1 ++ (D2 ++ Dr)) := by
    intro ev h
    exact List.mem_append_right _ (List.mem_append_right _ (List.mem_append_right _ h))
  -- guard conditions phrased against the pre-state
  have hguard1s : (D1 = [] ∧ parentShortName s jb = some "JNT_root")
      ∨ (D1 = [HEvent.reparent jb jr] ∧ parentShortName s jb ≠ some "JNT_root") := by
    rw [← hpsnE jb]
    exact hguard1
  have hpsn1m : parentShortName
      (parentIfNeededShort (ensureStage env s) "JNT_base" "JNT_root").1 jm =
      parentShortName s jm := by
    refine Eq.trans (parentShortName_eq_trans (hothers1 jm (Ne.symm hne_bm))
      (fun p _ => hnm1 p)) (hpsnE jm)
  have hguard2s : (D2 = [] ∧ parentShortName s jm = some "JNT_base")
      ∨ (D2 = [HEvent.reparent jm jb] ∧ parentShortName s jm ≠ some "JNT_base") := by
    rw [← hpsn1m]
    exact hguard2
  refine ⟨jr, jb, jm, rg, ?_, ?_, ?_, ?_, ?_, ?_, ?_, ?_, ?_, ?_⟩
  · rw [findIdByName_logMsg, hRfind]
    exact hfind2r
  · rw [findIdByName_logMsg, hRfind]
    exact hfind2b
  · rw [findIdByName_logMsg, hRfind]
    exact hfind2m
  · rw [parentOf_logMsg, hRpar jb (Ne.symm hne_rb)]
    exact hpar2b
  · rw [parentOf_logMsg, hRpar jm (Ne.symm hne_rm)]
    exact hpar2m
  · rw [parentOf_logMsg]
    exact hparRjr
  · rw [nameOfId_logMsg, hRnm]
    exact hrgname
  · rw [hNT]
    constructor
    · intro hmem
      rcases hguard1s with ⟨hnil, heq⟩ | ⟨hcons, hne⟩
      · exfalso
        rcases hsplit _ hmem with h | h | h | h
        · exact hDEnone _ _ h
        · rw [hnil] at h
          cases h
        · rcases hguard2s with ⟨h2nil, -⟩ | ⟨h2cons, -⟩
          · rw [h2nil] at h
            cases h
          · rw [h2cons, List.mem_singleton] at h
            injection h with e1 e2
            exact hne_bm e1
        · rcases hDr with ⟨hrnil, -⟩ | ⟨hrcons, -⟩
          · rw [hrnil] at h
            cases h
          · rw [hrcons, List.mem_singleton] at h
            injection h with e1 e2
            exact hne_rb e1.symm
      · exact hne
    · intro hne
      rcases hguard1s with ⟨hnil, heq⟩ | ⟨hcons, -⟩
      · exact absurd heq hne
      · exact hin1 _ (by rw [hcons]; exact List.mem_singleton_self _)
  · rw [hNT]
    constructor
    · intro hmem
      rcases hguard2s with ⟨hnil, heq⟩ | ⟨hcons, hne⟩
      · exfalso
        rcases hsplit _ hmem with h | h | h | h
        · exact hDEnone _ _ h
        · rcases hguard1s with ⟨h1nil, -⟩ | ⟨h1cons, -⟩
          · rw [h1nil] at h
            cases h
          · rw [h1cons, List.mem_singleton] at h
            injection h with e1 e2
            exact hne_bm e1.symm
        · rw [hnil] at h
          cases h
        · rcases hDr with ⟨hrnil, -⟩ | ⟨hrcons, -⟩
          · rw [hrnil] at h
            cases h
          · rw [hrcons, List.mem_singleton] at h
            injection h with e1 e2
            exact hne_rm e1.symm
      · exact hne
    · intro hne
      rcases hguard2s with ⟨hnil, heq⟩ | ⟨hcons, -⟩
      · exact absurd heq hne
      · exact hin2 _ (by rw [hcons]; exact List.mem_singleton_self _)
  · rw [hNT]
    constructor
    · intro hmem
      rcases hDr with ⟨hnil, heq⟩ | ⟨hcons, hne⟩
      · exfalso
        rcases hsplit _ hmem with h | h | h | h
        · exact hDEnone _ _ h
        · rcases hguard1s with ⟨h1nil, -⟩ | ⟨h1cons, -⟩
          · rw [h1nil] at h
            cases h
          · rw [h1cons, List.mem_singleton] at h
            injection h with e1 e2
            exact hne_rb e1
        · rcases hguard2s with ⟨h2nil, -⟩ | ⟨h2cons, -⟩
          · rw [h2nil] at h
            cases h
          · rw [h2cons, List.mem_singleton] at h
            injection h with e1 e2
            exact hne_rm e1
        · rw [hnil] at h
          cases h
      · exact hne
    · intro hne
      rcases hDr with ⟨hnil, heq⟩ | ⟨hcons, -⟩
      · exact absurd heq hne
      · exact hin3 _ (by rw [hcons]; exact List.mem_singleton_self _)

theorem c4_parent_chain_guarded_witness :
    ∃ jr jb jm rg,
      findIdByName (build_rig demoEnv demoS2) "JNT_root" = some jr
      ∧ findIdByName (build_rig demoEnv demoS2) "JNT_base" = some jb
      ∧ findIdByName (build_rig demoEnv demoS2) "JNT_move" = some jm
      ∧ parentOf (build_rig demoEnv demoS2) jb = some jr
      ∧ parentOf (build_rig demoEnv demoS2) jm = some jb
      ∧ parentOf (build_rig demoEnv demoS2) jr = some rg
      ∧ nameOfId (build_rig demoEnv demoS2) rg = "GRP_rig"
      ∧ (HEvent.reparent jb jr ∈ newTrace demoS2 (build_rig demoEnv demoS2)
          ↔ parentShortName demoS2 jb ≠ some "JNT_root")
      ∧ (HEvent.reparent jm jb ∈ newTrace demoS2 (build_rig demoEnv demoS2)
          ↔ parentShortName demoS2 jm ≠ some "JNT_base")
      ∧ (HEvent.reparent jr rg ∈ newTrace demoS2 (build_rig demoEnv demoS2)
          ↔ parentOf demoS2 jr ≠ some rg) :=
  @c4_parent_chain_guarded demoEnv demoS2 (by decide) (by decide)
    (by decide) (by decide) (by decide) (by decide) (by decide) (by decide)
    (by decide) (by unfold noPipeNames; decide) (by decide)

/-! ## `bind_geom`: mesh scan and single-bind facts -/

theorem isDescendant_congr {s t : Scene} {d a : Nat} (h : t.nodes = s.nodes) :
    isDescendant t d a = isDescendant s d a := by
  unfold isDescendant
  rw [ancIds_congr h, h]

theorem meshTransformsUnder_congr {s t : Scene} {gid : Nat} (h : t.nodes = s.nodes) :
    meshTransformsUnder t gid = meshTransformsUnder s gid := by
  unfold meshTransformsUnder
  rw [h]
  congr 1
  apply List.filter_congr
  intro m hm
  rw [isDescendant_congr h]

theorem isJoint_of_ntypeOfName {s : Scene} {n : String} {j : Nat}
    (hwf : wf s = true) (hty : ntypeOfName s n = some NType.joint)
    (hfind : findIdByName s n = some j) :
    ((getNode s j).map (fun m => m.ntype == NType.joint)).getD false = true := by
  obtain ⟨v, hv, hvid⟩ := findIdByName_firstNamed hfind
  have hget : getNode s j = some v := by
    rw [← hvid]
    exact getNode_self_of_mem hwf (firstNamed_mem hv)
  have hvty : v.ntype = NType.joint := by
    unfold ntypeOfName at hty
    rw [hv] at hty
    simpa using hty
  rw [hget]
  simp [hvty]

theorem bind_geom_run {env : Option String} {s : Scene} {gid : Nat}
    (hg : pathExists2 s (rootNameOf env) "GRP_geom" = true)
    (hr : pathExists2 s (rootNameOf env) "GRP_rig" = true)
    (h1 : objExistsName s "JNT_root" = true)
    (h2 : objExistsName s "JNT_base" = true)
    (h3 : objExistsName s "JNT_move" = true)
    (hfp : findPath2 s (rootNameOf env) "GRP_geom" = some gid) :
    bind_geom env s =
      (if (meshTransformsUnder (assetPrelude env s).2 gid).isEmpty then
        logMsg (assetPrelude env s).2 Level.warn
          "No mesh geometry found under GRP_geom to bind."
      else
        logMsg (skinClusterCmd (selectNodesCmd (selectClearCmd (assetPrelude env s).2)
          ([(findIdByName (selectClearCmd (assetPrelude env s).2) "JNT_root").getD 0,
            (findIdByName (selectClearCmd (assetPrelude env s).2) "JNT_base").getD 0,
            (findIdByName (selectClearCmd (assetPrelude env s).2) "JNT_move").getD 0]
            ++ meshTransformsUnder (assetPrelude env s).2 gid)))
          Level.info "Bound mesh transform(s) to joints.") := by
  have hn : (assetPrelude env s).2.nodes = s.nodes := assetPrelude_nodes
  have hgA : pathExists2 (assetPrelude env s).2 ("GRP_" ++ (_asset_name env).1)
      "GRP_geom" = true := by
    rw [pathExists2_congr hn]
    exact hg
  have hrA : pathExists2 (assetPrelude env s).2 ("GRP_" ++ (_asset_name env).1)
      "GRP_rig" = true := by
    rw [pathExists2_congr hn]
    exact hr
  have h1A : objExistsName (assetPrelude env s).2 "JNT_root" = true := by
    rw [objExistsName_congr hn]
    exact h1
  have h2A : objExistsName (assetPrelude env s).2 "JNT_base" = true := by
    rw [objExistsName_congr hn]
    exact h2
  have h3A : objExistsName (assetPrelude env s).2 "JNT_move" = true := by
    rw [objExistsName_congr hn]
    exact h3
  have hfpA : findPath2 (assetPrelude env s).2 ("GRP_" ++ (_asset_name env).1)
      "GRP_geom" = some gid := by
    rw [findPath2_congr hn]
    exact hfp
  simp [bind_geom, assetPrelude_fst, _grp_names, _jnt_names, hgA, hrA, h1A, h2A,
    h3A, hfpA]

/-- C7: with both groups and the three joints present, `bind_geom` with no
mesh-bearing transform below the geometry group issues no skin-binding host
call, warns, and leaves the nodes untouched; with at least one such
transform (and the joint names carried by joint-typed nodes, the matched
transforms not joint-typed) it issues exactly one skin bind covering the
three joints and all matched meshes. -/
theorem c7_bind_geom_single_bind (env : Option String) (s : Scene)
    (hwf : wf s = true)
    (hg : pathExists2 s (rootNameOf env) "GRP_geom" = true)
    (hr : pathExists2 s (rootNameOf env) "GRP_rig" = true)
    (h1 : objExistsName s "JNT_root" = true)
    (h2 : objExistsName s "JNT_base" = true)
    (h3 : objExistsName s "JNT_move" = true)
    (hty1 : ntypeOfName s "JNT_root" = some NType.joint)
    (hty2 : ntypeOfName s "JNT_base" = some NType.joint)
    (hty3 : ntypeOfName s "JNT_move" = some NType.joint) :
    ∃ gid, findPath2 s (rootNameOf env) "GRP_geom" = some gid
    ∧ (meshTransformsUnder s gid = [] →
        skinBindCount (newTrace s (bind_geom env s)) = 0
        ∧ logHas (newLog s (bind_geom env s)) Level.warn = true
        ∧ (bind_geom env s).nodes = s.nodes)
    ∧ (meshTransformsUnder s gid ≠ [] →
        (∀ i ∈ meshTransformsUnder s gid,
          ((getNode s i).map (fun m => m.ntype == NType.joint)).getD false = false) →
        ∃ jr jb jm,
          findIdByName s "JNT_root" = some jr
          ∧ findIdByName s "JNT_base" = some jb
          ∧ findIdByName s "JNT_move" = some jm
          ∧ newTrace s (bind_geom env s) =
              [HEvent.selectClear,
               HEvent.selectNodes ([jr, jb, jm] ++ meshTransformsUnder s gid),
               HEvent.skinBind [jr, jb, jm] (meshTransformsUnder s gid)]
          ∧ skinBindCount (newTrace s (bind_geom env s)) = 1) := by
  obtain ⟨gid, hfp⟩ := Option.isSome_iff_exists.mp (findPath2_isSome_of_pathExists2 hg)
  have hn : (assetPrelude env s).2.nodes = s.nodes := assetPrelude_nodes
  have hmc : meshTransformsUnder (assetPrelude env s).2 gid =
      meshTransformsUnder s gid := meshTransformsUnder_congr hn
  have hrun := bind_geom_run hg hr h1 h2 h3 hfp
  refine ⟨gid, hfp, ?_, ?_⟩
  · intro hem
    have hempty : (meshTransformsUnder (assetPrelude env s).2 gid).isEmpty = true := by
      rw [hmc, hem]
      rfl
    rw [hrun, if_pos hempty]
    obtain ⟨L0, hL0⟩ := @log_assetPrelude env s
    refine ⟨?_, ?_, ?_⟩
    · unfold newTrace
      rw [trace_logMsg, assetPrelude_trace, List.drop_length]
      rfl
    · unfold newLog logHas
      rw [log_logMsg, hL0, List.append_assoc, List.drop_left]
      apply List.any_eq_true.mpr
      exact ⟨(Level.warn, "No mesh geometry found under GRP_geom to bind."),
        List.mem_append_right _ (List.mem_singleton_self _), by simp⟩
    · show (assetPrelude env s).2.nodes = s.nodes
      exact hn
  · intro hne hgeos
    have hempty : (meshTransformsUnder (assetPrelude env s).2 gid).isEmpty = false := by
      rw [hmc]
      cases hev : meshTransformsUnder s gid with
      | nil => exact absurd hev hne
      | cons a as => rfl
    rw [hrun, if_neg (by rw [hempty]; exact Bool.noConfusion)]
    have hnC : (selectClearCmd (assetPrelude env s).2).nodes = s.nodes := hn
    obtain ⟨jr, hjr⟩ := findIdByName_exists_of_objExists h1
    obtain ⟨jb, hjb⟩ := findIdByName_exists_of_objExists h2
    obtain ⟨jm, hjm⟩ := findIdByName_exists_of_objExists h3
    have hjrC : findIdByName (selectClearCmd (assetPrelude env s).2) "JNT_root" =
        some jr := by rw [findIdByName_congr hnC]; exact hjr
    have hjbC : findIdByName (selectClearCmd (assetPrelude env s).2) "JNT_base" =
        some jb := by rw [findIdByName_congr hnC]; exact hjb
    have hjmC : findIdByName (selectClearCmd (assetPrelude env s).2) "JNT_move" =
        some jm := by rw [findIdByName_congr hnC]; exact hjm
    rw [hjrC, hjbC, hjmC, hmc]
    refine ⟨jr, jb, jm, hjr, hjb, hjm, ?_, ?_⟩
    all_goals {
      have hsel : (selectNodesCmd (selectClearCmd (assetPrelude env s).2)
          ([(some jr).getD 0, (some jb).getD 0, (some jm).getD 0]
            ++ meshTransformsUnder s gid)).selection =
          [jr, jb, jm] ++ meshTransformsUnder s gid := rfl
      have hnS : (selectNodesCmd (selectClearCmd (assetPrelude env s).2)
          ([(some jr).getD 0, (some jb).getD 0, (some jm).getD 0]
            ++ meshTransformsUnder s gid)).nodes = s.nodes := hn
      have hisJ : ∀ i, ((getNode (selectNodesCmd (selectClearCmd (assetPrelude env s).2)
          ([(some jr).getD 0, (some jb).getD 0, (some jm).getD 0]
            ++ meshTransformsUnder s gid)) i).map
              (fun m => m.ntype == NType.joint)).getD false =
          ((getNode s i).map (fun m => m.ntype == NType.joint)).getD false := by
        intro i
        rw [getNode_congr hnS]
      have hJr := isJoint_of_ntypeOfName hwf hty1 hjr
      have hJb := isJoint_of_ntypeOfName hwf hty2 hjb
      have hJm := isJoint_of_ntypeOfName hwf hty3 hjm
      have hfilt1 : ([jr, jb, jm] ++ meshTransformsUnder s gid).filter
          (fun i => ((getNode (selectNodesCmd (selectClearCmd (assetPrelude env s).2)
            ([(some jr).getD 0, (some jb).getD 0, (some jm).getD 0]
              ++ meshTransformsUnder s gid)) i).map
                (fun m => m.ntype == NType.joint)).getD false) = [jr, jb, jm] := by
        rw [List.filter_append]
        have ha : ([jr, jb, jm].filter
            (fun i => ((getNode (selectNodesCmd (selectClearCmd (assetPrelude env s).2)
              ([(some jr).getD 0, (some jb).getD 0, (some jm).getD 0]
                ++ meshTransformsUnder s gid)) i).map
                  (fun m => m.ntype == NType.joint)).getD false)) = [jr, jb, jm] := by
          rw [List.filter_cons_of_pos (by rw [hisJ jr]; exact hJr),
            List.filter_cons_of_pos (by rw [hisJ jb]; exact hJb),
            List.filter_cons_of_pos (by rw [hisJ jm]; exact hJm)]
          rfl
        have hb : ((meshTransformsUnder s gid).filter
            (fun i => ((getNode (selectNodesCmd (selectClearCmd (assetPrelude env s).2)
              ([(some jr).getD 0, (some jb).getD 0, (some jm).getD 0]
                ++ meshTransformsUnder s gid)) i).map
                  (fun m => m.ntype == NType.joint)).getD false)) = [] := by
          rw [List.filter_eq_nil_iff]
          intro a ha2
          rw [hisJ a, hgeos a ha2]
          exact Bool.noConfusion
        rw [ha, hb, List.append_nil]
      have hfilt2 : ([jr, jb, jm] ++ meshTransformsUnder s gid).filter
          (fun i => !((getNode (selectNodesCmd (selectClearCmd (assetPrelude env s).2)
            ([(some jr).getD 0, (some jb).getD 0, (some jm).getD 0]
              ++ meshTransformsUnder s gid)) i).map
                (fun m => m.ntype == NType.joint)).getD false) =
          meshTransformsUnder s gid := by
        rw [List.filter_append]
        have ha : ([jr, jb, jm].filter
            (fun i => !((getNode (selectNodesCmd (selectClearCmd (assetPrelude env s).2)
              ([(some jr).getD 0, (some jb).getD 0, (some jm).getD 0]
                ++ meshTransformsUnder s gid)) i).map
                  (fun m => m.ntype == NType.joint)).getD false)) = [] := by
          rw [List.filter_eq_nil_iff]
          intro a ha2
          have ha3 : a = jr ∨ a = jb ∨ a = jm := by simpa using ha2
          rcases ha3 with h | h | h
          · intro hcon
            rw [h, hisJ jr, hJr] at hcon
            exact Bool.noConfusion hcon
          · intro hcon
            rw [h, hisJ jb, hJb] at hcon
            exact Bool.noConfusion hcon
          · intro hcon
            rw [h, hisJ jm, hJm] at hcon
            exact Bool.noConfusion hcon
        have hb : ((meshTransformsUnder s gid).filter
            (fun i => !((getNode (selectNodesCmd (selectClearCmd (assetPrelude env s).2)
              ([(some jr).getD 0, (some jb).getD 0, (some jm).getD 0]
                ++ meshTransformsUnder s gid)) i).map
                  (fun m => m.ntype == NType.joint)).getD false)) =
            meshTransformsUnder s gid := by
          apply List.filter_eq_self.mpr
          intro a ha2
          rw [hisJ a, hgeos a ha2]
          rfl
        rw [ha, hb]
        rfl
      have htrF : (logMsg (skinClusterCmd (selectNodesCmd
          (selectClearCmd (assetPrelude env s).2)
          ([(some jr).getD 0, (some jb).getD 0, (some jm).getD 0]
            ++ meshTransformsUnder s gid))) Level.info
          "Bound mesh transform(s) to joints.").trace =
          s.trace ++ [HEvent.selectClear,
            HEvent.selectNodes ([jr, jb, jm] ++ meshTransformsUnder s gid),
            HEvent.skinBind [jr, jb, jm] (meshTransformsUnder s gid)] := by
        show ((selectNodesCmd (selectClearCmd (assetPrelude env s).2)
          ([(some jr).getD 0, (some jb).getD 0, (some jm).getD 0]
            ++ meshTransformsUnder s gid)).trace ++
          [HEvent.skinBind _ _]) = _
        rw [hsel, hfilt1, hfilt2]
        show ((selectClearCmd (assetPrelude env s).2).trace ++ _) ++ _ = _
        rw [trace_selectClearCmd, assetPrelude_trace]
        simp [List.append_assoc]
      have hNT : newTrace s (logMsg (skinClusterCmd (selectNodesCmd
          (selectClearCmd (assetPrelude env s).2)
          ([(some jr).getD 0, (some jb).getD 0, (some jm).getD 0]
            ++ meshTransformsUnder s gid))) Level.info
          "Bound mesh transform(s) to joints.") =
          [HEvent.selectClear,
           HEvent.selectNodes ([jr, jb, jm] ++ meshTransformsUnder s gid),
           HEvent.skinBind [jr, jb, jm] (meshTransformsUnder s gid)] := by
        unfold newTrace
        rw [htrF, List.drop_left]
      first
      | exact hNT
      | (rw [hNT]; rfl)
    }

theorem c7_bind_geom_single_bind_witness :
    ∃ gid, findPath2 demoMesh (rootNameOf demoEnv) "GRP_geom" = some gid
    ∧ (meshTransformsUnder demoMesh gid = [] →
        skinBindCount (newTrace demoMesh (bind_geom demoEnv demoMesh)) = 0
        ∧ logHas (newLog demoMesh (bind_geom demoEnv demoMesh)) Level.warn = true
        ∧ (bind_geom demoEnv demoMesh).nodes = demoMesh.nodes)
    ∧ (meshTransformsUnder demoMesh gid ≠ [] →
        (∀ i ∈ meshTransformsUnder demoMesh gid,
          ((getNode demoMesh i).map (fun m => m.ntype == NType.joint)).getD false
            = false) →
        ∃ jr jb jm,
          findIdByName demoMesh "JNT_root" = some jr
          ∧ findIdByName demoMesh "JNT_base" = some jb
          ∧ findIdByName demoMesh "JNT_move" = some jm
          ∧ newTrace demoMesh (bind_geom demoEnv demoMesh) =
              [HEvent.selectClear,
               HEvent.selectNodes ([jr, jb, jm] ++ meshTransformsUnder demoMesh gid),
               HEvent.skinBind [jr, jb, jm] (meshTransformsUnder demoMesh gid)]
          ∧ skinBindCount (newTrace demoMesh (bind_geom demoEnv demoMesh)) = 1) :=
  c7_bind_geom_single_bind demoEnv demoMesh (by decide) (by decide) (by decide)
    (by decide) (by decide) (by decide) (by decide) (by decide) (by decide)

/-! ## Frame property of `build_rig` -/

theorem nameOfId_parentIfNeededShort {s : Scene} {child target : String} {j : Nat} :
    nameOfId ((parentIfNeededShort s child target).1) j = nameOfId s j := by
  cases hc : findIdByName s child with
  | none => rw [parentIfNeededShort_eq_noneL hc]
  | some c =>
    cases ht : findIdByName s target with
    | none => rw [parentIfNeededShort_eq_noneR hc ht]
    | some t =>
      cases hg : (parentShortName s c != some target) with
      | false => rw [parentIfNeededShort_eq_skip hc ht hg]
      | true =>
        rw [parentIfNeededShort_eq_call hc ht hg]
        exact nameOfId_parentCmd

theorem findIdByName_parentIfNeededShort {s : Scene} {child target : String}
    {m : String} :
    findIdByName ((parentIfNeededShort s child target).1) m = findIdByName s m := by
  cases hc : findIdByName s child with
  | none => rw [parentIfNeededShort_eq_noneL hc]
  | some c =>
    cases ht : findIdByName s target with
    | none => rw [parentIfNeededShort_eq_noneR hc ht]
    | some t =>
      cases hg : (parentShortName s c != some target) with
      | false => rw [parentIfNeededShort_eq_skip hc ht hg]
      | true =>
        rw [parentIfNeededShort_eq_call hc ht hg]
        exact findIdByName_parentCmd

theorem nameOfId_chainTry {s : Scene} {a b c : String} {j : Nat} :
    nameOfId (chainTry s a b c) j = nameOfId s j := by
  rw [chainTry_eq]
  split
  · split
    · rw [nameOfId_parentIfNeededShort, nameOfId_parentIfNeededShort]
    · rw [nameOfId_logMsg, nameOfId_parentIfNeededShort, nameOfId_parentIfNeededShort]
  · rw [nameOfId_logMsg, nameOfId_parentIfNeededShort]

theorem nameOfId_rigTry {s : Scene} {rigPath root rig jntRoot : String} {j : Nat} :
    nameOfId (rigTry s rigPath root rig jntRoot) j = nameOfId s j := by
  cases h : findIdByName s jntRoot with
  | none => rw [rigTry_eq_noneJ h, nameOfId_logMsg]
  | some jr =>
    cases hg : (parentFullPath s jr != some rigPath) with
    | false => rw [rigTry_eq_skip h hg]
    | true =>
      cases hp : findPath2 s root rig with
      | none => rw [rigTry_eq_noPath h hg hp, nameOfId_logMsg]
      | some t =>
        rw [rigTry_eq_call h hg hp]
        split
        · exact nameOfId_parentCmd
        · rw [nameOfId_logMsg]
          exact nameOfId_parentCmd

theorem trace__ensure_joint_named {s : Scene} {n : String} {p : Pos}
    (hwf : wf s = true) :
    ∃ Δ, (_ensure_joint s n p).trace = s.trace ++ Δ
      ∧ ∀ e ∈ Δ, e = HEvent.selectClear
          ∨ (∃ j q, e = HEvent.createJoint j n q)
          ∨ (∃ j q, e = HEvent.setTranslation j q
              ∧ nameOfId s j = n ∧ j < s.nextId) := by
  cases hex : objExistsName s n with
  | true =>
    rw [_ensure_joint_exists hex, trace_logMsg]
    cases hf : findIdByName s n with
    | none =>
      rw [xformSetWT_none hf]
      exact ⟨[], (List.append_nil _).symm, by intro e he; cases he⟩
    | some i =>
      rw [xformSetWT_some hf]
      refine ⟨[HEvent.setTranslation i p], rfl, ?_⟩
      intro e he
      rw [List.mem_singleton] at he
      subst he
      obtain ⟨w, hw, hwname, hwid⟩ := getNode_of_findIdByName hwf hf
      refine Or.inr (Or.inr ⟨i, p, rfl, ?_, ?_⟩)
      · unfold nameOfId
        rw [hw]
        simpa using hwname
      · have := wf_idLt hwf w (List.mem_of_find?_eq_some hw)
        omega
  | false =>
    rw [_ensure_joint_absent hex, trace_logMsg]
    unfold jointCmd
    rw [trace_createNode, trace_selectClearCmd, List.append_assoc]
    refine ⟨_, rfl, ?_⟩
    intro e he
    rcases List.mem_append.mp he with h1 | h1
    · rw [List.mem_singleton] at h1
      exact Or.inl h1
    · rw [List.mem_singleton] at h1
      subst h1
      exact Or.inr (Or.inl ⟨_, _, rfl⟩)

theorem trace_parentIfNeededShort_shape {s : Scene} {child target : String} :
    ∃ Δ, (parentIfNeededShort s child target).1.trace = s.trace ++ Δ
      ∧ ∀ e ∈ Δ, ∃ c t, e = HEvent.reparent c t
          ∧ findIdByName s child = some c := by
  cases hc : findIdByName s child with
  | none =>
    rw [parentIfNeededShort_eq_noneL hc]
    exact ⟨[], (List.append_nil _).symm, by intro e he; cases he⟩
  | some c =>
    cases ht : findIdByName s target with
    | none =>
      rw [parentIfNeededShort_eq_noneR hc ht]
      exact ⟨[], (List.append_nil _).symm, by intro e he; cases he⟩
    | some t =>
      cases hg : (parentShortName s c != some target) with
      | false =>
        rw [parentIfNeededShort_eq_skip hc ht hg]
        exact ⟨[], (List.append_nil _).symm, by intro e he; cases he⟩
      | true =>
        rw [parentIfNeededShort_eq_call hc ht hg, parentCmd_trace]
        refine ⟨[HEvent.reparent c t], rfl, ?_⟩
        intro e he
        rw [List.mem_singleton] at he
        exact ⟨c, t, he, rfl⟩

theorem trace_chainTry_shape {s : Scene} {a b c : String} :
    ∃ Δ, (chainTry s a b c).trace = s.trace ++ Δ
      ∧ ∀ e ∈ Δ, ∃ cc tt, e = HEvent.reparent cc tt
          ∧ (findIdByName s b = some cc ∨ findIdByName s c = some cc) := by
  obtain ⟨D1, hD1, hs1⟩ := @trace_parentIfNeededShort_shape s b a
  obtain ⟨D2, hD2, hs2⟩ :=
    @trace_parentIfNeededShort_shape (parentIfNeededShort s b a).1 c b
  have hcomb : ∀ e ∈ D1 ++ D2, ∃ cc tt, e = HEvent.reparent cc tt
      ∧ (findIdByName s b = some cc ∨ findIdByName s c = some cc) := by
    intro e he
    rcases List.mem_append.mp he with h | h
    · obtain ⟨cc, tt, heq, hf⟩ := hs1 e h
      exact ⟨cc, tt, heq, Or.inl hf⟩
    · obtain ⟨cc, tt, heq, hf⟩ := hs2 e h
      rw [findIdByName_parentIfNeededShort] at hf
      exact ⟨cc, tt, heq, Or.inr hf⟩
  rw [chainTry_eq]
  split
  · split
    · refine ⟨D1 ++ D2, ?_, hcomb⟩
      rw [hD2, hD1, List.append_assoc]
    · refine ⟨D1 ++ D2, ?_, hcomb⟩
      rw [trace_logMsg, hD2, hD1, List.append_assoc]
  · refine ⟨D1, ?_, ?_⟩
    · rw [trace_logMsg, hD1]
    · intro e he
      obtain ⟨cc, tt, heq, hf⟩ := hs1 e he
      exact ⟨cc, tt, heq, Or.inl hf⟩

theorem trace_rigTry_shape {s : Scene} {rigPath root rig jntRoot : String} :
    ∃ Δ, (rigTry s rigPath root rig jntRoot).trace = s.trace ++ Δ
      ∧ ∀ e ∈ Δ, ∃ cc tt, e = HEvent.reparent cc tt
          ∧ findIdByName s jntRoot = some cc := by
  cases h : findIdByName s jntRoot with
  | none =>
    rw [rigTry_eq_noneJ h, trace_logMsg]
    exact ⟨[], (List.append_nil _).symm, by intro e he; cases he⟩
  | some jr =>
    cases hg : (parentFullPath s jr != some rigPath) with
    | false =>
      rw [rigTry_eq_skip h hg]
      exact ⟨[], (List.append_nil _).symm, by intro e he; cases he⟩
    | true =>
      cases hp : findPath2 s root rig with
      | none =>
        rw [rigTry_eq_noPath h hg hp, trace_logMsg]
        exact ⟨[], (List.append_nil _).symm, by intro e he; cases he⟩
      | some t =>
        rw [rigTry_eq_call h hg hp]
        have hmem : ∀ e ∈ [HEvent.reparent jr t], ∃ cc tt,
            e = HEvent.reparent cc tt ∧ (some jr : Option Nat) = some cc := by
          intro e he
          rw [List.mem_singleton] at he
          exact ⟨jr, t, he, rfl⟩
        split
        · exact ⟨[HEvent.reparent jr t], parentCmd_trace, hmem⟩
        · exact ⟨[HEvent.reparent jr t], by rw [trace_logMsg]; exact parentCmd_trace,
            hmem⟩

theorem jointOnly_selectClear {t : Scene} :
    jointOnlyEvent t HEvent.selectClear = true := rfl

theorem jointOnly_createJoint {t : Scene} {j : Nat} {n : String} {q : Pos}
    (h : jntNameList.contains n = true) :
    jointOnlyEvent t (HEvent.createJoint j n q) = true := h

theorem jointOnly_setTranslation {t : Scene} {j : Nat} {q : Pos}
    (h : jntNameList.contains (nameOfId t j) = true) :
    jointOnlyEvent t (HEvent.setTranslation j q) = true := h

theorem jointOnly_reparent {t : Scene} {j tt : Nat}
    (h : jntNameList.contains (nameOfId t j) = true) :
    jointOnlyEvent t (HEvent.reparent j tt) = true := h

theorem nameOfId_of_findIdByName {s : Scene} {n : String} {j : Nat}
    (hwf : wf s = true) (h : findIdByName s n = some j) : nameOfId s j = n := by
  obtain ⟨w, hw, hwname, hwid⟩ := getNode_of_findIdByName hwf h
  unfold nameOfId
  rw [hw]
  simpa using hwname

/-- C10: a `build_rig` run with its prerequisites present appends only
joint-directed host events (selection clear, joint creation, moving or
reparenting a node carrying a joint name); it never creates, moves or
reparents a group or locator, every locator keeps the position it had when
the call started, and every name other than the three joint names keeps
its node count. -/
theorem c10_build_rig_frame (env : Option String) (s : Scene)
    (hwf : wf s = true)
    (hrig : pathExists2 s (rootNameOf env) "GRP_rig" = true)
    (hl1 : objExistsName s "LOC_root" = true)
    (hl2 : objExistsName s "LOC_base" = true)
    (hl3 : objExistsName s "LOC_move" = true) :
    (newTrace s (build_rig env s)).all (jointOnlyEvent (build_rig env s)) = true
    ∧ posOfName (build_rig env s) "LOC_root" = posOfName s "LOC_root"
    ∧ posOfName (build_rig env s) "LOC_base" = posOfName s "LOC_base"
    ∧ posOfName (build_rig env s) "LOC_move" = posOfName s "LOC_move"
    ∧ (∀ m, m ≠ "JNT_root" → m ≠ "JNT_base" → m ≠ "JNT_move" →
        countName (build_rig env s) m = countName s m) := by
  have hA : (assetPrelude env s).2.nodes = s.nodes := assetPrelude_nodes
  have hwfA : wf (assetPrelude env s).2 = true := wf_assetPrelude hwf
  rw [build_rig_run hrig hl1 hl2 hl3]
  set A := (assetPrelude env s).2 with hAdef
  set E1 := _ensure_joint A "JNT_root" (posOfName s "LOC_root") with hE1def
  set E2 := _ensure_joint E1 "JNT_base" (posOfName s "LOC_base") with hE2def
  set E3 := _ensure_joint E2 "JNT_move" (posOfName s "LOC_move") with hE3def
  set X := chainTry E3 "JNT_root" "JNT_base" "JNT_move" with hXdef
  set F := logMsg (rigTry X (rootNameOf env ++ "|" ++ "GRP_rig") (rootNameOf env)
    "GRP_rig" "JNT_root") Level.info "Rig built or updated under rig path" with hFdef
  have hwfE1 : wf E1 = true := wf__ensure_joint hwfA
  have hwfE2 : wf E2 = true := wf__ensure_joint hwfE1
  have hwfE3 : wf E3 = true := wf__ensure_joint hwfE2
  have hwfX : wf X = true := wf_chainTry hwfE3
  have hF3 : ∀ q, nameOfId F q = nameOfId E3 q := by
    intro q
    rw [hFdef, nameOfId_logMsg, nameOfId_rigTry, hXdef, nameOfId_chainTry]
  have hFX : ∀ q, nameOfId F q = nameOfId X q := by
    intro q
    rw [hFdef, nameOfId_logMsg, nameOfId_rigTry]
  refine ⟨?_, ?_, ?_, ?_, ?_⟩
  · obtain ⟨D1, hD1, hs1⟩ := trace__ensure_joint_named
      (s := A) (n := "JNT_root") (p := posOfName s "LOC_root") hwfA
    obtain ⟨D2, hD2, hs2⟩ := trace__ensure_joint_named
      (s := E1) (n := "JNT_base") (p := posOfName s "LOC_base") hwfE1
    obtain ⟨D3, hD3, hs3⟩ := trace__ensure_joint_named
      (s := E2) (n := "JNT_move") (p := posOfName s "LOC_move") hwfE2
    obtain ⟨Dc, hDc, hsc⟩ := trace_chainTry_shape (s := E3) (a := "JNT_root")
      (b := "JNT_base") (c := "JNT_move")
    obtain ⟨Dr, hDr, hsr⟩ := @trace_rigTry_shape X
      (rootNameOf env ++ "|" ++ "GRP_rig") (rootNameOf env) "GRP_rig" "JNT_root"
    have htrF : F.trace = s.trace ++ (D1 ++ (D2 ++ (D3 ++ (Dc ++ Dr)))) := by
      rw [hFdef, trace_logMsg, hDr, hXdef, hDc, hE3def, hD3, hE2def, hD2,
        hE1def, hD1, hAdef, assetPrelude_trace]
      simp [List.append_assoc]
    have hNT : newTrace s F = D1 ++ (D2 ++ (D3 ++ (Dc ++ Dr))) := by
      unfold newTrace
      rw [htrF, List.drop_left]
    rw [hNT]
    apply List.all_eq_true.mpr
    intro e he
    have hnmE13 : ∀ j, j < E1.nextId → nameOfId E3 j = nameOfId E1 j := by
      intro j hj
      have hj2 : j < E2.nextId := lt_of_lt_of_le hj (by rw [hE2def]; exact nextId__ensure_joint)
      rw [hE3def, nameOfId__ensure_joint_lt hj2, hE2def, nameOfId__ensure_joint_lt hj]
    have hnmE23 : ∀ j, j < E2.nextId → nameOfId E3 j = nameOfId E2 j := by
      intro j hj
      rw [hE3def, nameOfId__ensure_joint_lt hj]
    have hnmA3 : ∀ j, j < A.nextId → nameOfId E3 j = nameOfId A j := by
      intro j hj
      have hj1 : j < E1.nextId := lt_of_lt_of_le hj (by rw [hE1def]; exact nextId__ensure_joint)
      rw [hnmE13 j hj1, hE1def, nameOfId__ensure_joint_lt hj]
    rcases List.mem_append.mp he with h1 | h23
    · rcases hs1 e h1 with hsel | ⟨j, q, hcj⟩ | ⟨j, q, hst, hnm, hlt⟩
      · subst hsel
        exact jointOnly_selectClear
      · subst hcj
        exact jointOnly_createJoint (by decide)
      · subst hst
        apply jointOnly_setTranslation
        rw [hF3 j, hnmA3 j hlt, hnm]
        decide
    rcases List.mem_append.mp h23 with h2 | h33
    · rcases hs2 e h2 with hsel | ⟨j, q, hcj⟩ | ⟨j, q, hst, hnm, hlt⟩
      · subst hsel
        exact jointOnly_selectClear
      · subst hcj
        exact jointOnly_createJoint (by decide)
      · subst hst
        apply jointOnly_setTranslation
        rw [hF3 j, hnmE13 j hlt, hnm]
        decide
    rcases List.mem_append.mp h33 with h3 | hcr
    · rcases hs3 e h3 with hsel | ⟨j, q, hcj⟩ | ⟨j, q, hst, hnm, hlt⟩
      · subst hsel
        exact jointOnly_selectClear
      · subst hcj
        exact jointOnly_createJoint (by decide)
      · subst hst
        apply jointOnly_setTranslation
        rw [hF3 j, hnmE23 j hlt, hnm]
        decide
    rcases List.mem_append.mp hcr with hc | hr
    · obtain ⟨cc, tt, heq, hf⟩ := hsc e hc
      subst heq
      apply jointOnly_reparent
      rcases hf with hf | hf
      · rw [hF3 cc, nameOfId_of_findIdByName hwfE3 hf]
        decide
      · rw [hF3 cc, nameOfId_of_findIdByName hwfE3 hf]
        decide
    · obtain ⟨cc, tt, heq, hf⟩ := hsr e hr
      subst heq
      apply jointOnly_reparent
      rw [hFX cc, nameOfId_of_findIdByName hwfX hf]
      decide
  · rw [hFdef, posOfName_logMsg, posOfName_rigTry, hXdef, posOfName_chainTry,
      hE3def, posOfName__ensure_joint_other hwfE2 (by decide),
      hE2def, posOfName__ensure_joint_other hwfE1 (by decide),
      hE1def, posOfName__ensure_joint_other hwfA (by decide),
      hAdef, posOfName_congr hA]
  · rw [hFdef, posOfName_logMsg, posOfName_rigTry, hXdef, posOfName_chainTry,
      hE3def, posOfName__ensure_joint_other hwfE2 (by decide),
      hE2def, posOfName__ensure_joint_other hwfE1 (by decide),
      hE1def, posOfName__ensure_joint_other hwfA (by decide),
      hAdef, posOfName_congr hA]
  · rw [hFdef, posOfName_logMsg, posOfName_rigTry, hXdef, posOfName_chainTry,
      hE3def, posOfName__ensure_joint_other hwfE2 (by decide),
      hE2def, posOfName__ensure_joint_other hwfE1 (by decide),
      hE1def, posOfName__ensure_joint_other hwfA (by decide),
      hAdef, posOfName_congr hA]
  · intro m h1 h2 h3
    have := (build_rig_counts hwf hrig hl1 hl2 hl3).2.2.2 m h1 h2 h3
    rw [build_rig_run hrig hl1 hl2 hl3] at this
    exact this

theorem c10_build_rig_frame_witness :
    (newTrace demoS2 (build_rig demoEnv demoS2)).all
        (jointOnlyEvent (build_rig demoEnv demoS2)) = true
    ∧ posOfName (build_rig demoEnv demoS2) "LOC_root" = posOfName demoS2 "LOC_root"
    ∧ posOfName (build_rig demoEnv demoS2) "LOC_base" = posOfName demoS2 "LOC_base"
    ∧ posOfName (build_rig demoEnv demoS2) "LOC_move" = posOfName demoS2 "LOC_move"
    ∧ (∀ m, m ≠ "JNT_root" → m ≠ "JNT_base" → m ≠ "JNT_move" →
        countName (build_rig demoEnv demoS2) m = countName demoS2 m) :=
  c10_build_rig_frame demoEnv demoS2 (by decide) (by decide) (by decide) (by decide)
    (by decide)

/-! ## Manually moved locators: second full run versus rebuild only -/

/-- C2 counterexample: running the full sequence (group → locators → rig)
a second time after manually moving the locators leaves the joints at the
root-group pivot `(0,0,0)`, not at the manually moved positions — the
second `place_locators` resets every locator to the pivot before the
joints are synced. -/
theorem c2_full_sequence_twice_counterexample :
    demoSecondRun =
      build_rig demoEnv (place_locators demoEnv (create_group demoEnv demoMoved))
    ∧ posOfName demoMoved "LOC_root" = (1, 2, 3)
    ∧ posOfName demoMoved "LOC_base" = (4, 5, 6)
    ∧ posOfName demoMoved "LOC_move" = (7, 8, 9)
    ∧ posOfName demoSecondRun "JNT_root" = (0, 0, 0)
    ∧ posOfName demoSecondRun "JNT_base" = (0, 0, 0)
    ∧ posOfName demoSecondRun "JNT_move" = (0, 0, 0)
    ∧ posOfName demoSecondRun "JNT_root" ≠ (1, 2, 3)
    ∧ jointTotal demoSecondRun = 3 :=
  ⟨rfl, by decide, by decide, by decide, by decide, by decide, by decide,
   by decide, by decide⟩

/-- C2 amended: with the locators manually moved after a first full run,
re-running only the build step leaves the joints exactly at the moved
positions with no duplicate joints (the spec's "manual edits survive across
separate build requests"). -/
theorem c2_moved_locators_rebuild (env : Option String) (s : Scene)
    (q1 q2 q3 : Pos)
    (hwf : wf s = true)
    (hrig : pathExists2 s (rootNameOf env) "GRP_rig" = true)
    (hl1 : objExistsName s "LOC_root" = true)
    (hl2 : objExistsName s "LOC_base" = true)
    (hl3 : objExistsName s "LOC_move" = true)
    (hc1 : countName s "JNT_root" ≤ 1) (hc2 : countName s "JNT_base" ≤ 1)
    (hc3 : countName s "JNT_move" ≤ 1) :
    posOfName (build_rig env (moveLocs s q1 q2 q3)) "JNT_root" = q1
    ∧ posOfName (build_rig env (moveLocs s q1 q2 q3)) "JNT_base" = q2
    ∧ posOfName (build_rig env (moveLocs s q1 q2 q3)) "JNT_move" = q3
    ∧ jointTotal (build_rig env (moveLocs s q1 q2 q3)) = 3 := by
  have hwf1 : wf (xformSetWT s "LOC_root" q1) = true := wf_xformSetWT hwf
  have hwf2 : wf (xformSetWT (xformSetWT s "LOC_root" q1) "LOC_base" q2) = true :=
    wf_xformSetWT hwf1
  have hwfM : wf (moveLocs s q1 q2 q3) = true := wf_xformSetWT hwf2
  have hrigM : pathExists2 (moveLocs s q1 q2 q3) (rootNameOf env) "GRP_rig" = true := by
    unfold moveLocs
    rw [pathExists2_xformSetWT, pathExists2_xformSetWT, pathExists2_xformSetWT]
    exact hrig
  have hl1M : objExistsName (moveLocs s q1 q2 q3) "LOC_root" = true := by
    unfold moveLocs
    rw [objExistsName_xformSetWT, objExistsName_xformSetWT, objExistsName_xformSetWT]
    exact hl1
  have hl2M : objExistsName (moveLocs s q1 q2 q3) "LOC_base" = true := by
    unfold moveLocs
    rw [objExistsName_xformSetWT, objExistsName_xformSetWT, objExistsName_xformSetWT]
    exact hl2
  have hl3M : objExistsName (moveLocs s q1 q2 q3) "LOC_move" = true := by
    unfold moveLocs
    rw [objExistsName_xformSetWT, objExistsName_xformSetWT, objExistsName_xformSetWT]
    exact hl3
  have hp1 : posOfName (moveLocs s q1 q2 q3) "LOC_root" = q1 := by
    unfold moveLocs
    rw [posOfName_xformSetWT_other hwf2 (by decide),
      posOfName_xformSetWT_other hwf1 (by decide),
      posOfName_xformSetWT_self hl1]
  have hp2 : posOfName (moveLocs s q1 q2 q3) "LOC_base" = q2 := by
    unfold moveLocs
    rw [posOfName_xformSetWT_other hwf2 (by decide)]
    apply posOfName_xformSetWT_self
    rw [objExistsName_xformSetWT]
    exact hl2
  have hp3 : posOfName (moveLocs s q1 q2 q3) "LOC_move" = q3 := by
    unfold moveLocs
    apply posOfName_xformSetWT_self
    rw [objExistsName_xformSetWT, objExistsName_xformSetWT]
    exact hl3
  obtain ⟨hq1, hq2, hq3⟩ := build_rig_positions hwfM hrigM hl1M hl2M hl3M
  obtain ⟨hcc1, hcc2, hcc3, -⟩ := build_rig_counts hwfM hrigM hl1M hl2M hl3M
  have hm1 : countName (moveLocs s q1 q2 q3) "JNT_root" = countName s "JNT_root" := by
    unfold moveLocs
    rw [countName_xformSetWT, countName_xformSetWT, countName_xformSetWT]
  have hm2 : countName (moveLocs s q1 q2 q3) "JNT_base" = countName s "JNT_base" := by
    unfold moveLocs
    rw [countName_xformSetWT, countName_xformSetWT, countName_xformSetWT]
  have hm3 : countName (moveLocs s q1 q2 q3) "JNT_move" = countName s "JNT_move" := by
    unfold moveLocs
    rw [countName_xformSetWT, countName_xformSetWT, countName_xformSetWT]
  refine ⟨?_, ?_, ?_, ?_⟩
  · rw [hq1, hp1]
  · rw [hq2, hp2]
  · rw [hq3, hp3]
  · unfold jointTotal
    rw [hcc1, hcc2, hcc3, hm1, hm2, hm3]
    omega

theorem c2_moved_locators_rebuild_witness :
    posOfName (build_rig demoEnv demoMoved) "JNT_root" = (1, 2, 3)
    ∧ posOfName (build_rig demoEnv demoMoved) "JNT_base" = (4, 5, 6)
    ∧ posOfName (build_rig demoEnv demoMoved) "JNT_move" = (7, 8, 9)
    ∧ jointTotal (build_rig demoEnv demoMoved) = 3 :=
  c2_moved_locators_rebuild demoEnv demoS3 (1, 2, 3) (4, 5, 6) (7, 8, 9)
    (by decide) (by decide) (by decide) (by decide) (by decide) (by decide)
    (by decide) (by decide)

end PropRig

